import Mathlib

/-!
# ThermoGuard client: validation, classification and data-access layer

A shallow embedding of `config/index.js`, `styles/theme.js`,
`services/apiService.js`, `services/sensorService.js` and
`services/leituraService.js`, followed by theorems about them.

Conventions of the embedding.

* A JavaScript number is `NaN`, `+Infinity`, `-Infinity` or a finite value; a
  finite value is represented by its exact rational value (`-0` and `0` are
  one value: they compare equal and are both falsy).
* A JavaScript string is a Lean `String`; its `.length` is the number of
  UTF-16 code units.
* A payload field is `undefined` (also: absent), `null`, a boolean, a number,
  a string or a `Date`; arrays and other objects as field values are outside
  the model.
* Conversions that depend on the binary64 representation of a number or on the
  host (the digits `Number::toString` prints, the text `Date.prototype.toString`
  prints) are supplied by an `Engine` argument.
-/

namespace ThermoGuard

/-! ## JavaScript values -/

/-- A JavaScript number. -/
inductive JSNum where
  | nan
  | posInf
  | negInf
  | fin (q : ℚ)
  deriving DecidableEq

namespace JSNum

/-- The relational operator `a < b` on numbers: false when either is `NaN`. -/
def lt : JSNum → JSNum → Bool
  | nan, _ => false
  | _, nan => false
  | posInf, _ => false
  | _, negInf => false
  | negInf, _ => true
  | fin _, posInf => true
  | fin a, fin b => decide (a < b)

/-- The operator `a > b`, which is `b < a`. -/
def gt (a b : JSNum) : Bool := lt b a

/-- The operator `a <= b`: false when either is `NaN`, otherwise `!(b < a)`. -/
def le : JSNum → JSNum → Bool
  | nan, _ => false
  | _, nan => false
  | a, b => !(lt b a)

/-- The operator `a >= b`: false when either is `NaN`, otherwise `!(a < b)`. -/
def ge : JSNum → JSNum → Bool
  | nan, _ => false
  | _, nan => false
  | a, b => !(lt a b)

/-- The global `isNaN` on a number. -/
def isNaN : JSNum → Bool
  | nan => true
  | _ => false

/-- An integer as a JavaScript number. -/
def ofInt (i : Int) : JSNum := fin (i : ℚ)

end JSNum

/-- A value a payload field can hold. The time value of a `Date` is `none`
for an invalid date and otherwise the milliseconds since the epoch. -/
inductive JSVal where
  | undefined
  | null
  | bool (b : Bool)
  | num (n : JSNum)
  | str (s : String)
  | date (t : Option Int)
  deriving DecidableEq

/-- An error value raised by the code. `error` is `new Error(message)`;
`typeError` and `rangeError` are raised by the runtime (their message text
depends on the engine, so only the offending operation is recorded);
`syntaxError` is a failed JSON parse. -/
inductive JSError where
  | error (message : String)
  | typeError (operation : String)
  | rangeError (operation : String)
  | syntaxError
  deriving DecidableEq

deriving instance DecidableEq for Except

/-- Built-in conversions of the host that the embedding does not compute:
`numberToString` is `Number::toString` on a finite number, `dateToString` is
`Date.prototype.toString` on a valid date, `dateParse` is `Date.parse` (`none`
for `NaN`). -/
structure Engine where
  numberToString : ℚ → String
  dateToString : Int → String
  dateParse : String → Option Int

/-! ## Strings -/

/-- `WhiteSpace` and `LineTerminator` code points of ECMAScript: what
`String.prototype.trim`, `parseFloat`, `parseInt` and the string-to-number
conversion strip. -/
def isWhiteSpace (c : Char) : Bool :=
  let n := c.toNat
  n == 0x09 || n == 0x0A || n == 0x0B || n == 0x0C || n == 0x0D || n == 0x20 ||
  n == 0xA0 || n == 0x1680 || (0x2000 ≤ n && n ≤ 0x200A) || n == 0x2028 ||
  n == 0x2029 || n == 0x202F || n == 0x205F || n == 0x3000 || n == 0xFEFF

/-- `String.prototype.trimStart` on the code points of a string. -/
def trimStart (cs : List Char) : List Char := cs.dropWhile isWhiteSpace

/-- `String.prototype.trimEnd` on the code points of a string. -/
def trimEnd (cs : List Char) : List Char := (trimStart cs.reverse).reverse

/-- `String.prototype.trim` on the code points of a string. -/
def trim (cs : List Char) : List Char := trimEnd (trimStart cs)

/-- The `.length` of a string: its number of UTF-16 code units (two for a
code point above U+FFFF). -/
def utf16Length : List Char → Nat
  | [] => 0
  | c :: cs => (if c.toNat < 0x10000 then 1 else 2) + utf16Length cs

/-- `Array.prototype.join(', ')` on strings. -/
def joinComma : List String → String
  | [] => ""
  | [s] => s
  | s :: t :: rest => s ++ ", " ++ joinComma (t :: rest)

/-! ## Numeric literals in strings -/

/-- Value of a digit in a radix up to 16, `none` for any other character. -/
def digitValue (radix : Nat) (c : Char) : Option Nat :=
  let n := c.toNat
  let v := if 48 ≤ n && n ≤ 57 then n - 48
    else if 97 ≤ n && n ≤ 102 then n - 87
    else if 65 ≤ n && n ≤ 70 then n - 55
    else 16
  if v < radix then some v else none

/-- The longest prefix of radix digits, and the rest. -/
def takeDigits (radix : Nat) : List Char → List Char × List Char
  | [] => ([], [])
  | c :: cs =>
    match digitValue radix c with
    | some _ => ((takeDigits radix cs).1.cons c, (takeDigits radix cs).2)
    | none => ([], c :: cs)

/-- The mathematical value of a sequence of radix digits. -/
def digitsValue (radix : Nat) (ds : List Char) : Nat :=
  ds.foldl (fun acc c => radix * acc + (digitValue radix c).getD 0) 0

/-- The number of binary digits of a natural number, computed with the number
itself as fuel. -/
def bitLengthAux : Nat → Nat → Nat
  | 0, _ => 0
  | fuel + 1, n => if n = 0 then 0 else bitLengthAux fuel (n / 2) + 1

/-- The number of binary digits of a natural number (0 for 0). -/
def bitLength (n : Nat) : Nat := bitLengthAux n n

/-- The quotient of two naturals rounded to the nearest integer, a tie going
to the even one. -/
def divRoundHalfEven (a b : Nat) : Nat :=
  if 2 * (a % b) < b then a / b
  else if b < 2 * (a % b) then a / b + 1
  else if a / b % 2 = 0 then a / b else a / b + 1

/-- The binary exponent `e` of a positive fraction `n / d`:
2^e <= n / d < 2^(e+1). -/
def binaryExponent (n d : Nat) : Int :=
  let c : Int := (bitLength n : Int) - (bitLength d : Int)
  if (if 0 ≤ c then d * 2 ^ c.toNat ≤ n else d ≤ n * 2 ^ (-c).toNat) then c else c - 1

/-- The Number value for a mathematical value: the nearest value of the
binary64 format (53 significant bits, last place not below 2^-1074), a tie
going to the even significand; a magnitude that rounds to 2^1024 or more is an
infinity. The two zeros are one value here. -/
def roundToDouble (q : ℚ) : JSNum :=
  if q = 0 then .fin 0
  else
    let s : Int := max (binaryExponent q.num.natAbs q.den - 52) (-1074)
    let m : Nat :=
      if 0 ≤ s then divRoundHalfEven q.num.natAbs (q.den * 2 ^ s.toNat)
      else divRoundHalfEven (q.num.natAbs * 2 ^ (-s).toNat) q.den
    if 0 ≤ s ∧ 2 ^ 1024 ≤ m * 2 ^ s.toNat then (if q < 0 then .negInf else .posInf)
    else if 0 ≤ s then .fin ((if q < 0 then -1 else 1) * ((m * 2 ^ s.toNat : Nat) : ℚ))
    else .fin ((if q < 0 then -1 else 1) * ((m : Nat) : ℚ) / ((2 ^ (-s).toNat : Nat) : ℚ))

/-- The sign prefix of a literal: `-1` after `-`, `1` after `+` or no sign. -/
def takeSign : List Char → Int × List Char
  | '-' :: cs => (-1, cs)
  | '+' :: cs => (1, cs)
  | cs => (1, cs)

/-- An `ExponentPart` prefix (`e` or `E`, optional sign, at least one digit):
its value and the rest. -/
def scanExponent : List Char → Option (Int × List Char)
  | c :: cs =>
    if c = 'e' ∨ c = 'E' then
      let ds := takeDigits 10 (takeSign cs).2
      if ds.1 = [] then none
      else some ((takeSign cs).1 * (digitsValue 10 ds.1 : Int), ds.2)
    else none
  | [] => none

/-- The longest prefix that is an unsigned decimal literal other than
`Infinity` (digits, optional fraction, optional exponent): its exact value and
the rest of the input. -/
def scanDecimal (cs : List Char) : Option (ℚ × List Char) :=
  let ip := takeDigits 10 cs
  let fp : List Char × List Char :=
    match ip.2 with
    | '.' :: r => takeDigits 10 r
    | r => ([], r)
  if ip.1 = [] ∧ fp.1 = [] then none
  else
    let mant : ℚ := (digitsValue 10 (ip.1 ++ fp.1) : ℚ)
    match scanExponent fp.2 with
    | some (e, r) => some (mant * (10 : ℚ) ^ (e - (fp.1.length : Int)), r)
    | none => some (mant * (10 : ℚ) ^ (-(fp.1.length : Int)), fp.2)

/-- Multiplication of a number by a sign. -/
def applySign (s : Int) : JSNum → JSNum
  | .fin q => .fin ((s : ℚ) * q)
  | .posInf => if s < 0 then .negInf else .posInf
  | .negInf => if s < 0 then .posInf else .negInf
  | .nan => .nan

/-- An unsigned decimal literal that must span the whole input: its value
rounded to a Number. -/
def wholeUnsignedDecimal (cs : List Char) : JSNum :=
  if cs = "Infinity".toList then .posInf
  else
    match scanDecimal cs with
    | some (q, []) => roundToDouble q
    | _ => .nan

/-- A `0x`, `0o` or `0b` integer literal that must span the whole input: its
value rounded to a Number. -/
def wholeRadixLiteral (radix : Nat) (ds : List Char) : JSNum :=
  if ds ≠ [] ∧ (takeDigits radix ds).2 = [] then roundToDouble (digitsValue radix ds : ℚ)
  else .nan

/-- The conversion `StringToNumber`: what `Number(s)`, `isNaN(s)` and the
relational operators make of a string. The value of the literal is rounded to
the nearest Number, as the engines do for a literal of any length. -/
def stringToNumber (s : String) : JSNum :=
  match trim s.toList with
  | [] => .fin 0
  | '0' :: 'x' :: ds => wholeRadixLiteral 16 ds
  | '0' :: 'X' :: ds => wholeRadixLiteral 16 ds
  | '0' :: 'o' :: ds => wholeRadixLiteral 8 ds
  | '0' :: 'O' :: ds => wholeRadixLiteral 8 ds
  | '0' :: 'b' :: ds => wholeRadixLiteral 2 ds
  | '0' :: 'B' :: ds => wholeRadixLiteral 2 ds
  | '-' :: cs => applySign (-1) (wholeUnsignedDecimal cs)
  | '+' :: cs => wholeUnsignedDecimal cs
  | cs => wholeUnsignedDecimal cs

/-- The global `parseFloat` on a string: leading white space is skipped and
the longest prefix that is a decimal literal is read and rounded to a Number;
`NaN` if there is none. -/
def parseFloatString (s : String) : JSNum :=
  let body := takeSign (trimStart s.toList)
  if "Infinity".toList.isPrefixOf body.2 then applySign body.1 .posInf
  else
    match scanDecimal body.2 with
    | some (q, _) => applySign body.1 (roundToDouble q)
    | none => .nan

/-- The global `parseInt` on a string with no radix argument: leading white
space is skipped, a sign and a `0x` prefix are honoured, and the longest
prefix of digits is read and rounded to a Number; `NaN` if there is none. -/
def parseIntString (s : String) : JSNum :=
  let body := takeSign (trimStart s.toList)
  let radixed : Nat × List Char :=
    match body.2 with
    | '0' :: 'x' :: r => (16, r)
    | '0' :: 'X' :: r => (16, r)
    | r => (10, r)
  let ds := (takeDigits radixed.1 radixed.2).1
  if ds = [] then .nan
  else applySign body.1 (roundToDouble (digitsValue radixed.1 ds : ℚ))

namespace JSVal

/-- The conversion `ToBoolean`. -/
def truthy : JSVal → Bool
  | undefined => false
  | null => false
  | bool b => b
  | num .nan => false
  | num (.fin q) => decide (q ≠ 0)
  | num _ => true
  | str s => decide (s ≠ "")
  | date _ => true

/-- The conversion `ToNumber` (for a `Date`: its time value). -/
def toNumber : JSVal → JSNum
  | undefined => .nan
  | null => .fin 0
  | bool b => if b then .fin 1 else .fin 0
  | num n => n
  | str s => stringToNumber s
  | date none => .nan
  | date (some t) => .ofInt t

/-- The conversion `ToString`. -/
def toStr (E : Engine) : JSVal → String
  | undefined => "undefined"
  | null => "null"
  | bool b => if b then "true" else "false"
  | num .nan => "NaN"
  | num .posInf => "Infinity"
  | num .negInf => "-Infinity"
  | num (.fin q) => E.numberToString q
  | str s => s
  | date none => "Invalid Date"
  | date (some t) => E.dateToString t

/-- The global `isNaN(v)`: `ToNumber(v)` is `NaN`. -/
def isNaN (v : JSVal) : Bool := v.toNumber.isNaN

end JSVal

/-- The global `parseFloat(v)`. The argument is converted to a string first;
for a number that string reads back as the same number, so a number is
returned unchanged. -/
def parseFloat (E : Engine) : JSVal → JSNum
  | .num n => n
  | v => parseFloatString (v.toStr E)

/-- The global `parseInt(v)` with no radix: the argument is converted to a
string first. -/
def parseInt (E : Engine) (v : JSVal) : JSNum := parseIntString (v.toStr E)

/-! ## `config/index.js` -/

namespace Config

/-- The record `API_CONFIG`. -/
structure ApiConfig where
  BASE_URL : String
  TIMEOUT : Nat
  DEFAULT_HEADERS : List (String × String)

/-- The value of `API_CONFIG` (lines 9-21); the timeout is in milliseconds. -/
def API_CONFIG : ApiConfig :=
  { BASE_URL := "http://10.0.2.2:5285/api/", TIMEOUT := 30000,
    DEFAULT_HEADERS := [("Content-Type", "application/json"), ("Accept", "application/json")] }

/-- The function `getApiUrl` (lines 93-97). -/
def getApiUrl : String := API_CONFIG.BASE_URL

/-- The record `VALIDATION_CONFIG.SENSOR`. -/
structure SensorLimits where
  NOME_MIN_LENGTH : Nat
  NOME_MAX_LENGTH : Nat
  LOCALIZACAO_MIN_LENGTH : Nat
  LOCALIZACAO_MAX_LENGTH : Nat

/-- The record `VALIDATION_CONFIG.LEITURA`. -/
structure LeituraLimits where
  TEMPERATURA_MIN : Int
  TEMPERATURA_MAX : Int

/-- The record `VALIDATION_CONFIG`. -/
structure ValidationConfig where
  SENSOR : SensorLimits
  LEITURA : LeituraLimits

/-- The value of `VALIDATION_CONFIG` (lines 49-63). -/
def VALIDATION_CONFIG : ValidationConfig :=
  { SENSOR :=
      { NOME_MIN_LENGTH := 3, NOME_MAX_LENGTH := 100,
        LOCALIZACAO_MIN_LENGTH := 3, LOCALIZACAO_MAX_LENGTH := 200 },
    LEITURA := { TEMPERATURA_MIN := -50, TEMPERATURA_MAX := 100 } }

/-- The five entries of `UI_CONFIG.TEMPERATURE_COLORS` and of
`UI_CONFIG.TEMPERATURE_THRESHOLDS`. -/
structure Bands (α : Type) where
  VERY_COLD : α
  COLD : α
  NORMAL : α
  WARM : α
  HOT : α

/-- The record `UI_CONFIG`, without its pagination settings. -/
structure UiConfig where
  TEMPERATURE_COLORS : Bands String
  TEMPERATURE_THRESHOLDS : Bands JSNum

/-- The value of `UI_CONFIG` (lines 66-83). -/
def UI_CONFIG : UiConfig :=
  { TEMPERATURE_COLORS :=
      { VERY_COLD := "#1976D2", COLD := "#2196F3", NORMAL := "#4CAF50",
        WARM := "#FF9800", HOT := "#F44336" },
    TEMPERATURE_THRESHOLDS :=
      { VERY_COLD := .fin 0, COLD := .fin 15, NORMAL := .fin 25,
        WARM := .fin 35, HOT := .fin 40 } }

/-- The function `getTemperatureColor` of `config/index.js` (lines 100-114). -/
def getTemperatureColor (temperature : JSNum) : String :=
  if temperature.lt UI_CONFIG.TEMPERATURE_THRESHOLDS.VERY_COLD then
    UI_CONFIG.TEMPERATURE_COLORS.VERY_COLD
  else if temperature.lt UI_CONFIG.TEMPERATURE_THRESHOLDS.COLD then
    UI_CONFIG.TEMPERATURE_COLORS.COLD
  else if temperature.lt UI_CONFIG.TEMPERATURE_THRESHOLDS.NORMAL then
    UI_CONFIG.TEMPERATURE_COLORS.NORMAL
  else if temperature.lt UI_CONFIG.TEMPERATURE_THRESHOLDS.WARM then
    UI_CONFIG.TEMPERATURE_COLORS.WARM
  else UI_CONFIG.TEMPERATURE_COLORS.HOT

/-- What both validators return: `errors` is the object built by the
validator, as its list of keys and messages in the order they were assigned. -/
structure ValidationResult where
  isValid : Bool
  errors : List (String × String)
  deriving DecidableEq

/-- The message `errors[key]`, `none` when the key is absent. -/
def ValidationResult.error (r : ValidationResult) (key : String) : Option String :=
  (r.errors.find? (fun kv => kv.1 == key)).map Prod.snd

/-- A sensor payload: the two fields the code reads, and whatever else the
object carries. An absent field is `undefined`. -/
structure SensorData where
  nome : JSVal := .undefined
  localizacao : JSVal := .undefined
  rest : List (String × JSVal) := []

/-- A reading payload: the three fields the code reads, and whatever else the
object carries. An absent field is `undefined`. -/
structure LeituraData where
  dataHora : JSVal := .undefined
  temperatura : JSVal := .undefined
  sensorId : JSVal := .undefined
  rest : List (String × JSVal) := []

/-- The expression `v.trim().length` for a truthy `v`: only a string has a
`trim` method, on any other value the call raises a `TypeError`. -/
def trimLength : JSVal → Except JSError Nat
  | .str s => .ok (utf16Length (trim s.toList))
  | _ => .error (.typeError "trim is not a function")

/-- One field of `validateSensorData`: the `if / else if / else if` ladder of
lines 122-128 (and 131-137), returning the entries it adds to `errors`. -/
def checkText (key required tooShort tooLong : String) (min max : Nat) (v : JSVal) :
    Except JSError (List (String × String)) :=
  if !v.truthy then .ok [(key, required)]
  else
    match trimLength v with
    | .error e => .error e
    | .ok n =>
      if n = 0 then .ok [(key, required)]
      else if n < min then .ok [(key, tooShort)]
      else if n > max then .ok [(key, tooLong)]
      else .ok []

/-- The function `validateSensorData` (lines 117-143). It raises when a
field is a truthy value without a `trim` method. -/
def validateSensorData (sensorData : SensorData) : Except JSError ValidationResult :=
  match checkText "nome" "O nome do sensor é obrigatório."
      ("O nome deve ter pelo menos " ++ toString VALIDATION_CONFIG.SENSOR.NOME_MIN_LENGTH ++
        " caracteres.")
      ("O nome deve ter no máximo " ++ toString VALIDATION_CONFIG.SENSOR.NOME_MAX_LENGTH ++
        " caracteres.")
      VALIDATION_CONFIG.SENSOR.NOME_MIN_LENGTH VALIDATION_CONFIG.SENSOR.NOME_MAX_LENGTH
      sensorData.nome with
  | .error e => .error e
  | .ok e1 =>
    match checkText "localizacao" "A localização é obrigatória."
        ("A localização deve ter pelo menos " ++
          toString VALIDATION_CONFIG.SENSOR.LOCALIZACAO_MIN_LENGTH ++ " caracteres.")
        ("A localização deve ter no máximo " ++
          toString VALIDATION_CONFIG.SENSOR.LOCALIZACAO_MAX_LENGTH ++ " caracteres.")
        VALIDATION_CONFIG.SENSOR.LOCALIZACAO_MIN_LENGTH
        VALIDATION_CONFIG.SENSOR.LOCALIZACAO_MAX_LENGTH sensorData.localizacao with
    | .error e => .error e
    | .ok e2 => .ok { isValid := (e1 ++ e2).length == 0, errors := e1 ++ e2 }

/-- The `dataHora` block of `validateLeituraData` (lines 151-155). -/
def checkDataHora (v : JSVal) : List (String × String) :=
  if !v.truthy then [("dataHora", "A data e hora são obrigatórias.")]
  else
    match v with
    | .date (some _) => []
    | _ => [("dataHora", "Data e hora inválidas.")]

/-- The `temperatura` block of `validateLeituraData` (lines 158-164). -/
def checkTemperatura (v : JSVal) : List (String × String) :=
  if v = .undefined ∨ v = .null ∨ v = .str "" then
    [("temperatura", "A temperatura é obrigatória.")]
  else if v.isNaN then
    [("temperatura", "A temperatura deve ser um número válido.")]
  else if v.toNumber.lt (.ofInt VALIDATION_CONFIG.LEITURA.TEMPERATURA_MIN) ||
      v.toNumber.gt (.ofInt VALIDATION_CONFIG.LEITURA.TEMPERATURA_MAX) then
    [("temperatura", "A temperatura deve estar entre " ++
      toString VALIDATION_CONFIG.LEITURA.TEMPERATURA_MIN ++ "°C e " ++
      toString VALIDATION_CONFIG.LEITURA.TEMPERATURA_MAX ++ "°C.")]
  else []

/-- The `sensorId` block of `validateLeituraData` (lines 167-169). -/
def checkSensorId (v : JSVal) : List (String × String) :=
  if !v.truthy || v.isNaN || v.toNumber.le (.fin 0) then
    [("sensorId", "Um sensor válido deve ser selecionado.")]
  else []

/-- The function `validateLeituraData` (lines 146-175). -/
def validateLeituraData (leituraData : LeituraData) : ValidationResult :=
  let errors := checkDataHora leituraData.dataHora ++
    checkTemperatura leituraData.temperatura ++ checkSensorId leituraData.sensorId
  { isValid := errors.length == 0, errors := errors }

end Config

/-! ## `styles/theme.js` -/

namespace Theme

/-- The table `theme.colors.temperature`. -/
structure TemperatureColors where
  veryHot : String
  hot : String
  warm : String
  normal : String
  cool : String
  cold : String

/-- The value of `theme.colors.temperature`. -/
def temperature : TemperatureColors :=
  { veryHot := "#D32F2F", hot := "#F57C00", warm := "#FFA726",
    normal := "#66BB6A", cool := "#42A5F5", cold := "#1976D2" }

/-- The function `getTemperatureColor` of `styles/theme.js` (lines 234-241). -/
def getTemperatureColor (t : JSNum) : String :=
  if t.ge (.fin 40) then temperature.veryHot
  else if t.ge (.fin 30) then temperature.hot
  else if t.ge (.fin 20) then temperature.warm
  else if t.ge (.fin 10) then temperature.normal
  else if t.ge (.fin 0) then temperature.cool
  else temperature.cold

/-- The function `getTemperatureIcon` (lines 244-251). -/
def getTemperatureIcon (t : JSNum) : String :=
  if t.ge (.fin 40) then "flame"
  else if t.ge (.fin 30) then "sunny"
  else if t.ge (.fin 20) then "partly-sunny"
  else if t.ge (.fin 10) then "cloudy"
  else if t.ge (.fin 0) then "rainy"
  else "snow"

/-- The object `getTemperatureStatus` returns. -/
structure Status where
  status : String
  color : String
  deriving DecidableEq

/-- The function `getTemperatureStatus` (lines 254-261). -/
def getTemperatureStatus (t : JSNum) : Status :=
  if t.ge (.fin 40) then { status := "Muito Quente", color := temperature.veryHot }
  else if t.ge (.fin 30) then { status := "Quente", color := temperature.hot }
  else if t.ge (.fin 20) then { status := "Morno", color := temperature.warm }
  else if t.ge (.fin 10) then { status := "Normal", color := temperature.normal }
  else if t.ge (.fin 0) then { status := "Frio", color := temperature.cool }
  else { status := "Muito Frio", color := temperature.cold }

end Theme

/-! ## Dates -/

/-- The civil date (year, month 1-12, day 1-31) of a day count from the epoch
in the proleptic Gregorian calendar. -/
def civilFromDays (days : Int) : Int × Int × Int :=
  let z := days + 719468
  let era := z / 146097
  let doe := z - era * 146097
  let yoe := (doe - doe / 1460 + doe / 36524 - doe / 146096) / 365
  let doy := doe - (365 * yoe + yoe / 4 - yoe / 100)
  let mp := (5 * doy + 2) / 153
  let d := doy - (153 * mp + 2) / 5 + 1
  let m := if mp < 10 then mp + 3 else mp - 9
  (if m ≤ 2 then yoe + era * 400 + 1 else yoe + era * 400, m, d)

/-- A natural number in decimal, padded with zeros on the left to a width. -/
def padded (width : Nat) (n : Nat) : String :=
  String.mk (List.replicate (width - (toString n).length) '0') ++ toString n

/-- The year of `toISOString`: four digits for 0..9999, otherwise a sign and
six digits. -/
def isoYear (y : Int) : String :=
  if 0 ≤ y ∧ y ≤ 9999 then padded 4 y.toNat
  else if y < 0 then "-" ++ padded 6 (-y).toNat
  else "+" ++ padded 6 y.toNat

/-- The method `Date.prototype.toISOString` on a valid time value:
`YYYY-MM-DDTHH:mm:ss.sssZ` in UTC. -/
def isoString (t : Int) : String :=
  let civil := civilFromDays (t / 86400000)
  let ms := t % 86400000
  isoYear civil.1 ++ "-" ++ padded 2 civil.2.1.toNat ++ "-" ++ padded 2 civil.2.2.toNat ++
    "T" ++ padded 2 (ms / 3600000).toNat ++ ":" ++ padded 2 (ms / 60000 % 60).toNat ++ ":" ++
    padded 2 (ms / 1000 % 60).toNat ++ "." ++ padded 3 (ms % 1000).toNat ++ "Z"

/-- The call `v.toISOString()`: only a `Date` has the method; on an invalid
date it raises a `RangeError`. -/
def toISOString : JSVal → Except JSError String
  | .date (some t) => .ok (isoString t)
  | .date none => .error (.rangeError "toISOString")
  | _ => .error (.typeError "toISOString is not a function")

/-- The call `v.trim()`: only a string has the method. -/
def trimCall : JSVal → Except JSError String
  | .str s => .ok (String.mk (trim s.toList))
  | _ => .error (.typeError "trim is not a function")

/-! ## Parsed JSON bodies -/

/-- A value `response.json()` resolves to. An object is the list of its own
properties in the order `Object.values` enumerates them. -/
inductive JSON where
  | null
  | bool (b : Bool)
  | num (q : ℚ)
  | str (s : String)
  | arr (items : List JSON)
  | obj (props : List (String × JSON))

namespace JSON

/-- The property read `v[key]` for a key that is not an index and not the
name of a built-in property (`message`, `title`, `errors`, `dataHora`):
`none` is `undefined`; reading a property of `null` raises a `TypeError`. -/
def getField (key : String) : JSON → Except JSError (Option JSON)
  | null => .error (.typeError "cannot read properties of null")
  | obj props => .ok ((props.find? (fun kv => kv.1 == key)).map Prod.snd)
  | _ => .ok none

/-- The conversion `ToBoolean` of a property value (`none` is `undefined`). -/
def truthy : Option JSON → Bool
  | none => false
  | some null => false
  | some (bool b) => b
  | some (num q) => decide (q ≠ 0)
  | some (str s) => decide (s ≠ "")
  | some (arr _) => true
  | some (obj _) => true

mutual
/-- The conversion `ToString`: an array prints its items joined by `,`, any
other object prints `[object Object]`. -/
def toStr (E : Engine) : JSON → String
  | null => "null"
  | bool b => if b then "true" else "false"
  | num q => E.numberToString q
  | str s => s
  | arr items => joinWith E "," items
  | obj _ => "[object Object]"
/-- The method `Array.prototype.join(sep)`: a `null` item prints as the empty
string, any other item as its `ToString`. -/
def joinWith (E : Engine) (sep : String) : List JSON → String
  | [] => ""
  | x :: xs =>
    (match x with
      | null => ""
      | v => toStr E v) ++
    (match xs with
      | [] => ""
      | _ :: _ => sep ++ joinWith E sep xs)
end

/-- The call `Object.values(v)` on a truthy value: the property values of an
object, the items of an array, the characters of a string, nothing for a
number or a boolean. -/
def values : JSON → List JSON
  | obj props => props.map Prod.snd
  | arr items => items
  | str s => s.toList.map (fun c => str (String.mk [c]))
  | _ => []

/-- The method `Array.prototype.flat()` (depth 1): an item that is an array is
replaced by its items. -/
def flat : List JSON → List JSON
  | [] => []
  | arr items :: rest => items ++ flat rest
  | v :: rest => v :: flat rest

end JSON

/-! ## `services/apiService.js` -/

namespace ApiService

/-- The field `this.baseURL` set by the constructor (line 13). -/
def baseURL : String := Config.getApiUrl

/-- The field `this.timeout` set by the constructor (line 14). -/
def timeout : Nat := Config.API_CONFIG.TIMEOUT

/-- The method `getHeaders()` (lines 20-24): a copy of the default headers. -/
def getHeaders : List (String × String) := Config.API_CONFIG.DEFAULT_HEADERS

/-- A response as `handleResponse` reads it. `contentType` is
`headers.get('content-type')` (`none` for `null`), `text` is what
`response.text()` resolves to, `json` is what `response.json()` resolves to
(`none` when the body is not JSON and the promise rejects). -/
structure Response where
  status : Nat
  statusText : String
  contentType : Option String
  text : String
  json : Option JSON

/-- The property `response.ok`: the status is in the range 200-299. -/
def Response.ok (r : Response) : Bool := decide (200 ≤ r.status ∧ r.status ≤ 299)

/-- The method `String.prototype.includes`. -/
def includes (s sub : String) : Bool :=
  s.toList.tails.any (fun t => sub.toList.isPrefixOf t)

/-- The `try` block of `handleResponse` (lines 44-54): the value assigned to
`errorMessage`, `none` when no branch assigns, or the exception raised. -/
def errorMessageFromBody (E : Engine) (body : Option JSON) : Except JSError (Option String) :=
  match body with
  | none => .error .syntaxError
  | some errorData =>
    match errorData.getField "message" with
    | .error e => .error e
    | .ok message =>
      if JSON.truthy message then .ok (message.map (JSON.toStr E))
      else
        match errorData.getField "title" with
        | .error e => .error e
        | .ok title =>
          if JSON.truthy title then .ok (title.map (JSON.toStr E))
          else
            match errorData.getField "errors" with
            | .error e => .error e
            | .ok errors =>
              if JSON.truthy errors then
                .ok (errors.map (fun v => JSON.joinWith E ", " (JSON.flat v.values)))
              else .ok none

/-- The method `handleResponse` (lines 38-72). On a response that is not ok
it raises `new Error(errorMessage)`; an exception inside the `try` block is
caught and leaves the default message. -/
def handleResponse (E : Engine) (response : Response) : Except JSError JSON :=
  if !response.ok then
    let errorMessage := "Erro " ++ toString response.status ++ ": " ++ response.statusText
    match errorMessageFromBody E response.json with
    | .ok (some m) => .error (.error m)
    | _ => .error (.error errorMessage)
  else
    match response.contentType with
    | none => .ok (.str response.text)
    | some contentType =>
      if contentType = "" ∨ !(includes contentType "application/json") then
        .ok (.str response.text)
      else
        match response.json with
        | some data => .ok data
        | none => .error .syntaxError

/-- A request handed to `fetch`. `url` is the text the code builds,
`this.baseURL + endpoint`; `query` lists the search parameters appended to it,
in order; `body` is the object handed to `JSON.stringify`. For `get` the code
passes the text through `new URL(...)` first: what the URL parser of the host
does to it (percent-encoding, removal of dot segments, a query written inside
the endpoint) is not modelled, so `url` and `query` record what goes into the
parser. -/
structure Request where
  method : String
  url : String
  query : List (String × String)
  headers : List (String × String)
  body : Option (List (String × JSVal))
  deriving DecidableEq

/-- The network as the code sees it: `fetch` resolves to a response or
rejects (network failure, abort by the timeout controller). -/
abbrev Fetch := Request → Except JSError Response

/-- The outcome of an asynchronous operation together with the requests it
issued, in order. -/
structure Traced (α : Type) where
  requests : List Request
  outcome : Except JSError α

/-- One round trip: issue the request, then `handleResponse`; the `catch`
block logs and rethrows the same error. -/
def roundTrip (E : Engine) (fetch : Fetch) (request : Request) : Traced JSON :=
  { requests := [request],
    outcome :=
      match fetch request with
      | .error e => .error e
      | .ok response => handleResponse E response }

/-- The method `get(endpoint, params)` (lines 77-102): a parameter whose value
is `undefined` or `null` is not appended. `params` lists the properties of the
object in the order `Object.keys` enumerates them. The request records the
argument of `new URL(...)` and the appended parameters, not the serialised
URL. -/
def get (E : Engine) (fetch : Fetch) (endpoint : String) (params : List (String × JSVal)) :
    Traced JSON :=
  roundTrip E fetch
    { method := "GET", url := baseURL ++ endpoint,
      query := (params.filter (fun kv => kv.2 ≠ .undefined ∧ kv.2 ≠ .null)).map
        (fun kv => (kv.1, kv.2.toStr E)),
      headers := getHeaders, body := none }

/-- The method `post(endpoint, data)` (lines 107-125). -/
def post (E : Engine) (fetch : Fetch) (endpoint : String) (data : List (String × JSVal)) :
    Traced JSON :=
  roundTrip E fetch
    { method := "POST", url := baseURL ++ endpoint, query := [],
      headers := getHeaders, body := some data }

/-- The method `put(endpoint, data)` (lines 130-148). -/
def put (E : Engine) (fetch : Fetch) (endpoint : String) (data : List (String × JSVal)) :
    Traced JSON :=
  roundTrip E fetch
    { method := "PUT", url := baseURL ++ endpoint, query := [],
      headers := getHeaders, body := some data }

/-- The method `delete(endpoint)` (lines 153-170). -/
def delete (E : Engine) (fetch : Fetch) (endpoint : String) : Traced JSON :=
  roundTrip E fetch
    { method := "DELETE", url := baseURL ++ endpoint, query := [],
      headers := getHeaders, body := none }

/-- Continue an operation with the value its round trip produced: the
requests stay as they are, an error is passed on unchanged. -/
def Traced.andThen {α β : Type} (t : Traced α) (f : α → Except JSError β) : Traced β :=
  { requests := t.requests,
    outcome :=
      match t.outcome with
      | .error e => .error e
      | .ok a => f a }

/-- An operation that fails before any request is issued. -/
def Traced.fail {α : Type} (e : JSError) : Traced α := { requests := [], outcome := .error e }

end ApiService

/-! ## `API_ENDPOINTS` of `config/index.js` (lines 24-46) -/

namespace API_ENDPOINTS

namespace LEITURAS

/-- The endpoint `LEITURAS.GET_ALL`. -/
def GET_ALL : String := "Leitura"

/-- The endpoint `LEITURAS.GET_BY_ID(id)`. -/
def GET_BY_ID (E : Engine) (id : JSVal) : String := "Leitura/" ++ id.toStr E

/-- The endpoint `LEITURAS.CREATE`. -/
def CREATE : String := "Leitura"

/-- The endpoint `LEITURAS.UPDATE(id)`. -/
def UPDATE (E : Engine) (id : JSVal) : String := "Leitura/" ++ id.toStr E

/-- The endpoint `LEITURAS.DELETE(id)`. -/
def DELETE (E : Engine) (id : JSVal) : String := "Leitura/" ++ id.toStr E

/-- The endpoint `LEITURAS.TEMPERATURAS_ALTAS`. -/
def TEMPERATURAS_ALTAS : String := "Leitura/temperaturas-altas"

/-- The endpoint `LEITURAS.POR_PERIODO`. -/
def POR_PERIODO : String := "Leitura/por-periodo"

end LEITURAS

namespace SENSORES

/-- The endpoint `SENSORES.GET_ALL`. -/
def GET_ALL : String := "Sensor"

/-- The endpoint `SENSORES.GET_BY_ID(id)`. -/
def GET_BY_ID (E : Engine) (id : JSVal) : String := "Sensor/" ++ id.toStr E

/-- The endpoint `SENSORES.CREATE`. -/
def CREATE : String := "Sensor"

/-- The endpoint `SENSORES.UPDATE(id)`. -/
def UPDATE (E : Engine) (id : JSVal) : String := "Sensor/" ++ id.toStr E

/-- The endpoint `SENSORES.DELETE(id)`. -/
def DELETE (E : Engine) (id : JSVal) : String := "Sensor/" ++ id.toStr E

end SENSORES

end API_ENDPOINTS

/-! ## `services/sensorService.js` -/

namespace SensorService

open ApiService Config

/-- The message of the error raised on a rejected payload (lines 46 and 71):
the messages of `errors`, in insertion order, joined by `', '`. -/
def invalidMessage (validation : ValidationResult) : String :=
  "Dados inválidos: " ++ joinComma (validation.errors.map Prod.snd)

/-- The object `sensorCreateDto` / `sensorUpdateDto` (lines 50-53, 75-78). -/
def sensorDto (sensorData : SensorData) : Except JSError (List (String × JSVal)) :=
  match trimCall sensorData.nome with
  | .error e => .error e
  | .ok nome =>
    match trimCall sensorData.localizacao with
    | .error e => .error e
    | .ok localizacao => .ok [("nome", .str nome), ("localizacao", .str localizacao)]

/-- The method `getAllSensores` (lines 15-23). -/
def getAllSensores (E : Engine) (fetch : Fetch) : Traced JSON :=
  get E fetch API_ENDPOINTS.SENSORES.GET_ALL []

/-- The method `getSensorById` (lines 28-36). -/
def getSensorById (E : Engine) (fetch : Fetch) (id : JSVal) : Traced JSON :=
  get E fetch (API_ENDPOINTS.SENSORES.GET_BY_ID E id) []

/-- The method `createSensor` (lines 41-61). -/
def createSensor (E : Engine) (fetch : Fetch) (sensorData : SensorData) : Traced JSON :=
  match validateSensorData sensorData with
  | .error e => Traced.fail e
  | .ok validation =>
    if !validation.isValid then Traced.fail (.error (invalidMessage validation))
    else
      match sensorDto sensorData with
      | .error e => Traced.fail e
      | .ok sensorCreateDto => post E fetch API_ENDPOINTS.SENSORES.CREATE sensorCreateDto

/-- The method `updateSensor` (lines 66-86): resolves to `true`. -/
def updateSensor (E : Engine) (fetch : Fetch) (id : JSVal) (sensorData : SensorData) :
    Traced Bool :=
  match validateSensorData sensorData with
  | .error e => Traced.fail e
  | .ok validation =>
    if !validation.isValid then Traced.fail (.error (invalidMessage validation))
    else
      match sensorDto sensorData with
      | .error e => Traced.fail e
      | .ok sensorUpdateDto =>
        (put E fetch (API_ENDPOINTS.SENSORES.UPDATE E id) sensorUpdateDto).andThen
          (fun _ => .ok true)

/-- The method `deleteSensor` (lines 91-99): resolves to `true`. -/
def deleteSensor (E : Engine) (fetch : Fetch) (id : JSVal) : Traced Bool :=
  (delete E fetch (API_ENDPOINTS.SENSORES.DELETE E id)).andThen (fun _ => .ok true)

end SensorService

/-! ## `services/leituraService.js` -/

namespace LeituraService

open ApiService Config

/-- A property value of an object the reading service returns: a value taken
from the response as it is, or the `Date` built for `dataHora`. -/
inductive Field where
  | json (v : JSON)
  | date (t : Option Int)

/-- The operation `TimeClip(ToNumber(q))` of the `Date` constructor: `none`
beyond 8.64e15 ms, otherwise the value truncated towards zero. -/
def timeClip (q : ℚ) : Option Int :=
  if q < -8640000000000000 ∨ 8640000000000000 < q then none
  else if 0 ≤ q then some q.floor else some q.ceil

/-- The time value of `new Date(v)` for a property value `v` of a response
(`none` as argument is `undefined`, `none` as result is an invalid date). -/
def newDate (E : Engine) : Option JSON → Option Int
  | none => none
  | some .null => some 0
  | some (.bool b) => some (if b then 1 else 0)
  | some (.num q) => timeClip q
  | some (.str s) => E.dateParse s
  | some v => E.dateParse (v.toStr E)

/-- The own enumerable properties an object spread `{...v}` copies. -/
def spread : JSON → List (String × Field)
  | .obj props => props.map (fun kv => (kv.1, .json kv.2))
  | .arr items => items.enum.map (fun iv => (toString iv.1, .json iv.2))
  | .str s => s.toList.enum.map (fun ic => (toString ic.1, .json (.str (String.mk [ic.2]))))
  | _ => []

/-- Define a property in an object literal after a spread: an existing key
keeps its place and takes the new value, a new key goes last. -/
def setField (key : String) (value : Field) : List (String × Field) → List (String × Field)
  | [] => [(key, value)]
  | kv :: rest => if kv.1 == key then (key, value) :: rest else kv :: setField key value rest

/-- The object `{...leitura, dataHora: new Date(leitura.dataHora)}`
(lines 20-23, 38-41, 56-59, 79-82, 110-113). -/
def withDataHora (E : Engine) (leitura : JSON) : Except JSError (List (String × Field)) :=
  match leitura.getField "dataHora" with
  | .error e => .error e
  | .ok dataHora => .ok (setField "dataHora" (.date (newDate E dataHora)) (spread leitura))

/-- The call `leituras.map(leitura => ...)`: only an array has `map`. -/
def mapLeituras (E : Engine) : JSON → Except JSError (List (List (String × Field)))
  | .arr items => items.mapM (withDataHora E)
  | _ => .error (.typeError "map is not a function")

/-- The message of the error raised on a rejected payload (lines 97 and 128):
the messages of `errors`, in insertion order, joined by `', '`. -/
def invalidMessage (validation : ValidationResult) : String :=
  "Dados inválidos: " ++ joinComma (validation.errors.map Prod.snd)

/-- The object `leituraCreateDto` / `leituraUpdateDto` (lines 101-105,
132-136). -/
def leituraDto (E : Engine) (leituraData : LeituraData) :
    Except JSError (List (String × JSVal)) :=
  match toISOString leituraData.dataHora with
  | .error e => .error e
  | .ok dataHora =>
    .ok [("dataHora", .str dataHora),
      ("temperatura", .num (parseFloat E leituraData.temperatura)),
      ("sensorId", .num (parseInt E leituraData.sensorId))]

/-- The method `getAllLeituras` (lines 15-28). -/
def getAllLeituras (E : Engine) (fetch : Fetch) : Traced (List (List (String × Field))) :=
  (get E fetch API_ENDPOINTS.LEITURAS.GET_ALL []).andThen (mapLeituras E)

/-- The method `getLeituraById` (lines 33-46). -/
def getLeituraById (E : Engine) (fetch : Fetch) (id : JSVal) : Traced (List (String × Field)) :=
  (get E fetch (API_ENDPOINTS.LEITURAS.GET_BY_ID E id) []).andThen (withDataHora E)

/-- The method `getTemperaturasAltas` (lines 51-64). -/
def getTemperaturasAltas (E : Engine) (fetch : Fetch) :
    Traced (List (List (String × Field))) :=
  (get E fetch API_ENDPOINTS.LEITURAS.TEMPERATURAS_ALTAS []).andThen (mapLeituras E)

/-- The method `getLeiturasPorPeriodo` (lines 69-87). -/
def getLeiturasPorPeriodo (E : Engine) (fetch : Fetch) (dataInicio dataFim : JSVal) :
    Traced (List (List (String × Field))) :=
  match toISOString dataInicio with
  | .error e => Traced.fail e
  | .ok inicio =>
    match toISOString dataFim with
    | .error e => Traced.fail e
    | .ok fim =>
      (get E fetch API_ENDPOINTS.LEITURAS.POR_PERIODO
        [("inicio", .str inicio), ("fim", .str fim)]).andThen (mapLeituras E)

/-- The method `createLeitura` (lines 92-118). -/
def createLeitura (E : Engine) (fetch : Fetch) (leituraData : LeituraData) :
    Traced (List (String × Field)) :=
  let validation := validateLeituraData leituraData
  if !validation.isValid then Traced.fail (.error (invalidMessage validation))
  else
    match leituraDto E leituraData with
    | .error e => Traced.fail e
    | .ok leituraCreateDto =>
      (post E fetch API_ENDPOINTS.LEITURAS.CREATE leituraCreateDto).andThen (withDataHora E)

/-- The method `updateLeitura` (lines 123-144): resolves to `true`. -/
def updateLeitura (E : Engine) (fetch : Fetch) (id : JSVal) (leituraData : LeituraData) :
    Traced Bool :=
  let validation := validateLeituraData leituraData
  if !validation.isValid then Traced.fail (.error (invalidMessage validation))
  else
    match leituraDto E leituraData with
    | .error e => Traced.fail e
    | .ok leituraUpdateDto =>
      (put E fetch (API_ENDPOINTS.LEITURAS.UPDATE E id) leituraUpdateDto).andThen
        (fun _ => .ok true)

/-- The method `deleteLeitura` (lines 149-157): resolves to `true`. -/
def deleteLeitura (E : Engine) (fetch : Fetch) (id : JSVal) : Traced Bool :=
  (delete E fetch (API_ENDPOINTS.LEITURAS.DELETE E id)).andThen (fun _ => .ok true)

end LeituraService

/-! ## Notions the statements use -/

/-- The length of the trimmed text of a sensor field that is a string or
absent (`undefined` or `null`, counted as the empty text); `none` for any
other value, which has no text. -/
def trimmedLength : JSVal → Option Nat
  | .str s => some (utf16Length (trim s.toList))
  | .undefined => some 0
  | .null => some 0
  | _ => none

/-- A reading field is present: neither `undefined`, `null` nor the empty
string. -/
def isPresent (v : JSVal) : Prop := v ≠ .undefined ∧ v ≠ .null ∧ v ≠ .str ""

/-- A reading field is numeric: as a number it is not `NaN`. -/
def isNumeric (v : JSVal) : Prop := v.toNumber ≠ .nan

/-- A reading field is, as a number, finite and within the closed range. -/
def withinRange (lo hi : ℚ) (v : JSVal) : Prop :=
  match v.toNumber with
  | .fin q => lo ≤ q ∧ q ≤ hi
  | _ => False

/-- An `errors` field of the error envelope: a mapping from field names to
lists of messages, as the JSON object it is. -/
def errorsMapping (fields : List (String × List String)) : JSON :=
  .obj (fields.map (fun f => (f.1, .arr (f.2.map .str))))

/-- A text field of the error envelope that is present and non-empty. -/
def nonEmptyText : Option String → Option String
  | some s => if s = "" then none else some s
  | none => none

/-- The default message `Erro <status>: <statusText>`. -/
def fallbackMessage (status : Nat) (statusText : String) : String :=
  "Erro " ++ toString status ++ ": " ++ statusText

/-- The message the priority order of the specification chooses for an error
envelope with an optional `message`, an optional `title` and an optional
`errors` mapping: the message if present and non-empty, otherwise the title if
present and non-empty, otherwise the messages of `errors` flattened and joined
with `', '`, otherwise the default message. -/
def chosenMessage (status : Nat) (statusText : String) (message title : Option String)
    (errors : Option (List (String × List String))) : String :=
  match nonEmptyText message with
  | some m => m
  | none =>
    match nonEmptyText title with
    | some t => t
    | none =>
      match errors with
      | some fields => joinComma (fields.map Prod.snd).flatten
      | none => fallbackMessage status statusText

/-- A parsed body has no field of the given name. -/
def lacksField (key : String) : JSON → Bool
  | .obj props => !(props.any (fun kv => kv.1 == key))
  | _ => true

/-- The response of the scenario: HTTP 422 with the body
`{"errors":{"temperatura":["must be <= 100"]}}`. -/
def response422 : ApiService.Response :=
  { status := 422, statusText := "Unprocessable Entity",
    contentType := some "application/problem+json; charset=utf-8",
    text := "\x7b\"errors\":\x7b\"temperatura\":[\"must be <= 100\"]\x7d\x7d",
    json := some (.obj [("errors", .obj [("temperatura", .arr [.str "must be <= 100"])])]) }

/-- Written from the specification of the classifier: scanning the breakpoints
from coldest to hottest, the first one the value is strictly below gives the
band; the default applies when the value is below none. -/
def firstStrictlyBelow (ladder : List (JSNum × String)) (default : String) (t : JSNum) :
    String :=
  match ladder.find? (fun b => t.lt b.1) with
  | some b => b.2
  | none => default

/-- The breakpoints 0, 10, 20, 30, 40 with the theme colour of the band below
each of them, coldest first. -/
def classifierBandTable : List (JSNum × String) :=
  [(.fin 0, Theme.temperature.cold), (.fin 10, Theme.temperature.cool),
    (.fin 20, Theme.temperature.normal), (.fin 30, Theme.temperature.warm),
    (.fin 40, Theme.temperature.hot)]

/-- A `dataHora` field is a valid instant: a `Date` object whose time value is
not `NaN`. -/
def isValidInstant : JSVal → Bool
  | .date (some _) => true
  | _ => false

/-- A reading field is, as a number, greater than 0. -/
def isPositive (v : JSVal) : Prop := v.toNumber.gt (.fin 0) = true

/-- A text has no leading and no trailing white space: neither its first nor
its last character is white space. -/
def noOuterWhiteSpace (cs : List Char) : Prop :=
  (∀ c, cs.head? = some c → isWhiteSpace c = false) ∧
  (∀ c, cs.getLast? = some c → isWhiteSpace c = false)

/-- Written from the specification of the query string: going through the
parameters in order, one whose value is `undefined` or `null` is left out and
any other is sent under its key with its value as text. -/
def sentParams (E : Engine) : List (String × JSVal) → List (String × String)
  | [] => []
  | (key, value) :: rest =>
    if value = .undefined ∨ value = .null then sentParams E rest
    else (key, value.toStr E) :: sentParams E rest

/-- Written from the specification of the theme banding: the band of a
temperature is the number of the breakpoints 0, 10, 20, 30 and 40 it has
reached, so 0 is the coldest band and 5 the hottest. -/
def themeBand (t : JSNum) : Nat :=
  (([0, 10, 20, 30, 40] : List ℚ).filter (fun b => t.ge (.fin b))).length

/-- A sensor field is a string or absent (`undefined` or `null`). -/
def isTextOrAbsent (v : JSVal) : Prop := (∃ s, v = .str s) ∨ v = .undefined ∨ v = .null

/-- A sensor field is a truthy value that is not a string. -/
def isTruthyNonString (v : JSVal) : Prop := v.truthy = true ∧ ∀ s, v ≠ .str s

/-- The value of a property of an object the reading service returns, `none`
when it has no such property. -/
def fieldOf (key : String) (item : List (String × LeituraService.Field)) :
    Option LeituraService.Field :=
  (item.find? (fun kv => kv.1 == key)).map Prod.snd

/-- The value of a property of a JSON object of a response, `none` when it has
no such property. -/
def propertyOf (key : String) (props : List (String × JSON)) : Option JSON :=
  (props.find? (fun kv => kv.1 == key)).map Prod.snd

/-- Written from the specification of the read operations: a returned item
has the fields of the response object with their values, except `dataHora`,
which holds the `Date` built from the `dataHora` of the response object. -/
def keepsAllButDataHora (E : Engine) (leitura : JSON)
    (item : List (String × LeituraService.Field)) : Prop :=
  ∀ props, leitura = .obj props →
    (∀ key, key ≠ "dataHora" →
      fieldOf key item = (propertyOf key props).map LeituraService.Field.json) ∧
    fieldOf "dataHora" item =
      some (.date (LeituraService.newDate E (propertyOf "dataHora" props)))

/-- A time value a valid `Date` can hold: at most 8.64e15 milliseconds from
the epoch on either side. -/
def isTimeValue (t : Int) : Prop := -8640000000000000 ≤ t ∧ t ≤ 8640000000000000

/-! ## A sample engine

An engine to evaluate the code on concrete inputs: the host runs in UTC, a
number whose decimal expansion is short prints as that expansion (with an
exponent below 1e-6 and from 1e21 on), and `Date.parse` reads the format
`toISOString` writes. -/

/-- The decimal digits of a fraction `r` with 0 <= r < 1, at most `fuel` of
them. -/
def fractionDigits : Nat → ℚ → List Char
  | 0, _ => []
  | fuel + 1, r =>
    if r = 0 then []
    else Char.ofNat (48 + (r * 10).floor.toNat) ::
      fractionDigits fuel (r * 10 - ((r * 10).floor : ℚ))

/-- A number that is not negative in plain decimal notation: integer part and
up to 20 digits of the fraction. -/
def plainDecimal (a : ℚ) : String :=
  toString a.floor.toNat ++
    (if a = (a.floor : ℚ) then ""
      else "." ++ String.mk (fractionDigits 20 (a - (a.floor : ℚ))))

/-- The least `k` with r * 10^k >= 1 for a fraction 0 < r < 1, searched up to
the fuel. -/
def leadingShift : Nat → ℚ → Nat
  | 0, _ => 0
  | fuel + 1, r => if 1 ≤ r * 10 then 1 else leadingShift fuel (r * 10) + 1

/-- A number in the notation of `Number::toString`: plain decimal notation
from 1e-6 up to 1e21, otherwise one digit before the point and an exponent
(`1e-7`, `1.5e+21`). -/
def decimalText (q : ℚ) : String :=
  (if q < 0 then "-" else "") ++
    (if (10 : ℚ) ^ 21 ≤ |q| then
      plainDecimal (|q| / (10 : ℚ) ^ ((toString |q|.floor.toNat).length - 1)) ++ "e+" ++
        toString ((toString |q|.floor.toNat).length - 1)
    else if 0 < |q| ∧ |q| < 1 / (10 : ℚ) ^ 6 then
      plainDecimal (|q| * (10 : ℚ) ^ leadingShift q.den |q|) ++ "e-" ++
        toString (leadingShift q.den |q|)
    else plainDecimal |q|)

/-- The day count from the epoch of a civil date in the proleptic Gregorian
calendar. -/
def daysFromCivil (y m d : Int) : Int :=
  let y1 := if m ≤ 2 then y - 1 else y
  let era := y1 / 400
  let yoe := y1 - era * 400
  let doy := (153 * (if m > 2 then m - 3 else m + 9) + 2) / 5 + d - 1
  era * 146097 + (yoe * 365 + yoe / 4 - yoe / 100 + doy) - 719468

/-- The number a list of decimal digits denotes, `none` if one of them is not
a digit. -/
def decimalNumber (ds : List Char) : Option Int :=
  if ds.all (fun c => (digitValue 10 c).isSome) then some (digitsValue 10 ds) else none

/-- The time value of `-MM-DDTHH:mm:ss.sssZ` after a year, `none` unless the
fields are digits and denote an existing date and time no further than
8.64e15 ms from the epoch (`TimeClip`). -/
def timeFromFields (y : Int) (rest : List Char) : Option Int :=
  match rest with
  | ['-', m1, m2, '-', d1, d2, 'T', h1, h2, ':', n1, n2, ':', s1, s2, '.', f1, f2, f3, 'Z'] =>
    match decimalNumber [m1, m2], decimalNumber [d1, d2], decimalNumber [h1, h2],
      decimalNumber [n1, n2], decimalNumber [s1, s2], decimalNumber [f1, f2, f3] with
    | some m, some d, some h, some n, some s, some f =>
      if civilFromDays (daysFromCivil y m d) = (y, m, d) ∧ h ≤ 23 ∧ n ≤ 59 ∧ s ≤ 59 then
        LeituraService.timeClip
          ((daysFromCivil y m d * 86400000 + h * 3600000 + n * 60000 + s * 1000 + f : Int) : ℚ)
      else none
    | _, _, _, _, _, _ => none
  | _ => none

/-- A reader of the format `toISOString` writes: a year of four digits, or of
a sign and six digits, then `-MM-DDTHH:mm:ss.sssZ`; `none` (`NaN`) for any
other text and for a date outside the range of time values. -/
def parseIsoString (s : String) : Option Int :=
  match s.toList with
  | '+' :: y1 :: y2 :: y3 :: y4 :: y5 :: y6 :: rest =>
    (decimalNumber [y1, y2, y3, y4, y5, y6]).bind (fun y => timeFromFields y rest)
  | '-' :: y1 :: y2 :: y3 :: y4 :: y5 :: y6 :: rest =>
    (decimalNumber [y1, y2, y3, y4, y5, y6]).bind
      (fun y => if y = 0 then none else timeFromFields (-y) rest)
  | y1 :: y2 :: y3 :: y4 :: rest =>
    (decimalNumber [y1, y2, y3, y4]).bind (fun y => timeFromFields y rest)
  | _ => none

/-- The text `Date.prototype.toString` prints on a host in UTC. -/
def utcDateText (t : Int) : String :=
  let civil := civilFromDays (t / 86400000)
  let ms := t % 86400000
  (["Thu", "Fri", "Sat", "Sun", "Mon", "Tue", "Wed"].getD (t / 86400000 % 7).toNat "") ++ " " ++
    (["Jan", "Feb", "Mar", "Apr", "May", "Jun", "Jul", "Aug", "Sep", "Oct", "Nov",
      "Dec"].getD (civil.2.1 - 1).toNat "") ++ " " ++
    padded 2 civil.2.2.toNat ++ " " ++ (if civil.1 < 0 then "-" else "") ++
    padded 4 civil.1.natAbs ++ " " ++ padded 2 (ms / 3600000).toNat ++ ":" ++
    padded 2 (ms / 60000 % 60).toNat ++ ":" ++ padded 2 (ms / 1000 % 60).toNat ++
    " GMT+0000 (Coordinated Universal Time)"

/-- The sample engine. -/
def sampleEngine : Engine :=
  { numberToString := decimalText, dateToString := utcDateText, dateParse := parseIsoString }

/-- A network that is down: every `fetch` rejects. -/
def offline : ApiService.Fetch := fun _ => .error (.typeError "Network request failed")

/-- A server that answers every request with HTTP 200 and a JSON body: its
text and the value it parses to. -/
def answering (text : String) (body : JSON) : ApiService.Fetch := fun _ =>
  .ok { status := 200, statusText := "OK",
        contentType := some "application/json; charset=utf-8", text := text,
        json := some body }

/-- The text of a list of three readings: one with a timestamp in wire form,
one whose `dataHora` is no timestamp, one without `dataHora`. -/
def sampleReadingsText : String :=
  "[\x7b\"id\":1,\"dataHora\":\"2024-05-01T12:00:00.000Z\",\"temperatura\":41," ++
  "\"sensorId\":3\x7d," ++
  "\x7b\"id\":2,\"dataHora\":\"ontem\",\"temperatura\":-5,\"sensorId\":3\x7d," ++
  "\x7b\"id\":3,\"temperatura\":38,\"sensorId\":4\x7d]"

/-- The list of readings `sampleReadingsText` parses to. -/
def sampleReadings : List JSON :=
  [.obj [("id", .num 1), ("dataHora", .str "2024-05-01T12:00:00.000Z"),
      ("temperatura", .num 41), ("sensorId", .num 3)],
    .obj [("id", .num 2), ("dataHora", .str "ontem"), ("temperatura", .num (-5)),
      ("sensorId", .num 3)],
    .obj [("id", .num 3), ("temperatura", .num 38), ("sensorId", .num 4)]]

/-- An engine whose `Date.parse` reads the format `toISOString` writes, as
ECMAScript requires of every engine: on a text of that format which denotes a
time value, it gives that time value. Nothing is asked of it on any other
text. -/
def readsIsoFormat (E : Engine) : Prop :=
  ∀ s t, parseIsoString s = some t → E.dateParse s = some t

/-! ## Theorems -/

section Classifiers

open Config

/-- C8: both classifiers put every temperature below 0 in their coldest band
(config `VERY_COLD` colour; theme `cold` colour, status `Muito Frio`, icon
`snow`) and every temperature of 40 or more in their hottest band (config `HOT`
colour; theme `veryHot` colour, status `Muito Quente`, icon `flame`). The
comparisons are those of JavaScript, so the statement covers the infinities. -/
theorem classifiers_coldest_and_hottest (t : JSNum) :
    (t.lt (.fin 0) = true →
      Config.getTemperatureColor t = UI_CONFIG.TEMPERATURE_COLORS.VERY_COLD ∧
      Theme.getTemperatureColor t = Theme.temperature.cold ∧
      Theme.getTemperatureStatus t =
        { status := "Muito Frio", color := Theme.temperature.cold } ∧
      Theme.getTemperatureIcon t = "snow") ∧
    (t.ge (.fin 40) = true →
      Config.getTemperatureColor t = UI_CONFIG.TEMPERATURE_COLORS.HOT ∧
      Theme.getTemperatureColor t = Theme.temperature.veryHot ∧
      Theme.getTemperatureStatus t =
        { status := "Muito Quente", color := Theme.temperature.veryHot } ∧
      Theme.getTemperatureIcon t = "flame") := by
  cases t with
  | nan => simp [JSNum.lt, JSNum.ge]
  | posInf =>
    simp [JSNum.lt, JSNum.ge, Config.getTemperatureColor, Theme.getTemperatureColor,
      Theme.getTemperatureStatus, Theme.getTemperatureIcon, UI_CONFIG]
  | negInf =>
    simp [JSNum.lt, JSNum.ge, Config.getTemperatureColor, Theme.getTemperatureColor,
      Theme.getTemperatureStatus, Theme.getTemperatureIcon, UI_CONFIG]
  | fin q =>
    simp only [JSNum.lt, JSNum.ge, Config.getTemperatureColor, Theme.getTemperatureColor,
      Theme.getTemperatureStatus, Theme.getTemperatureIcon, UI_CONFIG,
      decide_eq_true_eq, Bool.not_eq_true', decide_eq_false_iff_not, not_lt]
    constructor
    · intro h
      have h1 : ¬ (40 ≤ q) := by linarith
      have h2 : ¬ (30 ≤ q) := by linarith
      have h3 : ¬ (20 ≤ q) := by linarith
      have h4 : ¬ (10 ≤ q) := by linarith
      have h5 : ¬ (0 ≤ q) := by linarith
      simp [h, h1, h2, h3, h4, h5]
    · intro h
      have h1 : ¬ (q < 0) := by linarith
      have h2 : ¬ (q < 15) := by linarith
      have h3 : ¬ (q < 25) := by linarith
      have h4 : ¬ (q < 35) := by linarith
      simp [h, h1, h2, h3, h4]

/-- Witness of C8 at -5 degrees (coldest band) and at 40 degrees (hottest
band). -/
theorem classifiers_coldest_and_hottest_witness :
    (Config.getTemperatureColor (.fin (-5)) = "#1976D2" ∧
      Theme.getTemperatureColor (.fin (-5)) = "#1976D2" ∧
      Theme.getTemperatureStatus (.fin (-5)) = { status := "Muito Frio", color := "#1976D2" } ∧
      Theme.getTemperatureIcon (.fin (-5)) = "snow") ∧
    (Config.getTemperatureColor (.fin 40) = "#F44336" ∧
      Theme.getTemperatureColor (.fin 40) = "#D32F2F" ∧
      Theme.getTemperatureStatus (.fin 40) = { status := "Muito Quente", color := "#D32F2F" } ∧
      Theme.getTemperatureIcon (.fin 40) = "flame") :=
  ⟨(classifiers_coldest_and_hottest (.fin (-5))).1 (by decide),
    (classifiers_coldest_and_hottest (.fin 40)).2 (by decide)⟩

/-- C9: `getTemperatureColor` of config partitions the line: a temperature
gets `VERY_COLD` iff t < 0, `COLD` iff 0 <= t < 15, `NORMAL` iff 15 <= t < 25,
`WARM` iff 25 <= t < 35 and `HOT` iff t >= 35; the five colours are pairwise
distinct and every temperature gets one of them, so it gets exactly one, and a
boundary value belongs to the band above it. -/
theorem getTemperatureColor_partition (t : ℚ) :
    (getTemperatureColor (.fin t) = UI_CONFIG.TEMPERATURE_COLORS.VERY_COLD ↔ t < 0) ∧
    (getTemperatureColor (.fin t) = UI_CONFIG.TEMPERATURE_COLORS.COLD ↔ 0 ≤ t ∧ t < 15) ∧
    (getTemperatureColor (.fin t) = UI_CONFIG.TEMPERATURE_COLORS.NORMAL ↔ 15 ≤ t ∧ t < 25) ∧
    (getTemperatureColor (.fin t) = UI_CONFIG.TEMPERATURE_COLORS.WARM ↔ 25 ≤ t ∧ t < 35) ∧
    (getTemperatureColor (.fin t) = UI_CONFIG.TEMPERATURE_COLORS.HOT ↔ 35 ≤ t) ∧
    getTemperatureColor (.fin t) ∈
      [UI_CONFIG.TEMPERATURE_COLORS.VERY_COLD, UI_CONFIG.TEMPERATURE_COLORS.COLD,
        UI_CONFIG.TEMPERATURE_COLORS.NORMAL, UI_CONFIG.TEMPERATURE_COLORS.WARM,
        UI_CONFIG.TEMPERATURE_COLORS.HOT] ∧
    [UI_CONFIG.TEMPERATURE_COLORS.VERY_COLD, UI_CONFIG.TEMPERATURE_COLORS.COLD,
      UI_CONFIG.TEMPERATURE_COLORS.NORMAL, UI_CONFIG.TEMPERATURE_COLORS.WARM,
      UI_CONFIG.TEMPERATURE_COLORS.HOT].Nodup := by
  simp only [getTemperatureColor, JSNum.lt, UI_CONFIG,
    decide_eq_true_eq]
  refine ⟨?_, ?_, ?_, ?_, ?_, ?_, by decide⟩
  · by_cases h0 : t < 0 <;> by_cases h1 : t < 15 <;> by_cases h2 : t < 25 <;>
      by_cases h3 : t < 35 <;> simp [h0, h1, h2, h3]
  · by_cases h0 : t < 0 <;> by_cases h1 : t < 15 <;> by_cases h2 : t < 25 <;>
      by_cases h3 : t < 35 <;> simp [h0, h1, h2, h3] <;> linarith
  · by_cases h0 : t < 0 <;> by_cases h1 : t < 15 <;> by_cases h2 : t < 25 <;>
      by_cases h3 : t < 35 <;> simp [h0, h1, h2, h3] <;> linarith
  · by_cases h0 : t < 0 <;> by_cases h1 : t < 15 <;> by_cases h2 : t < 25 <;>
      by_cases h3 : t < 35 <;> simp [h0, h1, h2, h3] <;> linarith
  · by_cases h0 : t < 0 <;> by_cases h1 : t < 15 <;> by_cases h2 : t < 25 <;>
      by_cases h3 : t < 35 <;> simp [h0, h1, h2, h3] <;> linarith
  · split_ifs <;> simp

/-- C10, as the claim states it, fails: 37 and 40 lie on either side of the
listed threshold `HOT = 40` and get the same colour. -/
theorem getTemperatureColor_37_40_same_band :
    UI_CONFIG.TEMPERATURE_THRESHOLDS.HOT = .fin 40 ∧
    ¬ (getTemperatureColor (.fin 37) ≠ getTemperatureColor (.fin 40)) := by
  decide

/-- C10, amended: the colour of `getTemperatureColor` of config changes at the
four breakpoints 0, 15, 25 and 35 and nowhere else (two temperatures get the
same colour iff they lie on the same side of each of the four); the entry
`HOT = 40` of `TEMPERATURE_THRESHOLDS` is not consulted, every temperature of
35 or more gets the colour of 40. -/
theorem getTemperatureColor_breakpoints (t u : ℚ) :
    (getTemperatureColor (.fin t) = getTemperatureColor (.fin u) ↔
      ((t < 0 ↔ u < 0) ∧ (t < 15 ↔ u < 15) ∧ (t < 25 ↔ u < 25) ∧ (t < 35 ↔ u < 35))) ∧
    (35 ≤ t → getTemperatureColor (.fin t) = getTemperatureColor (.fin 40)) := by
  simp only [getTemperatureColor, JSNum.lt, UI_CONFIG,
    decide_eq_true_eq]
  constructor
  · by_cases h0 : t < 0 <;> by_cases h1 : t < 15 <;> by_cases h2 : t < 25 <;>
      by_cases h3 : t < 35 <;> by_cases k0 : u < 0 <;> by_cases k1 : u < 15 <;>
      by_cases k2 : u < 25 <;> by_cases k3 : u < 35 <;>
      simp [h0, h1, h2, h3, k0, k1, k2, k3] <;> linarith
  · intro h
    have h0 : ¬ (t < 0) := by linarith
    have h1 : ¬ (t < 15) := by linarith
    have h2 : ¬ (t < 25) := by linarith
    have h3 : ¬ (t < 35) := by linarith
    simp only [h0, h1, h2, h3, if_false]
    norm_num

/-- Witness of the amended C10 at 37 degrees. -/
theorem getTemperatureColor_breakpoints_witness :
    getTemperatureColor (.fin 37) = getTemperatureColor (.fin 40) :=
  (getTemperatureColor_breakpoints 37 0).2 (by norm_num)

/-- C11: the theme classifier uses the breakpoints 0, 10, 20, 30 and 40: a
temperature gets `cold` iff t < 0, `cool` iff 0 <= t < 10, `normal` iff
10 <= t < 20, `warm` iff 20 <= t < 30, `hot` iff 30 <= t < 40 and `veryHot` iff
t >= 40, the six colours being pairwise distinct; that is the result of the
strict less-than ladder scanned from coldest to hottest with `veryHot` as the
default, also at the two infinities. -/
theorem theme_getTemperatureColor_ladder (t : ℚ) :
    (Theme.getTemperatureColor (.fin t) = Theme.temperature.cold ↔ t < 0) ∧
    (Theme.getTemperatureColor (.fin t) = Theme.temperature.cool ↔ 0 ≤ t ∧ t < 10) ∧
    (Theme.getTemperatureColor (.fin t) = Theme.temperature.normal ↔ 10 ≤ t ∧ t < 20) ∧
    (Theme.getTemperatureColor (.fin t) = Theme.temperature.warm ↔ 20 ≤ t ∧ t < 30) ∧
    (Theme.getTemperatureColor (.fin t) = Theme.temperature.hot ↔ 30 ≤ t ∧ t < 40) ∧
    (Theme.getTemperatureColor (.fin t) = Theme.temperature.veryHot ↔ 40 ≤ t) ∧
    [Theme.temperature.cold, Theme.temperature.cool, Theme.temperature.normal,
      Theme.temperature.warm, Theme.temperature.hot, Theme.temperature.veryHot].Nodup ∧
    Theme.getTemperatureColor (.fin t) =
      firstStrictlyBelow classifierBandTable Theme.temperature.veryHot (.fin t) ∧
    Theme.getTemperatureColor .posInf =
      firstStrictlyBelow classifierBandTable Theme.temperature.veryHot .posInf ∧
    Theme.getTemperatureColor .negInf =
      firstStrictlyBelow classifierBandTable Theme.temperature.veryHot .negInf := by
  simp only [Theme.getTemperatureColor, JSNum.ge, JSNum.lt, Theme.temperature,
    firstStrictlyBelow, classifierBandTable, List.find?, decide_eq_true_eq, Bool.not_eq_true',
    decide_eq_false_iff_not, not_lt]
  refine ⟨?_, ?_, ?_, ?_, ?_, ?_, by decide, ?_, by decide, by decide⟩
  all_goals
    by_cases h0 : 0 ≤ t <;> by_cases h1 : 10 ≤ t <;> by_cases h2 : 20 ≤ t <;>
      by_cases h3 : 30 ≤ t <;> by_cases h4 : 40 ≤ t <;>
      simp [h0, h1, h2, h3, h4, not_le.mp, not_lt.mpr] <;> linarith

/-- The three theme classifiers on one temperature: the band it lies in and
the colour, status and icon the code returns there. -/
theorem theme_band_cases (t : JSNum) :
    (themeBand t = 0 ∧ Theme.getTemperatureColor t = "#1976D2" ∧
      Theme.getTemperatureStatus t = { status := "Muito Frio", color := "#1976D2" } ∧
      Theme.getTemperatureIcon t = "snow") ∨
    (themeBand t = 1 ∧ Theme.getTemperatureColor t = "#42A5F5" ∧
      Theme.getTemperatureStatus t = { status := "Frio", color := "#42A5F5" } ∧
      Theme.getTemperatureIcon t = "rainy") ∨
    (themeBand t = 2 ∧ Theme.getTemperatureColor t = "#66BB6A" ∧
      Theme.getTemperatureStatus t = { status := "Normal", color := "#66BB6A" } ∧
      Theme.getTemperatureIcon t = "cloudy") ∨
    (themeBand t = 3 ∧ Theme.getTemperatureColor t = "#FFA726" ∧
      Theme.getTemperatureStatus t = { status := "Morno", color := "#FFA726" } ∧
      Theme.getTemperatureIcon t = "partly-sunny") ∨
    (themeBand t = 4 ∧ Theme.getTemperatureColor t = "#F57C00" ∧
      Theme.getTemperatureStatus t = { status := "Quente", color := "#F57C00" } ∧
      Theme.getTemperatureIcon t = "sunny") ∨
    (themeBand t = 5 ∧ Theme.getTemperatureColor t = "#D32F2F" ∧
      Theme.getTemperatureStatus t = { status := "Muito Quente", color := "#D32F2F" } ∧
      Theme.getTemperatureIcon t = "flame") := by
  cases t with
  | nan => exact Or.inl (by decide)
  | posInf => exact Or.inr (Or.inr (Or.inr (Or.inr (Or.inr (by decide)))))
  | negInf => exact Or.inl (by decide)
  | fin q =>
    have hge : ∀ b : ℚ, (JSNum.fin q).ge (.fin b) = decide (b ≤ q) := by
      intro b
      by_cases h : b ≤ q
      · simp [JSNum.ge, JSNum.lt, h, not_lt.mpr h]
      · simp [JSNum.ge, JSNum.lt, h, not_le.mp h]
    simp only [themeBand, Theme.getTemperatureColor, Theme.getTemperatureStatus,
      Theme.getTemperatureIcon, Theme.temperature, List.filter_cons, List.filter_nil, hge,
      decide_eq_true_eq]
    by_cases h0 : (0 : ℚ) ≤ q <;> by_cases h1 : (10 : ℚ) ≤ q <;> by_cases h2 : (20 : ℚ) ≤ q <;>
      by_cases h3 : (30 : ℚ) ≤ q <;> by_cases h4 : (40 : ℚ) ≤ q <;>
      simp [h0, h1, h2, h3, h4] <;> linarith

/-- C28: the three theme classifiers agree on one banding. The colour inside
the status of a temperature is the colour `getTemperatureColor` gives it; and
two temperatures get the same status label iff they lie in the same band (have
reached the same ones of the breakpoints 0, 10, 20, 30, 40), and likewise the
same icon, and likewise the same colour: each of the three is a function of the
band alone and takes six distinct values on the six bands. -/
theorem theme_classifiers_agree (t u : JSNum) :
    (Theme.getTemperatureStatus t).color = Theme.getTemperatureColor t ∧
    ((Theme.getTemperatureStatus t).status = (Theme.getTemperatureStatus u).status ↔
      themeBand t = themeBand u) ∧
    (Theme.getTemperatureIcon t = Theme.getTemperatureIcon u ↔ themeBand t = themeBand u) ∧
    (Theme.getTemperatureColor t = Theme.getTemperatureColor u ↔ themeBand t = themeBand u) := by
  rcases theme_band_cases t with ⟨a, b, c, d⟩ | ⟨a, b, c, d⟩ | ⟨a, b, c, d⟩ | ⟨a, b, c, d⟩ |
      ⟨a, b, c, d⟩ | ⟨a, b, c, d⟩ <;>
    rcases theme_band_cases u with ⟨a', b', c', d'⟩ | ⟨a', b', c', d'⟩ | ⟨a', b', c', d'⟩ |
      ⟨a', b', c', d'⟩ | ⟨a', b', c', d'⟩ | ⟨a', b', c', d'⟩ <;>
    rw [a, b, c, d, a', b', c', d'] <;> decide

/-- C26, as the claim states it, fails for the theme classifiers at `NaN`:
`NaN` is strictly below no breakpoint, yet the theme does not return its
hottest band there (no `veryHot` colour, no `Muito Quente`, no `flame`). -/
theorem theme_nan_not_hottest_band :
    (∀ b ∈ classifierBandTable, JSNum.nan.lt b.1 = false) ∧
    Theme.getTemperatureColor .nan ≠ Theme.temperature.veryHot ∧
    (Theme.getTemperatureStatus .nan).status ≠ "Muito Quente" ∧
    Theme.getTemperatureIcon .nan ≠ "flame" := by
  decide

/-- C26, amended: the classifiers are total, every number (finite or not)
gets one of the five colours of config and one of the six colours, labels and
icons of the theme. At +infinity each classifier returns its hottest band and
at -infinity its coldest band. At `NaN` every comparison is false, so config,
whose ladder tests `<` and ends in `HOT`, returns the `HOT` colour, while the
theme, whose ladders test `>=` from the hottest band down and end in the
coldest, returns the `cold` colour, `Muito Frio` and `snow`. -/
theorem classifiers_on_non_finite (t : JSNum) :
    Config.getTemperatureColor t ∈
      [UI_CONFIG.TEMPERATURE_COLORS.VERY_COLD, UI_CONFIG.TEMPERATURE_COLORS.COLD,
        UI_CONFIG.TEMPERATURE_COLORS.NORMAL, UI_CONFIG.TEMPERATURE_COLORS.WARM,
        UI_CONFIG.TEMPERATURE_COLORS.HOT] ∧
    Theme.getTemperatureColor t ∈
      [Theme.temperature.cold, Theme.temperature.cool, Theme.temperature.normal,
        Theme.temperature.warm, Theme.temperature.hot, Theme.temperature.veryHot] ∧
    (Theme.getTemperatureStatus t).status ∈
      ["Muito Frio", "Frio", "Normal", "Morno", "Quente", "Muito Quente"] ∧
    Theme.getTemperatureIcon t ∈
      ["snow", "rainy", "cloudy", "partly-sunny", "sunny", "flame"] ∧
    (Config.getTemperatureColor .posInf = UI_CONFIG.TEMPERATURE_COLORS.HOT ∧
      Theme.getTemperatureColor .posInf = Theme.temperature.veryHot ∧
      Theme.getTemperatureStatus .posInf =
        { status := "Muito Quente", color := Theme.temperature.veryHot } ∧
      Theme.getTemperatureIcon .posInf = "flame") ∧
    (Config.getTemperatureColor .negInf = UI_CONFIG.TEMPERATURE_COLORS.VERY_COLD ∧
      Theme.getTemperatureColor .negInf = Theme.temperature.cold ∧
      Theme.getTemperatureStatus .negInf =
        { status := "Muito Frio", color := Theme.temperature.cold } ∧
      Theme.getTemperatureIcon .negInf = "snow") ∧
    (Config.getTemperatureColor .nan = UI_CONFIG.TEMPERATURE_COLORS.HOT ∧
      Theme.getTemperatureColor .nan = Theme.temperature.cold ∧
      Theme.getTemperatureStatus .nan =
        { status := "Muito Frio", color := Theme.temperature.cold } ∧
      Theme.getTemperatureIcon .nan = "snow") := by
  refine ⟨?_, ?_, ?_, ?_, by decide, by decide, by decide⟩
  · simp only [Config.getTemperatureColor]
    split_ifs <;> simp
  · simp only [Theme.getTemperatureColor]
    split_ifs <;> simp
  · simp only [Theme.getTemperatureStatus]
    split_ifs <;> simp
  · simp only [Theme.getTemperatureIcon]
    split_ifs <;> simp

end Classifiers

section Validators

open Config

/-- The ladder of `checkText` on a field that is a string or absent, in terms
of the length of its trimmed text. -/
theorem checkText_of_trimmedLength (key required tooShort tooLong : String) (min max : Nat)
    (v : JSVal) (n : Nat) (h : trimmedLength v = some n) :
    checkText key required tooShort tooLong min max v =
      .ok (if n = 0 then [(key, required)] else if n < min then [(key, tooShort)]
        else if n > max then [(key, tooLong)] else []) := by
  cases v with
  | undefined => simp [trimmedLength] at h; subst h; simp [checkText, JSVal.truthy]
  | null => simp [trimmedLength] at h; subst h; simp [checkText, JSVal.truthy]
  | str s =>
    simp only [trimmedLength, Option.some.injEq] at h
    by_cases hs : s = ""
    · subst hs
      have : n = 0 := by rw [← h]; decide
      subst this
      simp [checkText, JSVal.truthy]
    · subst h
      simp only [checkText, JSVal.truthy, hs, trimLength, ne_eq, not_false_eq_true,
        decide_True, Bool.not_true, Bool.false_eq_true, if_false]
      split_ifs <;> rfl
  | bool b => simp [trimmedLength] at h
  | num x => simp [trimmedLength] at h
  | date t => simp [trimmedLength] at h

/-- Every entry `checkText` adds carries the key of its field. -/
theorem checkText_keys (key required tooShort tooLong : String) (min max : Nat)
    (v : JSVal) (es : List (String × String))
    (h : checkText key required tooShort tooLong min max v = .ok es) :
    ∀ kv ∈ es, kv.1 = key := by
  unfold checkText at h
  split at h
  · cases h; simp
  · split at h
    · cases h
    · split_ifs at h <;> cases h <;> simp

/-- A key is absent from a list whose entries all carry another key. -/
theorem find_none_of_keys (key other : String) (hne : (other == key) = false)
    (es : List (String × String)) (h : ∀ kv ∈ es, kv.1 = other) :
    es.find? (fun kv => kv.1 == key) = none := by
  rw [List.find?_eq_none]
  intro kv hkv
  rw [h kv hkv, hne]
  simp

/-- C1: `validateSensorData` returns a result for every payload whose `nome`
and `localizacao` are each a string or absent, and in every result it returns:
a trimmed `nome` of fewer than 3 characters (empty, white space only and
absent included) gives `isValid = false` with `errors.nome` set; one of more
than 100 characters gives `errors.nome` set; one of 3 to 100 characters gives
no `nome` key. -/
theorem validateSensorData_nome_length (d : SensorData) :
    ((trimmedLength d.nome).isSome = true → (trimmedLength d.localizacao).isSome = true →
      ∃ r, validateSensorData d = .ok r) ∧
    ∀ r n, validateSensorData d = .ok r → trimmedLength d.nome = some n →
      (n < 3 → r.isValid = false ∧ (r.error "nome").isSome = true) ∧
      (100 < n → (r.error "nome").isSome = true) ∧
      (3 ≤ n ∧ n ≤ 100 → r.error "nome" = none) := by
  constructor
  · intro h1 h2
    obtain ⟨n, hn⟩ := Option.isSome_iff_exists.mp h1
    obtain ⟨m, hm⟩ := Option.isSome_iff_exists.mp h2
    simp [validateSensorData, checkText_of_trimmedLength _ _ _ _ _ _ _ _ hn,
      checkText_of_trimmedLength _ _ _ _ _ _ _ _ hm]
  · intro r n hr hn
    unfold validateSensorData at hr
    rw [checkText_of_trimmedLength _ _ _ _ _ _ _ _ hn] at hr
    simp only at hr
    split at hr
    · cases hr
    · rename_i e2 he2
      have hk := checkText_keys _ _ _ _ _ _ _ _ he2
      have hnone := find_none_of_keys "nome" "localizacao" (by decide) e2 hk
      cases hr
      simp only [ValidationResult.error, VALIDATION_CONFIG]
      refine ⟨?_, ?_, ?_⟩
      · intro h3
        by_cases h0 : n = 0
        · simp [h0]
        · simp [h0, h3]
      · intro h100
        have h0 : n ≠ 0 := by omega
        have h3 : ¬ n < 3 := by omega
        simp [h0, h3, h100]
      · intro ⟨h3, h100⟩
        have h0 : n ≠ 0 := by omega
        have h3 : ¬ n < 3 := by omega
        have h100 : ¬ n > 100 := by omega
        simp [h0, h3, h100, hnone]

/-- Witness of C1: the payload with `nome` = " ab " (two characters once
trimmed) and `localizacao` = "Sala 1" gets a result, and it is invalid with
`errors.nome` set. -/
theorem validateSensorData_nome_length_witness :
    (∃ r, validateSensorData { nome := .str " ab ", localizacao := .str "Sala 1" } = .ok r) ∧
    ∃ r, validateSensorData { nome := .str " ab ", localizacao := .str "Sala 1" } = .ok r ∧
      r.isValid = false ∧ (r.error "nome").isSome = true :=
  ⟨(validateSensorData_nome_length
      { nome := .str " ab ", localizacao := .str "Sala 1" }).1 (by decide) (by decide),
    ⟨_, rfl, ((validateSensorData_nome_length
      { nome := .str " ab ", localizacao := .str "Sala 1" }).2 _ 2
      rfl (by decide)).1 (by decide)⟩⟩

/-- Every entry of the `dataHora` block carries the key `dataHora`. -/
theorem checkDataHora_keys (v : JSVal) : ∀ kv ∈ checkDataHora v, kv.1 = "dataHora" := by
  unfold checkDataHora
  split
  · simp
  · split <;> simp

/-- Every entry of the `temperatura` block carries the key `temperatura`. -/
theorem checkTemperatura_keys (v : JSVal) :
    ∀ kv ∈ checkTemperatura v, kv.1 = "temperatura" := by
  unfold checkTemperatura
  split_ifs <;> simp

/-- Every entry of the `sensorId` block carries the key `sensorId`. -/
theorem checkSensorId_keys (v : JSVal) : ∀ kv ∈ checkSensorId v, kv.1 = "sensorId" := by
  unfold checkSensorId
  split_ifs <;> simp

/-- The `temperatura` entry of the result is the one the `temperatura` block
adds. -/
theorem error_temperatura (d : LeituraData) :
    (validateLeituraData d).error "temperatura" =
      ((checkTemperatura d.temperatura).find? (fun kv => kv.1 == "temperatura")).map
        Prod.snd := by
  simp only [validateLeituraData, ValidationResult.error, List.find?_append,
    find_none_of_keys "temperatura" "dataHora" (by decide) _ (checkDataHora_keys _),
    find_none_of_keys "temperatura" "sensorId" (by decide) _ (checkSensorId_keys _)]
  simp

/-- The range test of line 162 fails exactly on the numeric values outside
[-50, 100]. -/
theorem outOfRange_iff (v : JSVal) (h : isNumeric v) :
    (v.toNumber.lt (.ofInt VALIDATION_CONFIG.LEITURA.TEMPERATURA_MIN) ||
      v.toNumber.gt (.ofInt VALIDATION_CONFIG.LEITURA.TEMPERATURA_MAX)) = true ↔
      ¬ withinRange (-50) 100 v := by
  unfold isNumeric at h
  unfold withinRange
  cases hv : v.toNumber with
  | nan => exact absurd hv h
  | posInf => simp [JSNum.lt, JSNum.gt, JSNum.ofInt]
  | negInf => simp [JSNum.lt, JSNum.gt, JSNum.ofInt]
  | fin q =>
    simp only [JSNum.lt, JSNum.gt, JSNum.ofInt, VALIDATION_CONFIG, Bool.or_eq_true,
      decide_eq_true_eq]
    push_cast
    constructor
    · rintro (h1 | h1) ⟨h2, h3⟩ <;> linarith
    · intro h1
      by_contra h2
      push_neg at h2
      exact h1 ⟨h2.1, h2.2⟩

/-- C2: `validateLeituraData` leaves `errors` without a `temperatura` key iff
`temperatura` is present, numeric and within [-50, 100], both bounds included;
an absent, `null` or empty-string value gets the message
'A temperatura é obrigatória.', a value that is not numeric gets
'A temperatura deve ser um número válido.', a numeric value out of range gets
'A temperatura deve estar entre -50°C e 100°C.'. Numeric means: not `NaN`
once converted to a number, as `isNaN` tests it, and the range is tested on
that number. For a payload whose `temperatura` is a number the statement is
about the number itself: no key iff -50 <= temperatura <= 100, `NaN` is not
numeric and an infinity is out of range. For a text it is about the Number the
text converts to, as the sample texts show: '100.00000000000000001' converts
to 100 and is accepted, '100.0000000000001' is out of range. -/
theorem validateLeituraData_temperatura (d : LeituraData) :
    ((validateLeituraData d).error "temperatura" = none ↔
      isPresent d.temperatura ∧ isNumeric d.temperatura ∧
        withinRange (-50) 100 d.temperatura) ∧
    (¬ isPresent d.temperatura →
      (validateLeituraData d).error "temperatura" = some "A temperatura é obrigatória.") ∧
    (isPresent d.temperatura → ¬ isNumeric d.temperatura →
      (validateLeituraData d).error "temperatura" =
        some "A temperatura deve ser um número válido.") ∧
    (isPresent d.temperatura → isNumeric d.temperatura →
      ¬ withinRange (-50) 100 d.temperatura →
      (validateLeituraData d).error "temperatura" =
        some "A temperatura deve estar entre -50°C e 100°C.") ∧
    (∀ q : ℚ, d.temperatura = .num (.fin q) →
      ((validateLeituraData d).error "temperatura" = none ↔ -50 ≤ q ∧ q ≤ 100) ∧
      (¬ (-50 ≤ q ∧ q ≤ 100) → (validateLeituraData d).error "temperatura" =
        some "A temperatura deve estar entre -50°C e 100°C.")) ∧
    (d.temperatura = .num .nan →
      (validateLeituraData d).error "temperatura" =
        some "A temperatura deve ser um número válido.") ∧
    (d.temperatura = .num .posInf ∨ d.temperatura = .num .negInf →
      (validateLeituraData d).error "temperatura" =
        some "A temperatura deve estar entre -50°C e 100°C.") ∧
    (∀ s ∈ ["-50", "100", " 42.5 ", "1e2", "0x10", " ", "100.00000000000000001"],
      d.temperatura = .str s → (validateLeituraData d).error "temperatura" = none) ∧
    (∀ s ∈ ["150", "-50.1", "100.0000000000001", "Infinity", "1e400"],
      d.temperatura = .str s → (validateLeituraData d).error "temperatura" =
        some "A temperatura deve estar entre -50°C e 100°C.") ∧
    (∀ s ∈ ["abc", "12abc", "1,5", "NaN"],
      d.temperatura = .str s → (validateLeituraData d).error "temperatura" =
        some "A temperatura deve ser um número válido.") := by
  have hold : ((validateLeituraData d).error "temperatura" = none ↔
      isPresent d.temperatura ∧ isNumeric d.temperatura ∧
        withinRange (-50) 100 d.temperatura) ∧
    (¬ isPresent d.temperatura →
      (validateLeituraData d).error "temperatura" = some "A temperatura é obrigatória.") ∧
    (isPresent d.temperatura → ¬ isNumeric d.temperatura →
      (validateLeituraData d).error "temperatura" =
        some "A temperatura deve ser um número válido.") ∧
    (isPresent d.temperatura → isNumeric d.temperatura →
      ¬ withinRange (-50) 100 d.temperatura →
      (validateLeituraData d).error "temperatura" =
        some "A temperatura deve estar entre -50°C e 100°C.") := by
    rw [error_temperatura]
    have hmsg : "A temperatura deve estar entre " ++
        toString VALIDATION_CONFIG.LEITURA.TEMPERATURA_MIN ++ "°C e " ++
        toString VALIDATION_CONFIG.LEITURA.TEMPERATURA_MAX ++ "°C." =
        "A temperatura deve estar entre -50°C e 100°C." := by decide
    by_cases hp : isPresent d.temperatura
    · have hp' : ¬ (d.temperatura = .undefined ∨ d.temperatura = .null ∨
          d.temperatura = .str "") := by
        unfold isPresent at hp
        tauto
      by_cases hn : isNumeric d.temperatura
      · have hn' : d.temperatura.isNaN = false := by
          unfold isNumeric at hn
          unfold JSVal.isNaN
          cases h : d.temperatura.toNumber <;> simp_all [JSNum.isNaN]
        by_cases hr : withinRange (-50) 100 d.temperatura
        · have := (outOfRange_iff _ hn).not.mpr (not_not.mpr hr)
          simp [checkTemperatura, hp', hn', this, hp, hn, hr]
        · have := (outOfRange_iff _ hn).mpr hr
          simp [checkTemperatura, hp', hn', this, hp, hn, hr, hmsg]
      · have hn' : d.temperatura.isNaN = true := by
          unfold isNumeric at hn
          unfold JSVal.isNaN
          cases h : d.temperatura.toNumber <;> simp_all [JSNum.isNaN]
        simp [checkTemperatura, hp', hn', hp, hn]
    · have hp' : (d.temperatura = .undefined ∨ d.temperatura = .null ∨
          d.temperatura = .str "") := by
        unfold isPresent at hp
        tauto
      simp [checkTemperatura, hp', hp]
  refine ⟨hold.1, hold.2.1, hold.2.2.1, hold.2.2.2, ?_, ?_, ?_, ?_, ?_, ?_⟩
  · intro q hq
    have hp : isPresent d.temperatura := by simp [isPresent, hq]
    have hn : isNumeric d.temperatura := by simp [isNumeric, hq, JSVal.toNumber]
    have hw : withinRange (-50) 100 d.temperatura ↔ -50 ≤ q ∧ q ≤ 100 := by
      simp [withinRange, hq, JSVal.toNumber]
    refine ⟨?_, fun h => hold.2.2.2 hp hn (fun hc => h (hw.mp hc))⟩
    rw [hold.1, hw]
    exact ⟨fun h => h.2.2, fun h => ⟨hp, hn, h⟩⟩
  · intro h
    exact hold.2.2.1 (by simp [isPresent, h]) (by simp [isNumeric, h, JSVal.toNumber])
  · intro h
    rcases h with h | h
    · exact hold.2.2.2 (by simp [isPresent, h]) (by simp [isNumeric, h, JSVal.toNumber])
        (by simp [withinRange, h, JSVal.toNumber])
    · exact hold.2.2.2 (by simp [isPresent, h]) (by simp [isNumeric, h, JSVal.toNumber])
        (by simp [withinRange, h, JSVal.toNumber])
  · intro s hs h
    rw [error_temperatura, h]
    simp only [List.mem_cons, List.mem_singleton, List.not_mem_nil, or_false] at hs
    rcases hs with rfl | rfl | rfl | rfl | rfl | rfl | rfl <;> decide!
  · intro s hs h
    rw [error_temperatura, h]
    simp only [List.mem_cons, List.mem_singleton, List.not_mem_nil, or_false] at hs
    rcases hs with rfl | rfl | rfl | rfl | rfl <;> decide!
  · intro s hs h
    rw [error_temperatura, h]
    simp only [List.mem_cons, List.mem_singleton, List.not_mem_nil, or_false] at hs
    rcases hs with rfl | rfl | rfl | rfl <;> decide!

/-- Witness of C2: -50, 0 and 100 get no `temperatura` key; 150 and -50.1 get
the range message, the text 'abc' the not-a-number message and the empty
string the required message; the text '100.00000000000000001' gets no key. -/
theorem validateLeituraData_temperatura_witness :
    (validateLeituraData { temperatura := .num (.fin (-50)) }).error "temperatura" = none ∧
    (validateLeituraData { temperatura := .num (.fin 0) }).error "temperatura" = none ∧
    (validateLeituraData { temperatura := .num (.fin 100) }).error "temperatura" = none ∧
    (validateLeituraData { temperatura := .num (.fin 150) }).error "temperatura" =
      some "A temperatura deve estar entre -50°C e 100°C." ∧
    (validateLeituraData { temperatura := .num (.fin (-501 / 10)) }).error "temperatura" =
      some "A temperatura deve estar entre -50°C e 100°C." ∧
    (validateLeituraData { temperatura := .str "abc" }).error "temperatura" =
      some "A temperatura deve ser um número válido." ∧
    (validateLeituraData { temperatura := .str "" }).error "temperatura" =
      some "A temperatura é obrigatória." ∧
    (validateLeituraData { temperatura := .str "100.00000000000000001" }).error
      "temperatura" = none :=
  ⟨(validateLeituraData_temperatura { temperatura := .num (.fin (-50)) }).1.mpr
      ⟨by simp [isPresent], by simp [isNumeric, JSVal.toNumber],
        by norm_num [withinRange, JSVal.toNumber]⟩,
    (validateLeituraData_temperatura { temperatura := .num (.fin 0) }).1.mpr
      ⟨by simp [isPresent], by simp [isNumeric, JSVal.toNumber],
        by norm_num [withinRange, JSVal.toNumber]⟩,
    (validateLeituraData_temperatura { temperatura := .num (.fin 100) }).1.mpr
      ⟨by simp [isPresent], by simp [isNumeric, JSVal.toNumber],
        by norm_num [withinRange, JSVal.toNumber]⟩,
    (validateLeituraData_temperatura { temperatura := .num (.fin 150) }).2.2.2.1
      (by simp [isPresent]) (by simp [isNumeric, JSVal.toNumber])
      (by norm_num [withinRange, JSVal.toNumber]),
    (validateLeituraData_temperatura { temperatura := .num (.fin (-501 / 10)) }).2.2.2.1
      (by simp [isPresent]) (by simp [isNumeric, JSVal.toNumber])
      (by norm_num [withinRange, JSVal.toNumber]),
    (validateLeituraData_temperatura { temperatura := .str "abc" }).2.2.1
      (by simp [isPresent]) (by unfold isNumeric; decide!),
    (validateLeituraData_temperatura { temperatura := .str "" }).2.1
      (by simp [isPresent]),
    (validateLeituraData_temperatura
      { temperatura := .str "100.00000000000000001" }).2.2.2.2.2.2.2.1
      "100.00000000000000001" (by simp) rfl⟩

/-- A result has no entry at all iff it has no entry under any key. -/
theorem errors_nil_iff (r : ValidationResult) :
    r.errors = [] ↔ ∀ key, r.error key = none := by
  constructor
  · intro h key
    simp [ValidationResult.error, h]
  · intro h
    cases hr : r.errors with
    | nil => rfl
    | cons kv rest =>
      have := h kv.1
      simp [ValidationResult.error, hr] at this

/-- The shape of every result `validateSensorData` returns: the entries of the
`nome` ladder followed by those of the `localizacao` ladder. -/
theorem validateSensorData_ok (d : SensorData) (r : ValidationResult)
    (h : validateSensorData d = .ok r) :
    ∃ e1 e2, (∀ kv ∈ e1, kv.1 = "nome") ∧ (∀ kv ∈ e2, kv.1 = "localizacao") ∧
      r.errors = e1 ++ e2 ∧ r.isValid = ((e1 ++ e2).length == 0) ∧
      checkText "nome" "O nome do sensor é obrigatório."
        ("O nome deve ter pelo menos " ++ toString VALIDATION_CONFIG.SENSOR.NOME_MIN_LENGTH ++
          " caracteres.")
        ("O nome deve ter no máximo " ++ toString VALIDATION_CONFIG.SENSOR.NOME_MAX_LENGTH ++
          " caracteres.")
        VALIDATION_CONFIG.SENSOR.NOME_MIN_LENGTH VALIDATION_CONFIG.SENSOR.NOME_MAX_LENGTH
        d.nome = .ok e1 ∧
      checkText "localizacao" "A localização é obrigatória."
        ("A localização deve ter pelo menos " ++
          toString VALIDATION_CONFIG.SENSOR.LOCALIZACAO_MIN_LENGTH ++ " caracteres.")
        ("A localização deve ter no máximo " ++
          toString VALIDATION_CONFIG.SENSOR.LOCALIZACAO_MAX_LENGTH ++ " caracteres.")
        VALIDATION_CONFIG.SENSOR.LOCALIZACAO_MIN_LENGTH
        VALIDATION_CONFIG.SENSOR.LOCALIZACAO_MAX_LENGTH d.localizacao = .ok e2 := by
  unfold validateSensorData at h
  split at h
  · cases h
  · rename_i e1 he1
    split at h
    · cases h
    · rename_i e2 he2
      cases h
      exact ⟨e1, e2, checkText_keys _ _ _ _ _ _ _ _ he1, checkText_keys _ _ _ _ _ _ _ _ he2,
        rfl, rfl, he1, he2⟩

/-- The `nome` entry of a result, by the length of the trimmed `nome`. -/
theorem error_nome (d : SensorData) (r : ValidationResult) (m : Nat)
    (h : validateSensorData d = .ok r) (hm : trimmedLength d.nome = some m) :
    r.error "nome" =
      if m = 0 then some "O nome do sensor é obrigatório."
      else if m < 3 then some "O nome deve ter pelo menos 3 caracteres."
      else if m > 100 then some "O nome deve ter no máximo 100 caracteres."
      else none := by
  obtain ⟨e1, e2, -, hk2, he, -, h1, -⟩ := validateSensorData_ok d r h
  rw [checkText_of_trimmedLength _ _ _ _ _ _ _ _ hm] at h1
  cases h1
  have hnone := find_none_of_keys "nome" "localizacao" (by decide) e2 hk2
  simp only [ValidationResult.error, he, List.find?_append, hnone, VALIDATION_CONFIG]
  split_ifs <;> rfl

/-- The `localizacao` entry of a result, by the length of the trimmed
`localizacao`. -/
theorem error_localizacao (d : SensorData) (r : ValidationResult) (n : Nat)
    (h : validateSensorData d = .ok r) (hn : trimmedLength d.localizacao = some n) :
    r.error "localizacao" =
      if n = 0 then some "A localização é obrigatória."
      else if n < 3 then some "A localização deve ter pelo menos 3 caracteres."
      else if n > 200 then some "A localização deve ter no máximo 200 caracteres."
      else none := by
  obtain ⟨e1, e2, hk1, -, he, -, -, h2⟩ := validateSensorData_ok d r h
  rw [checkText_of_trimmedLength _ _ _ _ _ _ _ _ hn] at h2
  cases h2
  have hnone := find_none_of_keys "localizacao" "nome" (by decide) e1 hk1
  simp only [ValidationResult.error, he, List.find?_append, hnone, VALIDATION_CONFIG]
  split_ifs <;> rfl

/-- The text of a string made of white space only is empty once trimmed. -/
theorem trimmedLength_of_whiteSpace (s : String) (h : s.toList.all isWhiteSpace = true) :
    trimmedLength (.str s) = some 0 := by
  have h1 : trimStart s.toList = [] := by
    unfold trimStart
    rw [List.dropWhile_eq_nil_iff]
    simpa using h
  simp only [trimmedLength, trim, h1]
  rfl

/-- C12: both validators return `isValid = true` iff the `errors` they return
is empty, that is iff it has no entry under any key: in every result
`validateSensorData` returns and for every payload of `validateLeituraData`. -/
theorem isValid_iff_errors_empty :
    (∀ d r, validateSensorData d = .ok r →
      (r.isValid = true ↔ r.errors = []) ∧
      (r.isValid = true ↔ ∀ key, r.error key = none)) ∧
    (∀ d, ((validateLeituraData d).isValid = true ↔ (validateLeituraData d).errors = []) ∧
      ((validateLeituraData d).isValid = true ↔
        ∀ key, (validateLeituraData d).error key = none)) := by
  constructor
  · intro d r h
    obtain ⟨e1, e2, -, -, he, hv, -, -⟩ := validateSensorData_ok d r h
    have h1 : r.isValid = true ↔ r.errors = [] := by
      rw [hv, he]
      simp
    exact ⟨h1, h1.trans (errors_nil_iff r)⟩
  · intro d
    have h1 : (validateLeituraData d).isValid = true ↔ (validateLeituraData d).errors = [] := by
      simp [validateLeituraData]
    exact ⟨h1, h1.trans (errors_nil_iff _)⟩

/-- Witness of C12: a sensor named "ab" gets a result that is not valid and
whose `errors` is not empty. -/
theorem isValid_iff_errors_empty_witness :
    ∃ r, validateSensorData { nome := .str "ab", localizacao := .str "Sala 1" } = .ok r ∧
      (r.isValid = true ↔ r.errors = []) ∧ r.isValid = false ∧ r.errors ≠ [] :=
  ⟨_, rfl,
    (isValid_iff_errors_empty.1 { nome := .str "ab", localizacao := .str "Sala 1" } _ rfl).1,
    rfl, by decide⟩

/-- C14: in every result `validateSensorData` returns for a payload whose
`localizacao` is a string or absent, `errors.localizacao` is absent iff the
trimmed `localizacao` has a length in [3, 200]; the entry depends on
`localizacao` alone, whatever `nome` is, and a payload with both fields bad
gets both keys. A result is returned whenever `nome` too is a string or
absent. -/
theorem validateSensorData_localizacao (d : SensorData) :
    ((trimmedLength d.nome).isSome = true → (trimmedLength d.localizacao).isSome = true →
      ∃ r, validateSensorData d = .ok r) ∧
    ∀ r n, validateSensorData d = .ok r → trimmedLength d.localizacao = some n →
      (r.error "localizacao" = none ↔ 3 ≤ n ∧ n ≤ 200) ∧
      (∀ d' r', validateSensorData d' = .ok r' → d'.localizacao = d.localizacao →
        r'.error "localizacao" = r.error "localizacao") ∧
      (∀ m, trimmedLength d.nome = some m → ¬ (3 ≤ m ∧ m ≤ 100) →
        ¬ (3 ≤ n ∧ n ≤ 200) →
        (r.error "nome").isSome = true ∧ (r.error "localizacao").isSome = true) := by
  constructor
  · intro h1 h2
    obtain ⟨m, hm⟩ := Option.isSome_iff_exists.mp h1
    obtain ⟨n, hn⟩ := Option.isSome_iff_exists.mp h2
    simp [validateSensorData, checkText_of_trimmedLength _ _ _ _ _ _ _ _ hm,
      checkText_of_trimmedLength _ _ _ _ _ _ _ _ hn]
  · intro r n hr hn
    have hl := error_localizacao d r n hr hn
    refine ⟨?_, ?_, ?_⟩
    · rw [hl]
      split_ifs <;> simp <;> omega
    · intro d' r' hr' hd
      rw [hl, error_localizacao d' r' n hr' (by rw [hd]; exact hn)]
    · intro m hm hbadm hbadn
      rw [hl, error_nome d r m hr hm]
      constructor
      · split_ifs <;> first | rfl | omega
      · split_ifs <;> first | rfl | omega

/-- Witness of C14: the payload with `nome` = "ab" and `localizacao` = "x"
gets both keys. -/
theorem validateSensorData_localizacao_witness :
    ∃ r, validateSensorData { nome := .str "ab", localizacao := .str "x" } = .ok r ∧
      (r.error "nome").isSome = true ∧ (r.error "localizacao").isSome = true :=
  ⟨_, rfl, ((validateSensorData_localizacao { nome := .str "ab", localizacao := .str "x" }).2 _ 1
    rfl (by decide)).2.2 2 (by decide) (by decide) (by decide)⟩

/-- C15: in every result `validateSensorData` returns, the first failing rule
of a field decides its message: an empty trimmed `nome` gives
'O nome do sensor é obrigatório.', a length of 1 or 2 gives
'O nome deve ter pelo menos 3 caracteres.', a length above 100 gives
'O nome deve ter no máximo 100 caracteres.'; for `localizacao` the messages
are 'A localização é obrigatória.',
'A localização deve ter pelo menos 3 caracteres.' and
'A localização deve ter no máximo 200 caracteres.'; a value of white space only
gets the required-field message. -/
theorem validateSensorData_messages (d : SensorData) (r : ValidationResult)
    (hr : validateSensorData d = .ok r) :
    (∀ m, trimmedLength d.nome = some m →
      (m = 0 → r.error "nome" = some "O nome do sensor é obrigatório.") ∧
      (1 ≤ m ∧ m ≤ 2 → r.error "nome" = some "O nome deve ter pelo menos 3 caracteres.") ∧
      (100 < m → r.error "nome" = some "O nome deve ter no máximo 100 caracteres.")) ∧
    (∀ n, trimmedLength d.localizacao = some n →
      (n = 0 → r.error "localizacao" = some "A localização é obrigatória.") ∧
      (1 ≤ n ∧ n ≤ 2 →
        r.error "localizacao" = some "A localização deve ter pelo menos 3 caracteres.") ∧
      (200 < n →
        r.error "localizacao" = some "A localização deve ter no máximo 200 caracteres.")) ∧
    (∀ s, d.nome = .str s → s.toList.all isWhiteSpace = true →
      r.error "nome" = some "O nome do sensor é obrigatório.") ∧
    (∀ s, d.localizacao = .str s → s.toList.all isWhiteSpace = true →
      r.error "localizacao" = some "A localização é obrigatória.") := by
  refine ⟨?_, ?_, ?_, ?_⟩
  · intro m hm
    rw [error_nome d r m hr hm]
    refine ⟨?_, ?_, ?_⟩
    · intro h; simp [h]
    · intro h
      have h0 : m ≠ 0 := by omega
      have h3 : m < 3 := by omega
      simp [h0, h3]
    · intro h
      have h0 : m ≠ 0 := by omega
      have h3 : ¬ m < 3 := by omega
      simp [h0, h3, h]
  · intro n hn
    rw [error_localizacao d r n hr hn]
    refine ⟨?_, ?_, ?_⟩
    · intro h; simp [h]
    · intro h
      have h0 : n ≠ 0 := by omega
      have h3 : n < 3 := by omega
      simp [h0, h3]
    · intro h
      have h0 : n ≠ 0 := by omega
      have h3 : ¬ n < 3 := by omega
      simp [h0, h3, h]
  · intro s hs hw
    rw [error_nome d r 0 hr (by rw [hs]; exact trimmedLength_of_whiteSpace s hw)]
    rfl
  · intro s hs hw
    rw [error_localizacao d r 0 hr (by rw [hs]; exact trimmedLength_of_whiteSpace s hw)]
    rfl

/-- Witness of C15: a `nome` of three spaces gets the required-field message, a
`localizacao` of two characters the minimum-length message. -/
theorem validateSensorData_messages_witness :
    ∃ r, validateSensorData { nome := .str "   ", localizacao := .str " ab " } = .ok r ∧
      r.error "nome" = some "O nome do sensor é obrigatório." ∧
      r.error "localizacao" = some "A localização deve ter pelo menos 3 caracteres." :=
  ⟨_, rfl,
    (validateSensorData_messages { nome := .str "   ", localizacao := .str " ab " } _ rfl).2.2.1
      "   " rfl (by decide),
    ((validateSensorData_messages { nome := .str "   ", localizacao := .str " ab " } _ rfl).2.1
      2 (by decide)).2.1 (by decide)⟩

/-- The `dataHora` entry of the result is the one the `dataHora` block adds. -/
theorem error_dataHora (d : LeituraData) :
    (validateLeituraData d).error "dataHora" =
      ((checkDataHora d.dataHora).find? (fun kv => kv.1 == "dataHora")).map Prod.snd := by
  simp only [validateLeituraData, ValidationResult.error, List.find?_append,
    find_none_of_keys "dataHora" "temperatura" (by decide) _ (checkTemperatura_keys _),
    find_none_of_keys "dataHora" "sensorId" (by decide) _ (checkSensorId_keys _)]
  simp

/-- The `sensorId` entry of the result is the one the `sensorId` block adds. -/
theorem error_sensorId (d : LeituraData) :
    (validateLeituraData d).error "sensorId" =
      ((checkSensorId d.sensorId).find? (fun kv => kv.1 == "sensorId")).map Prod.snd := by
  simp only [validateLeituraData, ValidationResult.error, List.find?_append,
    find_none_of_keys "sensorId" "dataHora" (by decide) _ (checkDataHora_keys _),
    find_none_of_keys "sensorId" "temperatura" (by decide) _ (checkTemperatura_keys _)]
  simp

/-- The `dataHora` block by cases: nothing for a valid instant, the
required-field message for a falsy value, the invalid-date message for any
other value. -/
theorem checkDataHora_eq (v : JSVal) :
    checkDataHora v =
      if isValidInstant v = true then []
      else if v.truthy = true then [("dataHora", "Data e hora inválidas.")]
      else [("dataHora", "A data e hora são obrigatórias.")] := by
  unfold checkDataHora
  cases v with
  | date t => cases t <;> simp [isValidInstant, JSVal.truthy]
  | undefined => simp [isValidInstant, JSVal.truthy]
  | null => simp [isValidInstant, JSVal.truthy]
  | bool b => cases b <;> simp [isValidInstant, JSVal.truthy]
  | num n => by_cases h : (JSVal.num n).truthy = true <;> simp [isValidInstant, h]
  | str s => by_cases h : (JSVal.str s).truthy = true <;> simp [isValidInstant, h]

/-- A value that is positive as a number is truthy and present. -/
theorem truthy_of_isPositive (v : JSVal) (h : isPositive v) : v.truthy = true ∧ isPresent v := by
  unfold isPositive at h
  have hempty : stringToNumber "" = .fin 0 := by decide
  cases v with
  | undefined => simp [JSVal.toNumber, JSNum.gt, JSNum.lt] at h
  | null => simp [JSVal.toNumber, JSNum.gt, JSNum.lt] at h
  | bool b =>
    cases b
    · simp [JSVal.toNumber, JSNum.gt, JSNum.lt] at h
    · simp [JSVal.truthy, isPresent]
  | num n =>
    cases n with
    | nan => simp [JSVal.toNumber, JSNum.gt, JSNum.lt] at h
    | posInf => simp [JSVal.truthy, isPresent]
    | negInf => simp [JSVal.toNumber, JSNum.gt, JSNum.lt] at h
    | fin q =>
      simp only [JSVal.toNumber, JSNum.gt, JSNum.lt, decide_eq_true_eq] at h
      have : q ≠ 0 := ne_of_gt h
      simp [JSVal.truthy, isPresent, this]
  | str s =>
    by_cases hs : s = ""
    · subst hs
      simp [JSVal.toNumber, hempty, JSNum.gt, JSNum.lt] at h
    · simp [JSVal.truthy, isPresent, hs]
  | date t => simp [JSVal.truthy, isPresent]

/-- The `sensorId` block adds nothing iff `sensorId` is present, numeric and
greater than 0. -/
theorem checkSensorId_nil_iff (v : JSVal) :
    checkSensorId v = [] ↔ isPresent v ∧ isNumeric v ∧ isPositive v := by
  have hle : ∀ x : JSNum, x ≠ .nan → (x.le (.fin 0) = false ↔ x.gt (.fin 0) = true) := by
    intro x hx
    cases x with
    | nan => exact absurd rfl hx
    | posInf => simp [JSNum.le, JSNum.gt, JSNum.lt]
    | negInf => simp [JSNum.le, JSNum.gt, JSNum.lt]
    | fin q => simp [JSNum.le, JSNum.gt, JSNum.lt]
  have hnan : v.isNaN = false ↔ isNumeric v := by
    unfold isNumeric JSVal.isNaN
    cases v.toNumber <;> simp [JSNum.isNaN]
  unfold checkSensorId
  constructor
  · intro h
    split_ifs at h with hc
    simp only [Bool.or_eq_true, Bool.not_eq_true', not_or, Bool.not_eq_false,
      Bool.not_eq_true] at hc
    have hn := hnan.mp hc.1.2
    have hp : isPositive v := (hle _ hn).mp hc.2
    exact ⟨(truthy_of_isPositive v hp).2, hn, hp⟩
  · rintro ⟨-, hn, hp⟩
    have ht := (truthy_of_isPositive v hp).1
    have hn' := hnan.mpr hn
    have hl := (hle _ hn).mpr hp
    simp [ht, hn', hl]

/-- The `temperatura` block adds nothing iff `temperatura` is present, numeric
and within [-50, 100]. -/
theorem checkTemperatura_nil_iff (v : JSVal) :
    checkTemperatura v = [] ↔ isPresent v ∧ isNumeric v ∧ withinRange (-50) 100 v := by
  have hnan : v.isNaN = false ↔ isNumeric v := by
    unfold isNumeric JSVal.isNaN
    cases v.toNumber <;> simp [JSNum.isNaN]
  by_cases hp : isPresent v
  · have hp' : ¬ (v = .undefined ∨ v = .null ∨ v = .str "") := by
      unfold isPresent at hp
      tauto
    by_cases hn : isNumeric v
    · have hn' := hnan.mpr hn
      by_cases hr : withinRange (-50) 100 v
      · have := (outOfRange_iff _ hn).not.mpr (not_not.mpr hr)
        simp [checkTemperatura, hp', hn', this, hp, hn, hr]
      · have := (outOfRange_iff _ hn).mpr hr
        simp [checkTemperatura, hp', hn', this, hp, hn, hr]
    · have hn' : v.isNaN = true := by
        cases h : v.isNaN
        · exact absurd (hnan.mp h) hn
        · rfl
      simp [checkTemperatura, hp', hn', hp, hn]
  · have hp' : (v = .undefined ∨ v = .null ∨ v = .str "") := by
      unfold isPresent at hp
      tauto
    simp [checkTemperatura, hp', hp]

/-- A list whose entries all carry one key has an entry under that key iff it
is not empty. -/
theorem find_isSome_iff (key : String) (es : List (String × String))
    (hk : ∀ kv ∈ es, kv.1 = key) :
    ((es.find? (fun kv => kv.1 == key)).map Prod.snd).isSome = true ↔ es ≠ [] := by
  cases es with
  | nil => simp
  | cons kv rest =>
    have := hk kv (List.mem_cons_self _ _)
    simp [List.find?, this]

/-- The keys of a list of at most one entry whose entries carry one key. -/
theorem map_fst_of_keys (key : String) (es : List (String × String))
    (hk : ∀ kv ∈ es, kv.1 = key) (hlen : es.length ≤ 1) :
    es.map Prod.fst = if es = [] then [] else [key] := by
  cases es with
  | nil => simp
  | cons kv rest =>
    cases rest with
    | nil => simp [hk kv (List.mem_cons_self _ _)]
    | cons kv' rest' => simp at hlen

/-- The `dataHora` block adds at most one entry. -/
theorem checkDataHora_length (v : JSVal) : (checkDataHora v).length ≤ 1 := by
  unfold checkDataHora
  split
  · simp
  · split <;> simp

/-- The `temperatura` block adds at most one entry. -/
theorem checkTemperatura_length (v : JSVal) : (checkTemperatura v).length ≤ 1 := by
  unfold checkTemperatura
  split_ifs <;> simp

/-- The `sensorId` block adds at most one entry. -/
theorem checkSensorId_length (v : JSVal) : (checkSensorId v).length ≤ 1 := by
  unfold checkSensorId
  split_ifs <;> simp

/-- The keys of the result of `validateLeituraData`, in order. -/
theorem keys_validateLeituraData (d : LeituraData) :
    (validateLeituraData d).errors.map Prod.fst =
      (if checkDataHora d.dataHora = [] then [] else ["dataHora"]) ++
      (if checkTemperatura d.temperatura = [] then [] else ["temperatura"]) ++
      (if checkSensorId d.sensorId = [] then [] else ["sensorId"]) := by
  simp only [validateLeituraData, List.map_append,
    map_fst_of_keys _ _ (checkDataHora_keys _) (checkDataHora_length _),
    map_fst_of_keys _ _ (checkTemperatura_keys _) (checkTemperatura_length _),
    map_fst_of_keys _ _ (checkSensorId_keys _) (checkSensorId_length _)]

/-- C13: `validateLeituraData` checks its three fields independently. The
result has a `dataHora` key iff `dataHora` is not a valid instant, a
`temperatura` key iff `temperatura` is not present, numeric and within
[-50, 100], a `sensorId` key iff `sensorId` is not present, numeric and greater
than 0; it has no other key and lists its keys in that order, all three at
once when all three fields are violated; and the entry of a field is the same
in two payloads that agree on that field. Numeric, the range and the sign are
those of the Number the value converts to: for a payload whose field is a
number they are about the number itself (a `temperatura` key iff it is outside
[-50, 100], a `sensorId` key iff it is not greater than 0), and the sample
texts show the conversion of a text ('1e-400' converts to 0 and is no valid
`sensorId`). -/
theorem validateLeituraData_fields_independent (d : LeituraData) :
    (((validateLeituraData d).error "dataHora").isSome = true ↔
      isValidInstant d.dataHora = false) ∧
    (((validateLeituraData d).error "temperatura").isSome = true ↔
      ¬ (isPresent d.temperatura ∧ isNumeric d.temperatura ∧
        withinRange (-50) 100 d.temperatura)) ∧
    (((validateLeituraData d).error "sensorId").isSome = true ↔
      ¬ (isPresent d.sensorId ∧ isNumeric d.sensorId ∧ isPositive d.sensorId)) ∧
    ((validateLeituraData d).errors.map Prod.fst).Sublist
      ["dataHora", "temperatura", "sensorId"] ∧
    (isValidInstant d.dataHora = false →
      ¬ (isPresent d.temperatura ∧ isNumeric d.temperatura ∧
        withinRange (-50) 100 d.temperatura) →
      ¬ (isPresent d.sensorId ∧ isNumeric d.sensorId ∧ isPositive d.sensorId) →
      (validateLeituraData d).errors.map Prod.fst = ["dataHora", "temperatura", "sensorId"]) ∧
    (∀ d' : LeituraData,
      (d'.dataHora = d.dataHora →
        (validateLeituraData d').error "dataHora" = (validateLeituraData d).error "dataHora") ∧
      (d'.temperatura = d.temperatura →
        (validateLeituraData d').error "temperatura" =
          (validateLeituraData d).error "temperatura") ∧
      (d'.sensorId = d.sensorId →
        (validateLeituraData d').error "sensorId" =
          (validateLeituraData d).error "sensorId")) ∧
    (∀ q : ℚ, d.temperatura = .num (.fin q) →
      (((validateLeituraData d).error "temperatura").isSome = true ↔
        ¬ (-50 ≤ q ∧ q ≤ 100))) ∧
    (∀ q : ℚ, d.sensorId = .num (.fin q) →
      (((validateLeituraData d).error "sensorId").isSome = true ↔ ¬ 0 < q)) ∧
    (d.sensorId = .num .nan ∨ d.sensorId = .num .negInf →
      ((validateLeituraData d).error "sensorId").isSome = true) ∧
    (d.sensorId = .num .posInf → (validateLeituraData d).error "sensorId" = none) ∧
    (∀ s ∈ ["1", " 7 ", "0.5", "0x1", "5e-324"],
      d.sensorId = .str s → (validateLeituraData d).error "sensorId" = none) ∧
    (∀ s ∈ ["", " ", "0", "-1", "abc", "1e-400"],
      d.sensorId = .str s → ((validateLeituraData d).error "sensorId").isSome = true) := by
  have hold :
      (((validateLeituraData d).error "dataHora").isSome = true ↔
        isValidInstant d.dataHora = false) ∧
      (((validateLeituraData d).error "temperatura").isSome = true ↔
        ¬ (isPresent d.temperatura ∧ isNumeric d.temperatura ∧
          withinRange (-50) 100 d.temperatura)) ∧
      (((validateLeituraData d).error "sensorId").isSome = true ↔
        ¬ (isPresent d.sensorId ∧ isNumeric d.sensorId ∧ isPositive d.sensorId)) ∧
      ((validateLeituraData d).errors.map Prod.fst).Sublist
        ["dataHora", "temperatura", "sensorId"] ∧
      (isValidInstant d.dataHora = false →
        ¬ (isPresent d.temperatura ∧ isNumeric d.temperatura ∧
          withinRange (-50) 100 d.temperatura) →
        ¬ (isPresent d.sensorId ∧ isNumeric d.sensorId ∧ isPositive d.sensorId) →
        (validateLeituraData d).errors.map Prod.fst = ["dataHora", "temperatura", "sensorId"]) ∧
      (∀ d' : LeituraData,
        (d'.dataHora = d.dataHora →
          (validateLeituraData d').error "dataHora" = (validateLeituraData d).error "dataHora") ∧
        (d'.temperatura = d.temperatura →
          (validateLeituraData d').error "temperatura" =
            (validateLeituraData d).error "temperatura") ∧
        (d'.sensorId = d.sensorId →
          (validateLeituraData d').error "sensorId" =
            (validateLeituraData d).error "sensorId")) := by
    have hD : checkDataHora d.dataHora = [] ↔ isValidInstant d.dataHora = true := by
      rw [checkDataHora_eq]
      split_ifs <;> simp_all
    have hT := checkTemperatura_nil_iff d.temperatura
    have hS := checkSensorId_nil_iff d.sensorId
    refine ⟨?_, ?_, ?_, ?_, ?_, ?_⟩
    · rw [error_dataHora, find_isSome_iff _ _ (checkDataHora_keys _), ne_eq, hD]
      simp
    · rw [error_temperatura, find_isSome_iff _ _ (checkTemperatura_keys _), ne_eq, hT]
    · rw [error_sensorId, find_isSome_iff _ _ (checkSensorId_keys _), ne_eq, hS]
    · rw [keys_validateLeituraData]
      split_ifs <;> decide
    · intro h1 h2 h3
      rw [keys_validateLeituraData]
      have h1' : ¬ checkDataHora d.dataHora = [] := by
        rw [hD, h1]
        simp
      simp [h1', hT, hS, h2, h3]
    · intro d'
      refine ⟨fun h => ?_, fun h => ?_, fun h => ?_⟩
      · rw [error_dataHora, error_dataHora, h]
      · rw [error_temperatura, error_temperatura, h]
      · rw [error_sensorId, error_sensorId, h]
  refine ⟨hold.1, hold.2.1, hold.2.2.1, hold.2.2.2.1, hold.2.2.2.2.1, hold.2.2.2.2.2,
    ?_, ?_, ?_, ?_, ?_, ?_⟩
  · intro q hq
    rw [hold.2.1]
    have hp : isPresent d.temperatura := by simp [isPresent, hq]
    have hn : isNumeric d.temperatura := by simp [isNumeric, hq, JSVal.toNumber]
    have hw : withinRange (-50) 100 d.temperatura ↔ -50 ≤ q ∧ q ≤ 100 := by
      simp [withinRange, hq, JSVal.toNumber]
    rw [← hw]
    exact ⟨fun h hc => h ⟨hp, hn, hc⟩, fun h hc => h hc.2.2⟩
  · intro q hq
    rw [hold.2.2.1]
    have hn : isNumeric d.sensorId := by simp [isNumeric, hq, JSVal.toNumber]
    have hw : isPositive d.sensorId ↔ 0 < q := by
      simp [isPositive, hq, JSVal.toNumber, JSNum.gt, JSNum.lt]
    constructor
    · intro h hc
      have hp : isPresent d.sensorId := by simp [isPresent, hq]
      exact h ⟨hp, hn, hw.mpr hc⟩
    · intro h hc
      exact h (hw.mp hc.2.2)
  · intro h
    rw [error_sensorId]
    rcases h with h | h <;> rw [h] <;> decide
  · intro h
    rw [error_sensorId, h]
    decide
  · intro s hs h
    rw [error_sensorId, h]
    simp only [List.mem_cons, List.mem_singleton, List.not_mem_nil, or_false] at hs
    rcases hs with rfl | rfl | rfl | rfl | rfl <;> decide!
  · intro s hs h
    rw [error_sensorId, h]
    simp only [List.mem_cons, List.mem_singleton, List.not_mem_nil, or_false] at hs
    rcases hs with rfl | rfl | rfl | rfl | rfl | rfl <;> decide!

/-- Witness of C13: a payload with no field at all gets the three keys, and
the text '1e-400', which converts to 0, is no valid `sensorId`. -/
theorem validateLeituraData_fields_independent_witness :
    (validateLeituraData {}).errors.map Prod.fst = ["dataHora", "temperatura", "sensorId"] ∧
    ((validateLeituraData { sensorId := .str "1e-400" }).error "sensorId").isSome = true :=
  ⟨(validateLeituraData_fields_independent {}).2.2.2.2.1 rfl
      (by simp [isPresent]) (by simp [isPresent]),
    (validateLeituraData_fields_independent
      { sensorId := .str "1e-400" }).2.2.2.2.2.2.2.2.2.2.2 "1e-400" (by simp) rfl⟩

/-- C16, as the claim states it, fails: the text `2024-01-01T00:00:00.000Z`
is present and parses to a valid instant (`Date.parse` reads it as
1704067200000 and `new Date` of it is a valid date), and so does the number
1704067200000, yet `validateLeituraData` gives each of them
'Data e hora inválidas.': it tests `instanceof Date` and parses nothing. -/
theorem validateLeituraData_rejects_iso_text :
    parseIsoString "2024-01-01T00:00:00.000Z" = some 1704067200000 ∧
    LeituraService.newDate sampleEngine (some (.str "2024-01-01T00:00:00.000Z")) =
      some 1704067200000 ∧
    (validateLeituraData { dataHora := .str "2024-01-01T00:00:00.000Z" }).error "dataHora" =
      some "Data e hora inválidas." ∧
    LeituraService.newDate sampleEngine (some (.num 1704067200000)) = some 1704067200000 ∧
    (validateLeituraData { dataHora := .num (.fin 1704067200000) }).error "dataHora" =
      some "Data e hora inválidas." := by
  decide!

/-- C16, amended: for every payload of `validateLeituraData`, an absent
`dataHora` (`undefined` or `null`) gets 'A data e hora são obrigatórias.', a
`Date` object whose time value is `NaN` gets 'Data e hora inválidas.', and a
`Date` object with a valid time value gets no `dataHora` entry. Every other
value is judged without being parsed: a truthy one that is not a `Date` object
(a text or a number, whatever instant it denotes) gets 'Data e hora inválidas.'
and a falsy one the message of the absent field. -/
theorem validateLeituraData_dataHora (d : LeituraData) :
    (d.dataHora = .undefined ∨ d.dataHora = .null →
      (validateLeituraData d).error "dataHora" = some "A data e hora são obrigatórias.") ∧
    (d.dataHora = .date none →
      (validateLeituraData d).error "dataHora" = some "Data e hora inválidas.") ∧
    (∀ t, d.dataHora = .date (some t) → (validateLeituraData d).error "dataHora" = none) ∧
    (isValidInstant d.dataHora = false → d.dataHora.truthy = true →
      (validateLeituraData d).error "dataHora" = some "Data e hora inválidas.") ∧
    (d.dataHora.truthy = false →
      (validateLeituraData d).error "dataHora" = some "A data e hora são obrigatórias.") := by
  rw [error_dataHora, checkDataHora_eq]
  refine ⟨?_, ?_, ?_, ?_, ?_⟩
  · rintro (h | h) <;> simp [h, isValidInstant, JSVal.truthy]
  · intro h
    simp [h, isValidInstant, JSVal.truthy]
  · intro t h
    simp [h, isValidInstant]
  · intro h1 h2
    simp [h1, h2]
  · intro h
    have h1 : isValidInstant d.dataHora = false := by
      cases hv : d.dataHora <;> simp_all [isValidInstant, JSVal.truthy]
    simp [h1, h]

/-- Witness of C16: no `dataHora`, an invalid `Date`, the epoch, and the text
of an ISO date, which is not a `Date` object. -/
theorem validateLeituraData_dataHora_witness :
    (validateLeituraData {}).error "dataHora" = some "A data e hora são obrigatórias." ∧
    (validateLeituraData { dataHora := .date none }).error "dataHora" =
      some "Data e hora inválidas." ∧
    (validateLeituraData { dataHora := .date (some 0) }).error "dataHora" = none ∧
    (validateLeituraData { dataHora := .str "2024-01-01T00:00:00.000Z" }).error "dataHora" =
      some "Data e hora inválidas." :=
  ⟨(validateLeituraData_dataHora {}).1 (Or.inl rfl),
    (validateLeituraData_dataHora { dataHora := .date none }).2.1 rfl,
    (validateLeituraData_dataHora { dataHora := .date (some 0) }).2.2.1 0 rfl,
    (validateLeituraData_dataHora { dataHora := .str "2024-01-01T00:00:00.000Z" }).2.2.2.1
      rfl (by decide)⟩

/-- One field of `validateSensorData` that is a string or absent adds its
entries without raising. -/
theorem checkText_total (key required tooShort tooLong : String) (min max : Nat) (v : JSVal)
    (h : isTextOrAbsent v) : ∃ es, checkText key required tooShort tooLong min max v = .ok es := by
  rcases h with ⟨s, rfl⟩ | rfl | rfl
  · simp only [checkText, trimLength]
    split_ifs <;> exact ⟨_, rfl⟩
  · exact ⟨_, rfl⟩
  · exact ⟨_, rfl⟩

/-- One field of `validateSensorData` that is truthy and not a string raises
the `TypeError` of the missing `trim` method. -/
theorem checkText_raises (key required tooShort tooLong : String) (min max : Nat) (v : JSVal)
    (h : isTruthyNonString v) :
    checkText key required tooShort tooLong min max v =
      .error (.typeError "trim is not a function") := by
  obtain ⟨ht, hs⟩ := h
  cases v with
  | str s => exact absurd rfl (hs s)
  | undefined => simp [JSVal.truthy] at ht
  | null => simp [JSVal.truthy] at ht
  | bool b => simp [checkText, ht, trimLength]
  | num n => simp [checkText, ht, trimLength]
  | date t => simp [checkText, ht, trimLength]

/-- Whatever one field of `validateSensorData` raises is the `TypeError` of
the missing `trim` method. -/
theorem checkText_error (key required tooShort tooLong : String) (min max : Nat) (v : JSVal)
    (e : JSError) (h : checkText key required tooShort tooLong min max v = .error e) :
    e = .typeError "trim is not a function" := by
  unfold checkText at h
  split_ifs at h
  cases v with
  | str s =>
    simp only [trimLength] at h
    split_ifs at h
  | undefined => simp only [trimLength] at h; cases h; rfl
  | null => simp only [trimLength] at h; cases h; rfl
  | bool b => simp only [trimLength] at h; cases h; rfl
  | num n => simp only [trimLength] at h; cases h; rfl
  | date t => simp only [trimLength] at h; cases h; rfl

/-- A payload with a truthy field that is not a string makes
`validateSensorData` raise. -/
theorem validateSensorData_raises (d : SensorData)
    (h : isTruthyNonString d.nome ∨ isTruthyNonString d.localizacao) :
    validateSensorData d = .error (.typeError "trim is not a function") := by
  unfold validateSensorData
  split
  · rename_i e he
    rw [checkText_error _ _ _ _ _ _ _ e he]
  · rename_i e1 he1
    rcases h with h | h
    · rw [checkText_raises _ _ _ _ _ _ _ h] at he1
      cases he1
    · rw [checkText_raises _ _ _ _ _ _ _ h]

/-- C30: `validateSensorData` returns a result, without raising, for every
payload whose `nome` and `localizacao` are each a string or absent
(`undefined` or `null`). For a payload whose `nome` or `localizacao` is a
truthy value that is not a string (such as the number 12345) it raises the
`TypeError` of the missing `trim` method instead of returning a result; then
`createSensor` and `updateSensor` issue no request and fail with that
`TypeError`, which is no `Error` with a message, so no 'Dados inválidos'
error. -/
theorem validateSensorData_total_on_text (E : Engine) (fetch : ApiService.Fetch) (id : JSVal)
    (d : SensorData) :
    (isTextOrAbsent d.nome → isTextOrAbsent d.localizacao →
      ∃ r, validateSensorData d = .ok r) ∧
    (isTruthyNonString d.nome ∨ isTruthyNonString d.localizacao →
      validateSensorData d = .error (.typeError "trim is not a function") ∧
      (SensorService.createSensor E fetch d).requests = [] ∧
      (SensorService.createSensor E fetch d).outcome =
        .error (.typeError "trim is not a function") ∧
      (SensorService.updateSensor E fetch id d).requests = [] ∧
      (SensorService.updateSensor E fetch id d).outcome =
        .error (.typeError "trim is not a function") ∧
      (∀ m, (SensorService.createSensor E fetch d).outcome ≠ .error (.error m)) ∧
      (∀ m, (SensorService.updateSensor E fetch id d).outcome ≠ .error (.error m))) := by
  constructor
  · intro hn hl
    obtain ⟨e1, h1⟩ := checkText_total "nome" "O nome do sensor é obrigatório."
      ("O nome deve ter pelo menos " ++ toString VALIDATION_CONFIG.SENSOR.NOME_MIN_LENGTH ++
        " caracteres.")
      ("O nome deve ter no máximo " ++ toString VALIDATION_CONFIG.SENSOR.NOME_MAX_LENGTH ++
        " caracteres.")
      VALIDATION_CONFIG.SENSOR.NOME_MIN_LENGTH VALIDATION_CONFIG.SENSOR.NOME_MAX_LENGTH
      d.nome hn
    obtain ⟨e2, h2⟩ := checkText_total "localizacao" "A localização é obrigatória."
      ("A localização deve ter pelo menos " ++
        toString VALIDATION_CONFIG.SENSOR.LOCALIZACAO_MIN_LENGTH ++ " caracteres.")
      ("A localização deve ter no máximo " ++
        toString VALIDATION_CONFIG.SENSOR.LOCALIZACAO_MAX_LENGTH ++ " caracteres.")
      VALIDATION_CONFIG.SENSOR.LOCALIZACAO_MIN_LENGTH
      VALIDATION_CONFIG.SENSOR.LOCALIZACAO_MAX_LENGTH d.localizacao hl
    exact ⟨{ isValid := (e1 ++ e2).length == 0, errors := e1 ++ e2 },
      by simp only [validateSensorData, h1, h2]⟩
  · intro h
    have hv := validateSensorData_raises d h
    simp [hv, SensorService.createSensor, SensorService.updateSensor, ApiService.Traced.fail]

/-- Witness of C30: a sensor with a text `nome` and a `null` `localizacao`
gets a result; a sensor whose `nome` is the number 12345 makes
`validateSensorData` raise, and `createSensor` fails with that error without
a request. -/
theorem validateSensorData_total_on_text_witness :
    (∃ r, validateSensorData { nome := .str "Sensor A", localizacao := .null } = .ok r) ∧
    validateSensorData { nome := .num (.fin 12345), localizacao := .str "Sala 1" } =
      .error (.typeError "trim is not a function") ∧
    (SensorService.createSensor sampleEngine offline
      { nome := .num (.fin 12345), localizacao := .str "Sala 1" }).requests = [] ∧
    (SensorService.createSensor sampleEngine offline
      { nome := .num (.fin 12345), localizacao := .str "Sala 1" }).outcome =
      .error (.typeError "trim is not a function") :=
  have h := (validateSensorData_total_on_text sampleEngine offline .null
    { nome := .num (.fin 12345), localizacao := .str "Sala 1" }).2
    (Or.inl ⟨by decide!, fun s => by simp⟩)
  ⟨(validateSensorData_total_on_text sampleEngine offline .null
      { nome := .str "Sensor A", localizacao := .null }).1
      (Or.inl ⟨"Sensor A", rfl⟩) (Or.inr (Or.inr rfl)),
    h.1, h.2.1, h.2.2.1⟩

end Validators

section Transport

open ApiService

/-- Joining string items of a parsed body is joining the strings. -/
theorem joinWith_strs (E : Engine) (ss : List String) :
    JSON.joinWith E ", " (ss.map JSON.str) = joinComma ss := by
  induction ss with
  | nil => simp [JSON.joinWith, joinComma]
  | cons s rest ih =>
    cases rest with
    | nil => simp [JSON.joinWith, JSON.toStr, joinComma]
    | cons t rest =>
      simp only [List.map_cons] at ih ⊢
      rw [JSON.joinWith, ih] <;> simp [JSON.toStr, joinComma, String.append_assoc]

/-- Flattening the values of an `errors` mapping lists its messages, field by
field. -/
theorem flat_values_errorsMapping (fields : List (String × List String)) :
    JSON.flat (errorsMapping fields).values = (fields.map Prod.snd).flatten.map JSON.str := by
  induction fields with
  | nil => simp [errorsMapping, JSON.values, JSON.flat]
  | cons f rest ih =>
    simp only [errorsMapping, JSON.values, List.map_cons, JSON.flat, List.flatten_cons,
      List.map_append] at ih ⊢
    rw [ih]

/-- A text field is truthy iff it is present and non-empty. -/
theorem truthy_text (o : Option String) :
    JSON.truthy (o.map JSON.str) = (nonEmptyText o).isSome := by
  cases o with
  | none => simp [JSON.truthy, nonEmptyText]
  | some s => by_cases h : s = "" <;> simp [JSON.truthy, nonEmptyText, h]

/-- A present, non-empty text field converts to itself. -/
theorem text_of_nonEmpty (E : Engine) (o : Option String) (s : String)
    (h : nonEmptyText o = some s) : (o.map JSON.str).map (JSON.toStr E) = some s := by
  cases o with
  | none => simp [nonEmptyText] at h
  | some t =>
    by_cases ht : t = ""
    · simp [nonEmptyText, ht] at h
    · simp [nonEmptyText, ht] at h
      simp [JSON.toStr, h]

/-- On an error envelope whose three fields have the types of the interface,
`handleResponse` raises the message the priority order chooses. -/
theorem handleResponse_of_fields (E : Engine) (r : Response) (hr : r.ok = false)
    (props : List (String × JSON)) (message title : Option String)
    (errors : Option (List (String × List String)))
    (hj : r.json = some (.obj props))
    (hm : (JSON.obj props).getField "message" = .ok (message.map JSON.str))
    (ht : (JSON.obj props).getField "title" = .ok (title.map JSON.str))
    (he : (JSON.obj props).getField "errors" = .ok (errors.map errorsMapping)) :
    handleResponse E r =
      .error (.error (chosenMessage r.status r.statusText message title errors)) := by
  simp only [handleResponse, hr, Bool.not_false, if_true, errorMessageFromBody, hj, hm, ht, he,
    truthy_text, chosenMessage]
  cases hM : nonEmptyText message with
  | some m => simp [text_of_nonEmpty E _ _ hM]
  | none =>
    cases hT : nonEmptyText title with
    | some t => simp [text_of_nonEmpty E _ _ hT]
    | none =>
      cases errors with
      | none => simp [JSON.truthy, fallbackMessage]
      | some fields =>
        have htr : JSON.truthy (some (errorsMapping fields)) = true := by
          simp [errorsMapping, JSON.truthy]
        simp only [Option.map_some', htr, if_true, flat_values_errorsMapping, joinWith_strs,
          Option.isSome_none, Bool.false_eq_true, if_false]

/-- Without a parsed body, or with one that has none of the three fields,
`handleResponse` raises the default message. -/
theorem handleResponse_fallback (E : Engine) (r : Response) (hr : r.ok = false) :
    (r.json = none →
      handleResponse E r = .error (.error (fallbackMessage r.status r.statusText))) ∧
    (∀ j, r.json = some j → lacksField "message" j = true → lacksField "title" j = true →
      lacksField "errors" j = true →
      handleResponse E r = .error (.error (fallbackMessage r.status r.statusText))) := by
  constructor
  · intro hj
    simp [handleResponse, hr, errorMessageFromBody, hj, fallbackMessage]
  · intro j hj h1 h2 h3
    cases j with
    | obj props =>
      have hf : ∀ key, lacksField key (.obj props) = true →
          (JSON.obj props).getField key = .ok none := by
        intro key hk
        simp only [lacksField, Bool.not_eq_true', List.any_eq_false] at hk
        simp only [JSON.getField]
        rw [List.find?_eq_none.mpr (fun kv hkv => by simpa using hk kv hkv)]
        rfl
      simp [handleResponse, hr, errorMessageFromBody, hj, hf _ h1, hf _ h2, hf _ h3,
        JSON.truthy, fallbackMessage]
    | null => simp [handleResponse, hr, errorMessageFromBody, hj, JSON.getField, fallbackMessage]
    | bool b =>
      simp [handleResponse, hr, errorMessageFromBody, hj, JSON.getField, JSON.truthy,
        fallbackMessage]
    | num q =>
      simp [handleResponse, hr, errorMessageFromBody, hj, JSON.getField, JSON.truthy,
        fallbackMessage]
    | str s =>
      simp [handleResponse, hr, errorMessageFromBody, hj, JSON.getField, JSON.truthy,
        fallbackMessage]
    | arr items =>
      simp [handleResponse, hr, errorMessageFromBody, hj, JSON.getField, JSON.truthy,
        fallbackMessage]

/-- C6: on a response that is not 2xx `handleResponse` raises exactly one
error. Its message is the default `Erro <status>: <statusText>` when the body
is absent or not JSON or is a JSON value with none of the fields `message`,
`title`, `errors`; on an error envelope (`message` and `title` texts, `errors`
a mapping from field names to lists of messages, each optional) it is the
message if present and non-empty, otherwise the title if present and
non-empty, otherwise the flattened `errors` joined with `', '`, otherwise the
default: an earlier field of this order wins over the later ones. -/
theorem handleResponse_message_priority (E : Engine) (r : Response) (hr : r.ok = false) :
    (∃! m, handleResponse E r = .error (.error m)) ∧
    (r.json = none →
      handleResponse E r = .error (.error (fallbackMessage r.status r.statusText))) ∧
    (∀ j, r.json = some j → lacksField "message" j = true → lacksField "title" j = true →
      lacksField "errors" j = true →
      handleResponse E r = .error (.error (fallbackMessage r.status r.statusText))) ∧
    (∀ props message title errors, r.json = some (.obj props) →
      (JSON.obj props).getField "message" = .ok (message.map JSON.str) →
      (JSON.obj props).getField "title" = .ok (title.map JSON.str) →
      (JSON.obj props).getField "errors" = .ok (errors.map errorsMapping) →
      handleResponse E r =
        .error (.error (chosenMessage r.status r.statusText message title errors))) := by
  refine ⟨?_, (handleResponse_fallback E r hr).1, (handleResponse_fallback E r hr).2,
    fun props message title errors hj hm ht he =>
      handleResponse_of_fields E r hr props message title errors hj hm ht he⟩
  have hex : ∃ m, handleResponse E r = .error (.error m) := by
    simp only [handleResponse, hr, Bool.not_false, if_true]
    split
    · exact ⟨_, rfl⟩
    · exact ⟨_, rfl⟩
  obtain ⟨m, hm⟩ := hex
  refine ⟨m, hm, fun m' hm' => ?_⟩
  rw [hm] at hm'
  cases hm'
  rfl

/-- Witness of C6: HTTP 400 with a body holding all three fields raises the
`message`; with an empty `message` it raises the `title`. -/
theorem handleResponse_message_priority_witness :
    handleResponse sampleEngine
      { status := 400, statusText := "Bad Request", contentType := none, text := "",
        json := some (.obj [("title", .str "Falha"), ("message", .str "Sensor inexistente"),
          ("errors", errorsMapping [("sensorId", ["inválido"])])]) } =
      .error (.error "Sensor inexistente") ∧
    handleResponse sampleEngine
      { status := 400, statusText := "Bad Request", contentType := none, text := "",
        json := some (.obj [("title", .str "Falha"), ("message", .str ""),
          ("errors", errorsMapping [("sensorId", ["inválido"])])]) } =
      .error (.error "Falha") :=
  ⟨(handleResponse_message_priority sampleEngine _ (by decide)).2.2.2 _
      (some "Sensor inexistente") (some "Falha") (some [("sensorId", ["inválido"])])
      rfl rfl rfl rfl,
    (handleResponse_message_priority sampleEngine _ (by decide)).2.2.2 _
      (some "") (some "Falha") (some [("sensorId", ["inválido"])]) rfl rfl rfl rfl⟩

/-- C7: on a response that is not 2xx whose body has no `message` and no
`title` but an `errors` mapping from field names to lists of messages,
`handleResponse` raises the messages of all the lists, in the order of the
fields and of each list, joined with `', '`; for one field with one message
that is the message itself, and a `get` that receives HTTP 422 with
`{"errors":{"temperatura":["must be <= 100"]}}` issues one request and fails
with 'must be <= 100'. -/
theorem handleResponse_errors_mapping (E : Engine) (r : Response) (hr : r.ok = false)
    (props : List (String × JSON)) (fields : List (String × List String))
    (hj : r.json = some (.obj props))
    (hm : (JSON.obj props).getField "message" = .ok none)
    (ht : (JSON.obj props).getField "title" = .ok none)
    (he : (JSON.obj props).getField "errors" = .ok (some (errorsMapping fields))) :
    handleResponse E r = .error (.error (joinComma (fields.map Prod.snd).flatten)) ∧
    (∀ field message, fields = [(field, [message])] →
      handleResponse E r = .error (.error message)) ∧
    (∀ (fetch : Fetch) endpoint params, (∀ request, fetch request = .ok response422) →
      (get E fetch endpoint params).requests.length = 1 ∧
      (get E fetch endpoint params).outcome = .error (.error "must be <= 100")) := by
  have h := handleResponse_of_fields E r hr props none none (some fields) hj hm ht he
  simp only [chosenMessage, nonEmptyText] at h
  refine ⟨h, ?_, ?_⟩
  · intro field message hf
    rw [h, hf]
    rfl
  · intro fetch endpoint params hfetch
    have h422 := handleResponse_of_fields E response422 (by decide)
      [("errors", .obj [("temperatura", .arr [.str "must be <= 100"])])] none none
      (some [("temperatura", ["must be <= 100"])]) rfl rfl rfl rfl
    simp only [ApiService.get, roundTrip, hfetch, h422, List.length_singleton, true_and]
    rfl

/-- Witness of C7: HTTP 400 with two fields in `errors`, one with two
messages. -/
theorem handleResponse_errors_mapping_witness :
    handleResponse sampleEngine
      { status := 400, statusText := "Bad Request", contentType := none, text := "",
        json := some (.obj [("errors",
          errorsMapping [("nome", ["curto", "reservado"]), ("localizacao", ["vazia"])])]) } =
      .error (.error "curto, reservado, vazia") :=
  (handleResponse_errors_mapping sampleEngine
    { status := 400, statusText := "Bad Request", contentType := none, text := "",
      json := some (.obj [("errors",
        errorsMapping [("nome", ["curto", "reservado"]), ("localizacao", ["vazia"])])]) }
    (by decide)
    [("errors", errorsMapping [("nome", ["curto", "reservado"]), ("localizacao", ["vazia"])])]
    [("nome", ["curto", "reservado"]), ("localizacao", ["vazia"])] rfl rfl rfl rfl).1

/-- The search parameters `get` appends are the ones the specification
describes. -/
theorem query_eq_sentParams (E : Engine) (params : List (String × JSVal)) :
    (params.filter (fun kv => kv.2 ≠ .undefined ∧ kv.2 ≠ .null)).map
      (fun kv => (kv.1, kv.2.toStr E)) = sentParams E params := by
  induction params with
  | nil => rfl
  | cons kv rest ih =>
    obtain ⟨key, value⟩ := kv
    by_cases h : value = .undefined ∨ value = .null
    · have h' : ¬ (value ≠ .undefined ∧ value ≠ .null) := by tauto
      rw [List.filter_cons_of_neg (by simpa using h')]
      simp only [sentParams, h, if_true]
      exact ih
    · have h' : value ≠ .undefined ∧ value ≠ .null := by tauto
      rw [List.filter_cons_of_pos (by simpa using h')]
      simp only [sentParams, h, if_false, List.map_cons]
      rw [ih]

/-- Membership in the parameters sent. -/
theorem mem_sentParams (E : Engine) (params : List (String × JSVal)) (k s : String) :
    (k, s) ∈ sentParams E params ↔
      ∃ v, (k, v) ∈ params ∧ v ≠ .undefined ∧ v ≠ .null ∧ s = v.toStr E := by
  rw [← query_eq_sentParams]
  simp only [List.mem_map, List.mem_filter, decide_eq_true_eq, Prod.mk.injEq, Prod.exists]
  constructor
  · rintro ⟨a, b, ⟨hm, h1, h2⟩, ha, hb⟩
    subst ha
    exact ⟨b, hm, h1, h2, hb.symm⟩
  · rintro ⟨v, hm, h1, h2, hs⟩
    exact ⟨k, v, ⟨hm, h1, h2⟩, rfl, hs.symm⟩

/-- The keys sent are keys of the parameters, in the same order. -/
theorem sentParams_keys_sublist (E : Engine) (params : List (String × JSVal)) :
    ((sentParams E params).map Prod.fst).Sublist (params.map Prod.fst) := by
  induction params with
  | nil => simp [sentParams]
  | cons kv rest ih =>
    obtain ⟨key, value⟩ := kv
    by_cases h : value = .undefined ∨ value = .null
    · simp only [sentParams, h, if_true, List.map_cons]
      exact List.Sublist.cons _ ih
    · simp only [sentParams, h, if_false, List.map_cons]
      exact List.Sublist.cons₂ _ ih

/-- C19: `get` issues one GET request whose query string holds exactly the
parameters whose value is neither `undefined` nor `null`, each under its key
with its value as text, in the order of the parameters and once when the keys
of the parameters are distinct; a key whose value is `undefined` or `null` is
not sent at all, while the values '', 0 and false are sent. -/
theorem get_query_params (E : Engine) (fetch : Fetch) (endpoint : String)
    (params : List (String × JSVal)) :
    (ApiService.get E fetch endpoint params).requests =
      [{ method := "GET", url := baseURL ++ endpoint, query := sentParams E params,
         headers := getHeaders, body := none }] ∧
    (∀ k s, (k, s) ∈ sentParams E params ↔
      ∃ v, (k, v) ∈ params ∧ v ≠ .undefined ∧ v ≠ .null ∧ s = v.toStr E) ∧
    ((sentParams E params).map Prod.fst).Sublist (params.map Prod.fst) ∧
    ((params.map Prod.fst).Nodup → ((sentParams E params).map Prod.fst).Nodup) ∧
    (∀ k, (∀ v, (k, v) ∈ params → v = .undefined ∨ v = .null) →
      ∀ s, (k, s) ∉ sentParams E params) ∧
    (∀ k, (k, JSVal.str "") ∈ params → (k, "") ∈ sentParams E params) ∧
    (∀ k, (k, JSVal.num (.fin 0)) ∈ params →
      (k, E.numberToString 0) ∈ sentParams E params) ∧
    (∀ k, (k, JSVal.bool false) ∈ params → (k, "false") ∈ sentParams E params) := by
  refine ⟨?_, mem_sentParams E params, sentParams_keys_sublist E params, ?_, ?_, ?_, ?_, ?_⟩
  · simp only [ApiService.get, roundTrip, query_eq_sentParams]
  · intro h
    exact (sentParams_keys_sublist E params).nodup h
  · intro k hk s hs
    obtain ⟨v, hm, h1, h2, -⟩ := (mem_sentParams E params k s).mp hs
    rcases hk v hm with h | h
    · exact h1 h
    · exact h2 h
  · intro k hk
    exact (mem_sentParams E params k "").mpr ⟨_, hk, by simp, by simp, rfl⟩
  · intro k hk
    exact (mem_sentParams E params k _).mpr ⟨_, hk, by simp, by simp, rfl⟩
  · intro k hk
    exact (mem_sentParams E params k "false").mpr ⟨_, hk, by simp, by simp, rfl⟩

/-- Witness of C19: of the parameters a = '', b = 0, c = false, d = undefined,
e = null and f = 'x', the query string holds a, b, c and f. -/
theorem get_query_params_witness :
    sentParams sampleEngine
      [("a", .str ""), ("b", .num (.fin 0)), ("c", .bool false), ("d", .undefined),
        ("e", .null), ("f", .str "x")] =
      [("a", ""), ("b", "0"), ("c", "false"), ("f", "x")] ∧
    (∀ s, ("d", s) ∉ sentParams sampleEngine
      [("a", .str ""), ("b", .num (.fin 0)), ("c", .bool false), ("d", .undefined),
        ("e", .null), ("f", .str "x")]) :=
  ⟨by decide!,
    (get_query_params sampleEngine offline "Leitura"
      [("a", .str ""), ("b", .num (.fin 0)), ("c", .bool false), ("d", .undefined),
        ("e", .null), ("f", .str "x")]).2.2.2.2.1 "d" (by simp)⟩

/-- The default message is never the empty text. -/
theorem fallbackMessage_ne_empty (status : Nat) (statusText : String) :
    fallbackMessage status statusText ≠ "" := by
  intro h
  have hl := congrArg String.length h
  simp only [fallbackMessage, String.length_append] at hl
  have h5 : "Erro ".length = 5 := by decide
  have h0 : "".length = 0 := by decide
  omega

/-- C29: on a response that is not 2xx whose body is an object with no
non-empty `message`, no non-empty `title` and an `errors` mapping that holds no
message (no field at all, or every list empty), `handleResponse` raises an error
whose message is the empty text, which is not the default
`Erro <status>: <statusText>`. The default is raised when the body does not
parse, when it has none of the three fields, and when `message` and `title`
are absent or empty and `errors` is absent. -/
theorem handleResponse_errors_without_messages (E : Engine) (r : Response)
    (hr : r.ok = false) :
    (∀ props message title fields, r.json = some (.obj props) →
      (JSON.obj props).getField "message" = .ok (message.map JSON.str) →
      nonEmptyText message = none →
      (JSON.obj props).getField "title" = .ok (title.map JSON.str) →
      nonEmptyText title = none →
      (JSON.obj props).getField "errors" = .ok (some (errorsMapping fields)) →
      (∀ f ∈ fields, f.2 = []) →
      handleResponse E r = .error (.error "") ∧
      handleResponse E r ≠ .error (.error (fallbackMessage r.status r.statusText))) ∧
    (r.json = none →
      handleResponse E r = .error (.error (fallbackMessage r.status r.statusText))) ∧
    (∀ j, r.json = some j → lacksField "message" j = true → lacksField "title" j = true →
      lacksField "errors" j = true →
      handleResponse E r = .error (.error (fallbackMessage r.status r.statusText))) ∧
    (∀ props message title, r.json = some (.obj props) →
      (JSON.obj props).getField "message" = .ok (message.map JSON.str) →
      nonEmptyText message = none →
      (JSON.obj props).getField "title" = .ok (title.map JSON.str) →
      nonEmptyText title = none →
      (JSON.obj props).getField "errors" = .ok none →
      handleResponse E r = .error (.error (fallbackMessage r.status r.statusText))) := by
  refine ⟨?_, (handleResponse_fallback E r hr).1, (handleResponse_fallback E r hr).2, ?_⟩
  · intro props message title fields hj hm hmE ht htE he hempty
    have h := handleResponse_of_fields E r hr props message title (some fields) hj hm ht he
    have hnil : (fields.map Prod.snd).flatten = [] := by
      rw [List.flatten_eq_nil_iff]
      intro l hl
      obtain ⟨f, hf, rfl⟩ := List.mem_map.mp hl
      exact hempty f hf
    simp only [chosenMessage, hmE, htE, hnil, joinComma] at h
    refine ⟨h, ?_⟩
    rw [h]
    intro hc
    injection hc with hc
    injection hc with hc
    exact fallbackMessage_ne_empty _ _ hc.symm
  · intro props message title hj hm hmE ht htE he
    have h := handleResponse_of_fields E r hr props message title none hj hm ht he
    simpa only [chosenMessage, hmE, htE] using h

/-- Witness of C29: HTTP 400 with the body `{"errors":{}}`, and with the body
`{"message":"","errors":{"nome":[],"localizacao":[]}}`. -/
theorem handleResponse_errors_without_messages_witness :
    handleResponse sampleEngine
      { status := 400, statusText := "Bad Request", contentType := none, text := "",
        json := some (.obj [("errors", errorsMapping [])]) } = .error (.error "") ∧
    handleResponse sampleEngine
      { status := 400, statusText := "Bad Request", contentType := none, text := "",
        json := some (.obj [("message", .str ""),
          ("errors", errorsMapping [("nome", []), ("localizacao", [])])]) } =
      .error (.error "") :=
  ⟨((handleResponse_errors_without_messages sampleEngine
      { status := 400, statusText := "Bad Request", contentType := none, text := "",
        json := some (.obj [("errors", errorsMapping [])]) } (by decide)).1
      [("errors", errorsMapping [])] none none [] rfl rfl rfl rfl rfl rfl (by simp)).1,
    ((handleResponse_errors_without_messages sampleEngine
      { status := 400, statusText := "Bad Request", contentType := none, text := "",
        json := some (.obj [("message", .str ""),
          ("errors", errorsMapping [("nome", []), ("localizacao", [])])]) } (by decide)).1
      [("message", .str ""), ("errors", errorsMapping [("nome", []), ("localizacao", [])])]
      (some "") none [("nome", []), ("localizacao", [])] rfl rfl rfl rfl rfl rfl (by simp)).1⟩

end Transport

section Timestamps

/-- Within an era of 400 years, the day of the year computed for a day of the
era lies in 0..365. -/
theorem dayOfYear_bounds (doe : Int) (h0 : 0 ≤ doe) (h1 : doe ≤ 146096) :
    0 ≤ doe - (365 * ((doe - doe / 1460 + doe / 36524 - doe / 146096) / 365) +
        (doe - doe / 1460 + doe / 36524 - doe / 146096) / 365 / 4 -
        (doe - doe / 1460 + doe / 36524 - doe / 146096) / 365 / 100) ∧
    doe - (365 * ((doe - doe / 1460 + doe / 36524 - doe / 146096) / 365) +
        (doe - doe / 1460 + doe / 36524 - doe / 146096) / 365 / 4 -
        (doe - doe / 1460 + doe / 36524 - doe / 146096) / 365 / 100) ≤ 365 := by
  generalize hc : doe / 1460 = c
  generalize hd : doe / 36524 = d
  generalize he : doe / 146096 = e
  generalize hy : (doe - c + d - e) / 365 = yoe
  generalize hf : yoe / 4 = f
  generalize hg : yoe / 100 = g
  have hd' : d = 0 ∨ d = 1 ∨ d = 2 ∨ d = 3 ∨ d = 4 := by omega
  have he' : e = 0 ∨ e = 1 := by omega
  have hg' : g = 0 ∨ g = 1 ∨ g = 2 ∨ g = 3 := by omega
  rcases hd' with rfl | rfl | rfl | rfl | rfl <;> rcases he' with rfl | rfl <;>
    rcases hg' with rfl | rfl | rfl | rfl <;> omega

/-- The civil date of a day count and the facts that determine it: the month
and the day are in range and the day count of that date is the one given. -/
theorem civilFromDays_spec (z : Int) :
    1 ≤ (civilFromDays z).2.1 ∧ (civilFromDays z).2.1 ≤ 12 ∧
    1 ≤ (civilFromDays z).2.2 ∧ (civilFromDays z).2.2 ≤ 31 ∧
    daysFromCivil (civilFromDays z).1 (civilFromDays z).2.1 (civilFromDays z).2.2 = z := by
  simp only [civilFromDays, daysFromCivil]
  generalize hera : (z + 719468) / 146097 = era
  have hdoe : 0 ≤ z + 719468 - era * 146097 ∧ z + 719468 - era * 146097 ≤ 146096 := by omega
  generalize hdoeq : z + 719468 - era * 146097 = doe at *
  have hdoy' := dayOfYear_bounds doe hdoe.1 hdoe.2
  generalize hyoe : (doe - doe / 1460 + doe / 36524 - doe / 146096) / 365 = yoe at *
  have hy : 0 ≤ yoe ∧ yoe ≤ 399 := by omega
  generalize hdoy : doe - (365 * yoe + yoe / 4 - yoe / 100) = doy at *
  generalize hmp : (5 * doy + 2) / 153 = mp
  have hmp' : 0 ≤ mp ∧ mp ≤ 11 := by omega
  have hera1 : (yoe + era * 400) / 400 = era := by omega
  split_ifs <;> simp only [add_sub_cancel_right, sub_add_cancel, hera1] <;> omega


/-- The character of a decimal digit has that digit as its value. -/
theorem digitValue_digitChar (k : Nat) (h : k < 10) :
    digitValue 10 (Nat.digitChar k) = some k := by
  interval_cases k <;> rfl

/-- The value of a digit sequence followed by one more digit. -/
theorem digitsValue_append_singleton (xs : List Char) (c : Char) :
    digitsValue 10 (xs ++ [c]) = 10 * digitsValue 10 xs + (digitValue 10 c).getD 0 := by
  simp [digitsValue, List.foldl_append]

/-- Leading zeros do not change the value of a digit sequence. -/
theorem digitsValue_zeros (k : Nat) (xs : List Char) :
    digitsValue 10 (List.replicate k '0' ++ xs) = digitsValue 10 xs := by
  induction k with
  | zero => simp
  | succ k ih =>
    have hz : (digitValue 10 '0').getD 0 = 0 := by decide
    simp only [digitsValue, List.replicate_succ, List.cons_append, List.foldl_cons, hz] at ih ⊢
    exact ih

/-- The digits `Nat.toDigitsCore` puts before its accumulator: decimal digits
whose value is the number, at most as many as the number has digits. -/
theorem toDigitsCore_spec (fuel : Nat) :
    ∀ (n : Nat) (ds : List Char), n < fuel →
      ∃ xs, Nat.toDigitsCore 10 fuel n ds = xs ++ ds ∧
        (∀ c ∈ xs, (digitValue 10 c).isSome = true) ∧ digitsValue 10 xs = n ∧
        ∀ e, 0 < e → n < 10 ^ e → xs.length ≤ e := by
  induction fuel with
  | zero => intro n ds h; omega
  | succ fuel ih =>
    intro n ds h
    have hd : digitValue 10 (Nat.digitChar (n % 10)) = some (n % 10) :=
      digitValue_digitChar _ (Nat.mod_lt _ (by decide))
    by_cases h0 : n / 10 = 0
    · refine ⟨[Nat.digitChar (n % 10)], by simp [Nat.toDigitsCore, h0], ?_, ?_, ?_⟩
      · intro c hc
        simp only [List.mem_singleton] at hc
        rw [hc, hd]
        rfl
      · simp only [digitsValue, List.foldl_cons, List.foldl_nil, hd, Option.getD_some]
        omega
      · intro e he _
        simpa using he
    · obtain ⟨xs, hxs, hdig, hval, hlen⟩ := ih (n / 10) (Nat.digitChar (n % 10) :: ds) (by omega)
      refine ⟨xs ++ [Nat.digitChar (n % 10)], by simp [Nat.toDigitsCore, h0, hxs], ?_, ?_, ?_⟩
      · intro c hc
        rcases List.mem_append.mp hc with hc | hc
        · exact hdig c hc
        · simp only [List.mem_singleton] at hc
          rw [hc, hd]
          rfl
      · rw [digitsValue_append_singleton, hval, hd, Option.getD_some]
        omega
      · intro e he hn
        cases e with
        | zero => omega
        | succ e =>
          have he0 : 0 < e := by
            rcases Nat.eq_zero_or_pos e with h1 | h1
            · subst h1
              simp at hn
              omega
            · exact h1
          have hn2 : n / 10 < 10 ^ e := by
            rw [pow_succ] at hn
            omega
          have := hlen e he0 hn2
          simp only [List.length_append, List.length_singleton]
          omega

/-- A number below 10^w, padded to the width w: exactly w decimal digits
whose value is the number. -/
theorem padded_spec (w n : Nat) (hw : 0 < w) (h : n < 10 ^ w) :
    (padded w n).toList.length = w ∧
    decimalNumber (padded w n).toList = some (n : Int) := by
  obtain ⟨xs, hxs, hdig, hval, hlen⟩ := toDigitsCore_spec (n + 1) n [] (by omega)
  rw [List.append_nil] at hxs
  have hrepr : Nat.repr n = String.mk xs := by
    simp only [Nat.repr, Nat.toDigits, hxs, List.asString]
  have hstr : toString n = String.mk xs := hrepr
  have hl : (padded w n).toList = List.replicate (w - xs.length) '0' ++ xs := by
    simp only [padded, hstr, String.toList, String.data_append, String.length, hrepr]
  have hle := hlen w hw h
  refine ⟨by rw [hl]; simp only [List.length_append, List.length_replicate]; omega, ?_⟩
  have hall : ((List.replicate (w - xs.length) '0' ++ xs).all
      (fun c => (digitValue 10 c).isSome)) = true := by
    rw [List.all_eq_true]
    intro c hc
    rcases List.mem_append.mp hc with hc | hc
    · rw [(List.mem_replicate.mp hc).2]
      rfl
    · exact hdig c hc
  rw [hl, decimalNumber, if_pos hall, digitsValue_zeros, hval]

/-- The year of a day count within the range of time values has at most six
digits. -/
theorem civilFromDays_year_bounds (z : Int) (h1 : -100000000 ≤ z) (h2 : z ≤ 100000000) :
    -300000 ≤ (civilFromDays z).1 ∧ (civilFromDays z).1 ≤ 300000 := by
  simp only [civilFromDays]
  generalize hera : (z + 719468) / 146097 = era at *
  have hdoe : 0 ≤ z + 719468 - era * 146097 ∧ z + 719468 - era * 146097 ≤ 146096 := by omega
  generalize hdoeq : z + 719468 - era * 146097 = doe at *
  generalize hyoe : (doe - doe / 1460 + doe / 36524 - doe / 146096) / 365 = yoe at *
  have hy : 0 ≤ yoe ∧ yoe ≤ 399 := by omega
  have he : -680 ≤ era ∧ era ≤ 689 := by omega
  split_ifs <;> omega

/-- A text that reads as a decimal number starts with a digit, so with no
sign. -/
theorem decimalNumber_head (a : Char) (rest : List Char) (n : Int)
    (h : decimalNumber (a :: rest) = some n) : a ≠ '+' ∧ a ≠ '-' := by
  unfold decimalNumber at h
  split_ifs at h with hall
  simp only [List.all_cons, Bool.and_eq_true] at hall
  constructor
  · rintro rfl
    exact absurd hall.1 (by decide)
  · rintro rfl
    exact absurd hall.1 (by decide)

/-- A number below 100 padded to two digits. -/
theorem padded_two (n : Nat) (h : n < 100) :
    ∃ a b, (padded 2 n).toList = [a, b] ∧ decimalNumber [a, b] = some (n : Int) := by
  obtain ⟨hl, hv⟩ := padded_spec 2 n (by decide) (by simpa using h)
  obtain ⟨a, b, hab⟩ := List.length_eq_two.mp hl
  exact ⟨a, b, hab, by rw [← hab]; exact hv⟩

/-- A number below 1000 padded to three digits. -/
theorem padded_three (n : Nat) (h : n < 1000) :
    ∃ a b c, (padded 3 n).toList = [a, b, c] ∧ decimalNumber [a, b, c] = some (n : Int) := by
  obtain ⟨hl, hv⟩ := padded_spec 3 n (by decide) (by simpa using h)
  obtain ⟨a, b, c, habc⟩ := List.length_eq_three.mp hl
  exact ⟨a, b, c, habc, by rw [← habc]; exact hv⟩

/-- A number below 10000 padded to four digits. -/
theorem padded_four (n : Nat) (h : n < 10000) :
    ∃ a b c d, (padded 4 n).toList = [a, b, c, d] ∧
      decimalNumber [a, b, c, d] = some (n : Int) := by
  obtain ⟨hl, hv⟩ := padded_spec 4 n (by decide) (by simpa using h)
  rcases hlist : (padded 4 n).toList with _ | ⟨a, _ | ⟨b, _ | ⟨c, _ | ⟨d, _ | ⟨e, l⟩⟩⟩⟩⟩
  all_goals rw [hlist] at hl hv
  all_goals try (simp at hl; done)
  exact ⟨a, b, c, d, rfl, hv⟩

/-- A number below 1000000 padded to six digits. -/
theorem padded_six (n : Nat) (h : n < 1000000) :
    ∃ a b c d e f, (padded 6 n).toList = [a, b, c, d, e, f] ∧
      decimalNumber [a, b, c, d, e, f] = some (n : Int) := by
  obtain ⟨hl, hv⟩ := padded_spec 6 n (by decide) (by simpa using h)
  rcases hlist : (padded 6 n).toList with
    _ | ⟨a, _ | ⟨b, _ | ⟨c, _ | ⟨d, _ | ⟨e, _ | ⟨f, _ | ⟨g, l⟩⟩⟩⟩⟩⟩⟩
  all_goals rw [hlist] at hl hv
  all_goals try (simp at hl; done)
  exact ⟨a, b, c, d, e, f, rfl, hv⟩

/-- Reading a text that starts with a year of four digits. -/
theorem parseIsoString_four (s : String) (a b c d : Char) (rest : List Char)
    (hs : s.toList = a :: b :: c :: d :: rest) (hp : a ≠ '+') (hm : a ≠ '-') :
    parseIsoString s = (decimalNumber [a, b, c, d]).bind (fun y => timeFromFields y rest) := by
  unfold parseIsoString
  rw [hs]
  split
  · rename_i heq
    simp only [List.cons.injEq] at heq
    exact absurd heq.1 hp
  · rename_i heq
    simp only [List.cons.injEq] at heq
    exact absurd heq.1 hm
  · rename_i heq
    simp only [List.cons.injEq] at heq
    obtain ⟨rfl, rfl, rfl, rfl, rfl⟩ := heq
    rfl
  · rename_i h1 h2 h3
    exact absurd rfl (h3 a b c d rest)

/-- Reading a text that starts with `+` and a year of six digits. -/
theorem parseIsoString_plus (s : String) (a b c d e f : Char) (rest : List Char)
    (hs : s.toList = '+' :: a :: b :: c :: d :: e :: f :: rest) :
    parseIsoString s =
      (decimalNumber [a, b, c, d, e, f]).bind (fun y => timeFromFields y rest) := by
  unfold parseIsoString
  rw [hs]
  rfl

/-- Reading a text that starts with `-` and a year of six digits. -/
theorem parseIsoString_minus (s : String) (a b c d e f : Char) (rest : List Char)
    (hs : s.toList = '-' :: a :: b :: c :: d :: e :: f :: rest) :
    parseIsoString s =
      (decimalNumber [a, b, c, d, e, f]).bind
        (fun y => if y = 0 then none else timeFromFields (-y) rest) := by
  unfold parseIsoString
  rw [hs]
  rfl

/-- `TimeClip` leaves an integer within the range of time values as it is. -/
theorem timeClip_intCast (t : Int) (h : isTimeValue t) :
    LeituraService.timeClip (t : ℚ) = some t := by
  obtain ⟨h1, h2⟩ := h
  have h1' : ¬ ((t : ℚ) < -8640000000000000) := by
    rw [not_lt]
    exact_mod_cast h1
  have h2' : ¬ ((8640000000000000 : ℚ) < t) := by
    rw [not_lt]
    exact_mod_cast h2
  simp only [LeituraService.timeClip, h1', h2', or_self, if_false, Int.floor_intCast,
    Int.ceil_intCast]
  split_ifs <;> rfl

/-- The text after the year of `toISOString` reads back as the day count and
the time of day it was written from. -/
theorem timeFromFields_fields (y m d ms : Int) (hm : 1 ≤ m ∧ m ≤ 12) (hd : 1 ≤ d ∧ d ≤ 31)
    (hms : 0 ≤ ms ∧ ms < 86400000)
    (hcivil : civilFromDays (daysFromCivil y m d) = (y, m, d))
    (hrange : isTimeValue (daysFromCivil y m d * 86400000 + ms)) :
    timeFromFields y
      (("-" ++ padded 2 m.toNat ++ "-" ++ padded 2 d.toNat ++ "T" ++
        padded 2 (ms / 3600000).toNat ++ ":" ++ padded 2 (ms / 60000 % 60).toNat ++ ":" ++
        padded 2 (ms / 1000 % 60).toNat ++ "." ++ padded 3 (ms % 1000).toNat ++ "Z").toList) =
      some (daysFromCivil y m d * 86400000 + ms) := by
  obtain ⟨m1, m2, hM, hMv⟩ := padded_two m.toNat (by omega)
  obtain ⟨d1, d2, hD, hDv⟩ := padded_two d.toNat (by omega)
  obtain ⟨h1, h2, hH, hHv⟩ := padded_two (ms / 3600000).toNat (by omega)
  obtain ⟨n1, n2, hN, hNv⟩ := padded_two (ms / 60000 % 60).toNat (by omega)
  obtain ⟨s1, s2, hS, hSv⟩ := padded_two (ms / 1000 % 60).toNat (by omega)
  obtain ⟨f1, f2, f3, hF, hFv⟩ := padded_three (ms % 1000).toNat (by omega)
  have hlist : ("-" ++ padded 2 m.toNat ++ "-" ++ padded 2 d.toNat ++ "T" ++
        padded 2 (ms / 3600000).toNat ++ ":" ++ padded 2 (ms / 60000 % 60).toNat ++ ":" ++
        padded 2 (ms / 1000 % 60).toNat ++ "." ++ padded 3 (ms % 1000).toNat ++ "Z").toList =
      ['-', m1, m2, '-', d1, d2, 'T', h1, h2, ':', n1, n2, ':', s1, s2, '.', f1, f2, f3, 'Z'] := by
    simp only [String.toList, String.data_append] at hM hD hH hN hS hF ⊢
    rw [hM, hD, hH, hN, hS, hF]
    rfl
  rw [hlist]
  simp only [timeFromFields, hMv, hDv, hHv, hNv, hSv, hFv]
  have e1 : ((m.toNat : Nat) : Int) = m := Int.toNat_of_nonneg (by omega)
  have e2 : ((d.toNat : Nat) : Int) = d := Int.toNat_of_nonneg (by omega)
  have e3 : (((ms / 3600000).toNat : Nat) : Int) = ms / 3600000 := Int.toNat_of_nonneg (by omega)
  have e4 : (((ms / 60000 % 60).toNat : Nat) : Int) = ms / 60000 % 60 :=
    Int.toNat_of_nonneg (by omega)
  have e5 : (((ms / 1000 % 60).toNat : Nat) : Int) = ms / 1000 % 60 :=
    Int.toNat_of_nonneg (by omega)
  have e6 : (((ms % 1000).toNat : Nat) : Int) = ms % 1000 := Int.toNat_of_nonneg (by omega)
  rw [e1, e2, e3, e4, e5, e6]
  rw [if_pos ⟨hcivil, by omega, by omega, by omega⟩]
  have hsum : daysFromCivil y m d * 86400000 + ms / 3600000 * 3600000 +
      ms / 60000 % 60 * 60000 + ms / 1000 % 60 * 1000 + ms % 1000 =
      daysFromCivil y m d * 86400000 + ms := by omega
  rw [hsum]
  exact timeClip_intCast _ hrange

/-- Reading the text `toISOString` writes for a time value gives back the time
value, over the whole range of valid dates. -/
theorem parseIsoString_isoString (t : Int) (h1 : -8640000000000000 ≤ t)
    (h2 : t ≤ 8640000000000000) : parseIsoString (isoString t) = some t := by
  obtain ⟨hm1, hm12, hd1, hd31, hdays⟩ := civilFromDays_spec (t / 86400000)
  obtain ⟨hy1, hy2⟩ := civilFromDays_year_bounds (t / 86400000) (by omega) (by omega)
  rcases hc : civilFromDays (t / 86400000) with ⟨y, m, d⟩
  rw [hc] at hm1 hm12 hd1 hd31 hdays hy1 hy2
  simp only at hm1 hm12 hd1 hd31 hdays hy1 hy2
  have hcivil : civilFromDays (daysFromCivil y m d) = (y, m, d) := by rw [hdays, hc]
  have hval : t / 86400000 * 86400000 + t % 86400000 = t := by omega
  have htail := timeFromFields_fields y m d (t % 86400000) ⟨hm1, hm12⟩ ⟨hd1, hd31⟩
    (by omega) hcivil (by rw [hdays, hval]; exact ⟨h1, h2⟩)
  rw [hdays, hval] at htail
  have hlist : (isoString t).toList = (isoYear y).toList ++
      ("-" ++ padded 2 m.toNat ++ "-" ++ padded 2 d.toNat ++ "T" ++
        padded 2 (t % 86400000 / 3600000).toNat ++ ":" ++
        padded 2 (t % 86400000 / 60000 % 60).toNat ++ ":" ++
        padded 2 (t % 86400000 / 1000 % 60).toNat ++ "." ++
        padded 3 (t % 86400000 % 1000).toNat ++ "Z").toList := by
    simp only [isoString, hc, String.toList, String.data_append, List.append_assoc]
  by_cases hy : 0 ≤ y ∧ y ≤ 9999
  · obtain ⟨a, b, c, e, hY, hYv⟩ := padded_four y.toNat (by omega)
    have hsign := decimalNumber_head a _ _ hYv
    rw [parseIsoString_four (isoString t) a b c e _
      (by rw [hlist, isoYear, if_pos hy, hY]; rfl) hsign.1 hsign.2, hYv, Option.some_bind,
      Int.toNat_of_nonneg hy.1]
    exact htail
  · by_cases hneg : y < 0
    · obtain ⟨a, b, c, e, f, g, hY, hYv⟩ := padded_six (-y).toNat (by omega)
      have hyear : (isoYear y).toList = '-' :: [a, b, c, e, f, g] := by
        rw [isoYear, if_neg hy, if_pos hneg]
        simp only [String.toList, String.data_append] at hY ⊢
        rw [hY]
        rfl
      have hne : ¬ (((-y).toNat : Nat) : Int) = 0 := by omega
      rw [parseIsoString_minus (isoString t) a b c e f g _ (by rw [hlist, hyear]; rfl), hYv,
        Option.some_bind, if_neg hne, Int.toNat_of_nonneg (by omega), neg_neg]
      exact htail
    · obtain ⟨a, b, c, e, f, g, hY, hYv⟩ := padded_six y.toNat (by omega)
      have hyear : (isoYear y).toList = '+' :: [a, b, c, e, f, g] := by
        rw [isoYear, if_neg hy, if_neg hneg]
        simp only [String.toList, String.data_append] at hY ⊢
        rw [hY]
        rfl
      rw [parseIsoString_plus (isoString t) a b c e f g _ (by rw [hlist, hyear]; rfl), hYv,
        Option.some_bind, Int.toNat_of_nonneg (by omega)]
      exact htail

end Timestamps

section Services

open Config ApiService LeituraService

/-- The requests `createLeitura` issues for an accepted payload: one POST on
`Leitura` whose body is the DTO. -/
theorem createLeitura_requests_of_valid (E : Engine) (fetch : Fetch) (d : LeituraData)
    (dto : List (String × JSVal)) (hv : (validateLeituraData d).isValid = true)
    (hdto : leituraDto E d = .ok dto) :
    (createLeitura E fetch d).requests =
      [{ method := "POST", url := "http://10.0.2.2:5285/api/Leitura", query := [],
         headers := getHeaders, body := some dto }] := by
  have hurl : baseURL ++ API_ENDPOINTS.LEITURAS.CREATE = "http://10.0.2.2:5285/api/Leitura" := by
    decide
  simp only [createLeitura, hv, hdto, Bool.not_true, Bool.false_eq_true, if_false,
    Traced.andThen, post, roundTrip, hurl]

/-- The requests `updateLeitura` issues for an accepted payload: one PUT whose
body is the DTO. -/
theorem updateLeitura_requests_of_valid (E : Engine) (fetch : Fetch) (id : JSVal)
    (d : LeituraData) (dto : List (String × JSVal))
    (hv : (validateLeituraData d).isValid = true) (hdto : leituraDto E d = .ok dto) :
    (updateLeitura E fetch id d).requests =
      [{ method := "PUT", url := baseURL ++ API_ENDPOINTS.LEITURAS.UPDATE E id, query := [],
         headers := getHeaders, body := some dto }] := by
  simp only [updateLeitura, hv, hdto, Bool.not_true, Bool.false_eq_true, if_false,
    Traced.andThen, put, roundTrip]

/-- On the payloads the form screen builds, whose `temperatura` is already a
number, the posted `temperatura` is the validated one: an accepted payload has
a finite `temperatura` within [-50, 100] and the DTO carries that number. -/
theorem leituraDto_temperatura_of_number (E : Engine) (d : LeituraData) (n : JSNum)
    (dto : List (String × JSVal)) (hn : d.temperatura = .num n)
    (hv : (validateLeituraData d).isValid = true) (hdto : leituraDto E d = .ok dto) :
    dto.lookup "temperatura" = some (.num n) ∧ ∃ q : ℚ, n = .fin q ∧ -50 ≤ q ∧ q ≤ 100 := by
  constructor
  · unfold leituraDto at hdto
    split at hdto
    · cases hdto
    · cases hdto
      simp [List.lookup, hn, parseFloat]
  · have hnil : checkDataHora d.dataHora ++ checkTemperatura d.temperatura ++
        checkSensorId d.sensorId = [] := by
      simpa [validateLeituraData, List.length_eq_zero] using hv
    have hc : checkTemperatura (.num n) = [] := by
      rw [← hn]
      simp only [List.append_eq_nil] at hnil
      exact hnil.1.2
    by_cases hB : (JSVal.num n).isNaN = true
    · simp [checkTemperatura, hB] at hc
    · by_cases hC :
          ((JSVal.num n).toNumber.lt (.ofInt VALIDATION_CONFIG.LEITURA.TEMPERATURA_MIN) ||
            (JSVal.num n).toNumber.gt (.ofInt VALIDATION_CONFIG.LEITURA.TEMPERATURA_MAX)) = true
      · simp only [checkTemperatura, hB, hC] at hc
        simp at hc
      · cases n with
        | fin q =>
          refine ⟨q, rfl, ?_⟩
          simp only [JSVal.toNumber, JSNum.lt, JSNum.gt, JSNum.ofInt, VALIDATION_CONFIG,
            Bool.or_eq_true, decide_eq_true_eq, not_or, not_lt] at hC
          push_cast at hC
          exact hC
        | nan => simp [JSVal.isNaN, JSVal.toNumber, JSNum.isNaN] at hB
        | posInf => simp [JSVal.toNumber, JSNum.lt, JSNum.gt, JSNum.ofInt] at hC
        | negInf => simp [JSVal.toNumber, JSNum.lt, JSNum.gt, JSNum.ofInt] at hC

/-- C3: on a payload its validator rejects, `createSensor`, `updateSensor`,
`createLeitura` and `updateLeitura` each fail with the error
'Dados inválidos: ...' and issue no request at all, whereas every call of
`post` or `put` issues one; a reading with `temperatura` = 150 is rejected
with `errors.temperatura` set and `createLeitura` issues no request. -/
theorem rejected_payload_issues_no_request (E : Engine) (fetch : Fetch) :
    (∀ d r, validateSensorData d = .ok r → r.isValid = false →
      (SensorService.createSensor E fetch d).requests = [] ∧
      (SensorService.createSensor E fetch d).outcome =
        .error (.error (SensorService.invalidMessage r)) ∧
      ∀ id, (SensorService.updateSensor E fetch id d).requests = [] ∧
        (SensorService.updateSensor E fetch id d).outcome =
          .error (.error (SensorService.invalidMessage r))) ∧
    (∀ d, (validateLeituraData d).isValid = false →
      (createLeitura E fetch d).requests = [] ∧
      (createLeitura E fetch d).outcome =
        .error (.error (invalidMessage (validateLeituraData d))) ∧
      ∀ id, (updateLeitura E fetch id d).requests = [] ∧
        (updateLeitura E fetch id d).outcome =
          .error (.error (invalidMessage (validateLeituraData d)))) ∧
    (∀ d, d.temperatura = .num (.fin 150) →
      (validateLeituraData d).isValid = false ∧
      (validateLeituraData d).error "temperatura" =
        some "A temperatura deve estar entre -50°C e 100°C." ∧
      (createLeitura E fetch d).requests = []) ∧
    (∀ endpoint data, (post E fetch endpoint data).requests.length = 1 ∧
      (put E fetch endpoint data).requests.length = 1) := by
  refine ⟨?_, ?_, ?_, ?_⟩
  · intro d r hr hv
    simp [SensorService.createSensor, SensorService.updateSensor, hr, hv, Traced.fail]
  · intro d hv
    simp [createLeitura, updateLeitura, hv, Traced.fail]
  · intro d hd
    have hc : checkTemperatura d.temperatura =
        [("temperatura", "A temperatura deve estar entre -50°C e 100°C.")] := by
      rw [hd]
      decide
    have hv : (validateLeituraData d).isValid = false := by
      simp [validateLeituraData, hc]
    refine ⟨hv, ?_, ?_⟩
    · rw [error_temperatura, hc]
      rfl
    · simp [createLeitura, hv, Traced.fail]
  · intro endpoint data
    simp [post, put, roundTrip]

/-- Witness of C3: a sensor named "ab" and a reading of 150 degrees, with the
network down. -/
theorem rejected_payload_issues_no_request_witness :
    (SensorService.createSensor sampleEngine offline
      { nome := .str "ab", localizacao := .str "Sala 1" }).requests = [] ∧
    (createLeitura sampleEngine offline
      { dataHora := .date (some 0), temperatura := .num (.fin 150),
        sensorId := .num (.fin 1) }).requests = [] :=
  ⟨((rejected_payload_issues_no_request sampleEngine offline).1
      { nome := .str "ab", localizacao := .str "Sala 1" }
      { isValid := false, errors := [("nome", "O nome deve ter pelo menos 3 caracteres.")] }
      (by decide) rfl).1,
    ((rejected_payload_issues_no_request sampleEngine offline).2.2.1
      { dataHora := .date (some 0), temperatura := .num (.fin 150),
        sensorId := .num (.fin 1) } rfl).2.2⟩

/-- C4 fails on the code: the payload with `sensorId` = 0.5 (as the text
'0.5', and as the number 0.5 on an engine that prints it as '0.5') is accepted
by `validateLeituraData`, and `createLeitura` posts, and `updateLeitura` puts,
a DTO whose `sensorId` is 0. -/
theorem createLeitura_posts_sensorId_zero (E : Engine) (fetch : Fetch) :
    ((validateLeituraData
        { dataHora := .date (some 0), temperatura := .num (.fin 25),
          sensorId := .str "0.5" }).isValid = true ∧
      (createLeitura E fetch
        { dataHora := .date (some 0), temperatura := .num (.fin 25),
          sensorId := .str "0.5" }).requests =
        [{ method := "POST", url := "http://10.0.2.2:5285/api/Leitura", query := [],
           headers := getHeaders,
           body := some [("dataHora", .str "1970-01-01T00:00:00.000Z"),
             ("temperatura", .num (.fin 25)), ("sensorId", .num (.fin 0))] }] ∧
      ∀ id, (updateLeitura E fetch id
        { dataHora := .date (some 0), temperatura := .num (.fin 25),
          sensorId := .str "0.5" }).requests.map Request.body =
        [some [("dataHora", .str "1970-01-01T00:00:00.000Z"),
          ("temperatura", .num (.fin 25)), ("sensorId", .num (.fin 0))]]) ∧
    (E.numberToString (1 / 2) = "0.5" →
      (validateLeituraData
        { dataHora := .date (some 0), temperatura := .num (.fin 25),
          sensorId := .num (.fin (1 / 2)) }).isValid = true ∧
      (createLeitura E fetch
        { dataHora := .date (some 0), temperatura := .num (.fin 25),
          sensorId := .num (.fin (1 / 2)) }).requests =
        [{ method := "POST", url := "http://10.0.2.2:5285/api/Leitura", query := [],
           headers := getHeaders,
           body := some [("dataHora", .str "1970-01-01T00:00:00.000Z"),
             ("temperatura", .num (.fin 25)), ("sensorId", .num (.fin 0))] }] ∧
      ∀ id, (updateLeitura E fetch id
        { dataHora := .date (some 0), temperatura := .num (.fin 25),
          sensorId := .num (.fin (1 / 2)) }).requests.map Request.body =
        [some [("dataHora", .str "1970-01-01T00:00:00.000Z"),
          ("temperatura", .num (.fin 25)), ("sensorId", .num (.fin 0))]]) := by
  have hp : parseIntString "0.5" = .fin 0 := by decide!
  have hiso : isoString 0 = "1970-01-01T00:00:00.000Z" := by decide
  have hd1 : leituraDto E
      { dataHora := .date (some 0), temperatura := .num (.fin 25), sensorId := .str "0.5" } =
      .ok [("dataHora", .str "1970-01-01T00:00:00.000Z"),
        ("temperatura", .num (.fin 25)), ("sensorId", .num (.fin 0))] := by
    simp only [leituraDto, toISOString, parseFloat, parseInt, JSVal.toStr, hp, hiso]
  refine ⟨⟨by decide!, createLeitura_requests_of_valid _ _ _ _ (by decide!) hd1, fun id => ?_⟩,
    fun hE => ?_⟩
  · rw [updateLeitura_requests_of_valid _ _ _ _ _ (by decide!) hd1]
    rfl
  · have hd2 : leituraDto E
        { dataHora := .date (some 0), temperatura := .num (.fin 25),
          sensorId := .num (.fin (1 / 2)) } =
        .ok [("dataHora", .str "1970-01-01T00:00:00.000Z"),
          ("temperatura", .num (.fin 25)), ("sensorId", .num (.fin 0))] := by
      simp only [leituraDto, toISOString, parseFloat, parseInt, JSVal.toStr, hp, hiso, hE]
    refine ⟨by decide!, createLeitura_requests_of_valid _ _ _ _ (by decide!) hd2, fun id => ?_⟩
    rw [updateLeitura_requests_of_valid _ _ _ _ _ (by decide!) hd2]
    rfl

/-- Witness of the evaluation for C4 on the sample engine, with the number
0.5 as `sensorId`. -/
theorem createLeitura_posts_sensorId_zero_witness :
    (createLeitura sampleEngine offline
      { dataHora := .date (some 0), temperatura := .num (.fin 25),
        sensorId := .num (.fin (1 / 2)) }).requests =
      [{ method := "POST", url := "http://10.0.2.2:5285/api/Leitura", query := [],
         headers := getHeaders,
         body := some [("dataHora", .str "1970-01-01T00:00:00.000Z"),
           ("temperatura", .num (.fin 25)), ("sensorId", .num (.fin 0))] }] :=
  ((createLeitura_posts_sensorId_zero sampleEngine offline).2 (by decide!)).2.1

/-- C5 fails on the code: the payload whose `temperatura` is a single space is
accepted by `validateLeituraData` (as a number it is 0) and `createLeitura`
posts, and `updateLeitura` puts, a DTO whose `temperatura` is `NaN`; the
payload whose `temperatura` is the text '0x10' is accepted as 16 and sent
as 0. -/
theorem createLeitura_posts_unvalidated_temperatura (E : Engine) (fetch : Fetch) :
    ((validateLeituraData
        { dataHora := .date (some 0), temperatura := .str " ", sensorId := .str "1" }).isValid
        = true ∧
      (JSVal.str " ").toNumber = .fin 0 ∧
      (createLeitura E fetch
        { dataHora := .date (some 0), temperatura := .str " ", sensorId := .str "1" }).requests =
        [{ method := "POST", url := "http://10.0.2.2:5285/api/Leitura", query := [],
           headers := getHeaders,
           body := some [("dataHora", .str "1970-01-01T00:00:00.000Z"),
             ("temperatura", .num .nan), ("sensorId", .num (.fin 1))] }] ∧
      ∀ id, (updateLeitura E fetch id
        { dataHora := .date (some 0), temperatura := .str " ",
          sensorId := .str "1" }).requests.map Request.body =
        [some [("dataHora", .str "1970-01-01T00:00:00.000Z"),
          ("temperatura", .num .nan), ("sensorId", .num (.fin 1))]]) ∧
    ((validateLeituraData
        { dataHora := .date (some 0), temperatura := .str "0x10", sensorId := .str "1" }).isValid
        = true ∧
      (JSVal.str "0x10").toNumber = .fin 16 ∧
      (createLeitura E fetch
        { dataHora := .date (some 0), temperatura := .str "0x10",
          sensorId := .str "1" }).requests =
        [{ method := "POST", url := "http://10.0.2.2:5285/api/Leitura", query := [],
           headers := getHeaders,
           body := some [("dataHora", .str "1970-01-01T00:00:00.000Z"),
             ("temperatura", .num (.fin 0)), ("sensorId", .num (.fin 1))] }] ∧
      ∀ id, (updateLeitura E fetch id
        { dataHora := .date (some 0), temperatura := .str "0x10",
          sensorId := .str "1" }).requests.map Request.body =
        [some [("dataHora", .str "1970-01-01T00:00:00.000Z"),
          ("temperatura", .num (.fin 0)), ("sensorId", .num (.fin 1))]]) := by
  have hp : parseIntString "1" = .fin 1 := by decide!
  have hf1 : parseFloatString " " = .nan := by decide!
  have hf2 : parseFloatString "0x10" = .fin 0 := by decide!
  have hiso : isoString 0 = "1970-01-01T00:00:00.000Z" := by decide
  have hd1 : leituraDto E
      { dataHora := .date (some 0), temperatura := .str " ", sensorId := .str "1" } =
      .ok [("dataHora", .str "1970-01-01T00:00:00.000Z"),
        ("temperatura", .num .nan), ("sensorId", .num (.fin 1))] := by
    simp only [leituraDto, toISOString, parseFloat, parseInt, JSVal.toStr, hp, hf1, hiso]
  have hd2 : leituraDto E
      { dataHora := .date (some 0), temperatura := .str "0x10", sensorId := .str "1" } =
      .ok [("dataHora", .str "1970-01-01T00:00:00.000Z"),
        ("temperatura", .num (.fin 0)), ("sensorId", .num (.fin 1))] := by
    simp only [leituraDto, toISOString, parseFloat, parseInt, JSVal.toStr, hp, hf2, hiso]
  refine ⟨⟨by decide!, by decide!, createLeitura_requests_of_valid _ _ _ _ (by decide!) hd1,
    fun id => ?_⟩, by decide!, by decide!,
    createLeitura_requests_of_valid _ _ _ _ (by decide!) hd2, fun id => ?_⟩
  · rw [updateLeitura_requests_of_valid _ _ _ _ _ (by decide!) hd1]
    rfl
  · rw [updateLeitura_requests_of_valid _ _ _ _ _ (by decide!) hd2]
    rfl

/-- A trimmed text has no leading and no trailing white space. -/
theorem noOuterWhiteSpace_trim (cs : List Char) : noOuterWhiteSpace (trim cs) := by
  have hlast : ∀ l : List Char, ∀ c, (trimEnd l).getLast? = some c →
      isWhiteSpace c = false := by
    intro l c hc
    simp only [trimEnd, trimStart, List.getLast?_reverse] at hc
    have := List.head?_dropWhile_not isWhiteSpace l.reverse
    rw [hc] at this
    exact this
  have hpre : ∀ l : List Char, trimEnd l <+: l := by
    intro l
    have := (List.dropWhile_suffix isWhiteSpace (l := l.reverse)).reverse
    simpa [trimEnd, trimStart] using this
  constructor
  · intro c hc
    unfold trim at hc
    have hne : trimEnd (trimStart cs) ≠ [] := by
      intro h
      rw [h] at hc
      simp at hc
    have hhead := (hpre (trimStart cs)).head hne
    have h1 : (trimStart cs).head? = some c := by
      rw [List.head?_eq_head ((hpre (trimStart cs)).ne_nil hne), ← hhead,
        ← List.head?_eq_head hne]
      exact hc
    have := List.head?_dropWhile_not isWhiteSpace cs
    simp only [trimStart] at h1
    rw [h1] at this
    exact this
  · intro c hc
    exact hlast _ c hc

/-- A field whose ladder in `validateSensorData` adds nothing is a string whose
trimmed length is within the bounds. -/
theorem checkText_nil (key required tooShort tooLong : String) (min max : Nat) (v : JSVal)
    (h : checkText key required tooShort tooLong min max v = .ok []) :
    ∃ s, v = .str s ∧ min ≤ utf16Length (trim s.toList) ∧
      utf16Length (trim s.toList) ≤ max := by
  unfold checkText at h
  split at h
  · simp at h
  · split at h
    · cases h
    · rename_i n hn
      cases v with
      | str s =>
        simp only [trimLength, Except.ok.injEq] at hn
        subst hn
        refine ⟨s, rfl, ?_⟩
        split_ifs at h <;> first | (simp at h; done) | omega
      | undefined => simp [trimLength] at hn
      | null => simp [trimLength] at hn
      | bool b => simp [trimLength] at hn
      | num x => simp [trimLength] at hn
      | date t => simp [trimLength] at hn

/-- C18: for every payload `validateSensorData` accepts, `nome` and
`localizacao` are strings and the body `createSensor` posts and `updateSensor`
puts consists of exactly the two fields `nome` and `localizacao`, each the
trimmed text of the payload's field, whatever else the payload carries; the
sent `nome` has a length in [3, 100], the sent `localizacao` a length in
[3, 200], and neither has leading or trailing white space. -/
theorem sensor_body_is_trimmed_fields (E : Engine) (fetch : Fetch) (d : SensorData)
    (r : ValidationResult) (hr : validateSensorData d = .ok r) (hv : r.isValid = true) :
    ∃ nome localizacao : String,
      d.nome = .str nome ∧ d.localizacao = .str localizacao ∧
      (SensorService.createSensor E fetch d).requests =
        [{ method := "POST", url := "http://10.0.2.2:5285/api/Sensor", query := [],
           headers := getHeaders,
           body := some [("nome", .str (String.mk (trim nome.toList))),
             ("localizacao", .str (String.mk (trim localizacao.toList)))] }] ∧
      (∀ id, (SensorService.updateSensor E fetch id d).requests =
        [{ method := "PUT", url := "http://10.0.2.2:5285/api/Sensor/" ++ id.toStr E,
           query := [], headers := getHeaders,
           body := some [("nome", .str (String.mk (trim nome.toList))),
             ("localizacao", .str (String.mk (trim localizacao.toList)))] }]) ∧
      (3 ≤ utf16Length (trim nome.toList) ∧ utf16Length (trim nome.toList) ≤ 100) ∧
      (3 ≤ utf16Length (trim localizacao.toList) ∧
        utf16Length (trim localizacao.toList) ≤ 200) ∧
      noOuterWhiteSpace (trim nome.toList) ∧ noOuterWhiteSpace (trim localizacao.toList) := by
  obtain ⟨e1, e2, -, -, he, hval, h1, h2⟩ := validateSensorData_ok d r hr
  have hnil : e1 ++ e2 = [] := by
    rw [hval] at hv
    simpa using hv
  obtain ⟨he1, he2⟩ := List.append_eq_nil.mp hnil
  subst he1 he2
  obtain ⟨nome, hn, hn3, hn100⟩ := checkText_nil _ _ _ _ _ _ _ h1
  obtain ⟨localizacao, hl, hl3, hl200⟩ := checkText_nil _ _ _ _ _ _ _ h2
  have hdto : SensorService.sensorDto d = .ok [("nome", .str (String.mk (trim nome.toList))),
      ("localizacao", .str (String.mk (trim localizacao.toList)))] := by
    simp only [SensorService.sensorDto, hn, hl, trimCall]
  have hurl : baseURL ++ API_ENDPOINTS.SENSORES.CREATE = "http://10.0.2.2:5285/api/Sensor" := by
    decide
  have hurl2 : ∀ id, baseURL ++ API_ENDPOINTS.SENSORES.UPDATE E id =
      "http://10.0.2.2:5285/api/Sensor/" ++ id.toStr E := by
    intro id
    have hb : baseURL = "http://10.0.2.2:5285/api/" := by decide
    rw [API_ENDPOINTS.SENSORES.UPDATE, hb, ← String.append_assoc]
    rfl
  refine ⟨nome, localizacao, hn, hl, ?_, ?_, ⟨hn3, hn100⟩, ⟨hl3, hl200⟩,
    noOuterWhiteSpace_trim _, noOuterWhiteSpace_trim _⟩
  · simp only [SensorService.createSensor, hr, hv, hdto, Bool.not_true, Bool.false_eq_true,
      if_false, post, roundTrip, hurl]
  · intro id
    simp only [SensorService.updateSensor, hr, hv, hdto, Bool.not_true, Bool.false_eq_true,
      if_false, put, roundTrip, Traced.andThen, hurl2]

/-- Witness of C18: the payload with `nome` = "  Sonda 1 ", `localizacao` =
" Sala 2  " and an `id` is accepted, and the body posted holds "Sonda 1" and
"Sala 2" only. -/
theorem sensor_body_is_trimmed_fields_witness :
    (SensorService.createSensor sampleEngine offline
      { nome := .str "  Sonda 1 ", localizacao := .str " Sala 2  ",
        rest := [("id", .num (.fin 7))] }).requests =
      [{ method := "POST", url := "http://10.0.2.2:5285/api/Sensor", query := [],
         headers := getHeaders,
         body := some [("nome", .str "Sonda 1"), ("localizacao", .str "Sala 2")] }] := by
  obtain ⟨nome, localizacao, h1, h2, h3, -⟩ :=
    sensor_body_is_trimmed_fields sampleEngine offline
      { nome := .str "  Sonda 1 ", localizacao := .str " Sala 2  ",
        rest := [("id", .num (.fin 7))] }
      { isValid := true, errors := [] } (by decide) rfl
  cases h1
  cases h2
  exact h3

/-- C20: for every pair of valid instants, in either order,
`getLeiturasPorPeriodo` issues one GET on `Leitura/por-periodo` whose
parameters are `inicio` = the ISO-8601 text of the start and `fim` = that of
the end, as given; it does nothing but this `get` followed by the mapping of
the items, so it neither rejects nor swaps an inverted range, as for
2024-02-01 to 2024-01-01. -/
theorem getLeiturasPorPeriodo_passes_range (E : Engine) (fetch : Fetch) (start finish : Int) :
    (getLeiturasPorPeriodo E fetch (.date (some start)) (.date (some finish))).requests =
      [{ method := "GET", url := "http://10.0.2.2:5285/api/Leitura/por-periodo",
         query := [("inicio", isoString start), ("fim", isoString finish)],
         headers := getHeaders, body := none }] ∧
    getLeiturasPorPeriodo E fetch (.date (some start)) (.date (some finish)) =
      (ApiService.get E fetch "Leitura/por-periodo"
        [("inicio", .str (isoString start)), ("fim", .str (isoString finish))]).andThen
        (mapLeituras E) ∧
    (getLeiturasPorPeriodo E fetch (.date (some 1706745600000))
      (.date (some 1704067200000))).requests.map Request.query =
      [[("inicio", "2024-02-01T00:00:00.000Z"), ("fim", "2024-01-01T00:00:00.000Z")]] := by
  have hurl : baseURL ++ API_ENDPOINTS.LEITURAS.POR_PERIODO =
      "http://10.0.2.2:5285/api/Leitura/por-periodo" := by decide
  have hget : ∀ a b : Int, getLeiturasPorPeriodo E fetch (.date (some a)) (.date (some b)) =
      (ApiService.get E fetch "Leitura/por-periodo"
        [("inicio", .str (isoString a)), ("fim", .str (isoString b))]).andThen
        (mapLeituras E) := by
    intro a b
    simp only [getLeiturasPorPeriodo, toISOString]
    rfl
  have hreq : ∀ a b : Int,
      (getLeiturasPorPeriodo E fetch (.date (some a)) (.date (some b))).requests =
      [{ method := "GET", url := "http://10.0.2.2:5285/api/Leitura/por-periodo",
         query := [("inicio", isoString a), ("fim", isoString b)],
         headers := getHeaders, body := none }] := by
    intro a b
    rw [hget]
    simp [ApiService.get, roundTrip, Traced.andThen, JSVal.toStr, ← hurl]
    rfl
  refine ⟨hreq _ _, hget _ _, ?_⟩
  rw [hreq]
  have h1 : isoString 1706745600000 = "2024-02-01T00:00:00.000Z" := by decide
  have h2 : isoString 1704067200000 = "2024-01-01T00:00:00.000Z" := by decide
  simp [h1, h2]

/-- The method `includes` tests for a contiguous occurrence. -/
theorem includes_iff_occurs (s sub : String) :
    includes s sub = true ↔ sub.toList <:+: s.toList := by
  simp only [includes, List.any_eq_true, List.mem_tails, List.isPrefixOf_iff_prefix]
  rw [List.infix_iff_prefix_suffix]
  constructor
  · rintro ⟨t, h1, h2⟩
    exact ⟨t, h2, h1⟩
  · rintro ⟨t, h1, h2⟩
    exact ⟨t, h2, h1⟩

/-- Every message joined by `joinComma` occurs in the result. -/
theorem infix_joinComma (m : String) (l : List String) (h : m ∈ l) :
    m.toList <:+: (joinComma l).toList := by
  induction l with
  | nil => simp at h
  | cons s rest ih =>
    cases rest with
    | nil =>
      simp only [List.mem_singleton] at h
      subst h
      exact List.infix_refl _
    | cons t rest =>
      simp only [joinComma, String.toList, String.data_append]
      rcases List.mem_cons.mp h with h | h
      · subst h
        rw [List.append_assoc]
        exact (List.prefix_append _ _).isInfix
      · exact (ih h).trans (List.suffix_append _ _).isInfix

/-- Every message of a result occurs in the message of the error raised for
it. -/
theorem includes_invalid_message (r : ValidationResult) (key m : String)
    (h : r.error key = some m) :
    includes ("Dados inválidos: " ++ joinComma (r.errors.map Prod.snd)) m = true := by
  rw [includes_iff_occurs]
  have hm : m ∈ r.errors.map Prod.snd := by
    simp only [ValidationResult.error, Option.map_eq_some'] at h
    obtain ⟨kv, hkv, rfl⟩ := h
    exact List.mem_map_of_mem _ (List.mem_of_find?_eq_some hkv)
  simp only [String.toList, String.data_append]
  exact (infix_joinComma m _ hm).trans (List.suffix_append _ _).isInfix

/-- C17, as the claim states it, fails: for the reading without `sensorId` the
validator's map has the key `sensorId`, and the error `createLeitura` fails
with is the text 'Dados inválidos: Um sensor válido deve ser selecionado.',
in which the field name does not occur. -/
theorem rejected_error_lacks_field_name :
    (validateLeituraData
      { dataHora := .date (some 0), temperatura := .num (.fin 25) }).errors =
      [("sensorId", "Um sensor válido deve ser selecionado.")] ∧
    (createLeitura sampleEngine offline
      { dataHora := .date (some 0), temperatura := .num (.fin 25) }).outcome =
      .error (.error "Dados inválidos: Um sensor válido deve ser selecionado.") ∧
    includes "Dados inválidos: Um sensor válido deve ser selecionado." "sensorId" = false := by
  have hv : validateLeituraData { dataHora := .date (some 0), temperatura := .num (.fin 25) } =
      { isValid := false,
        errors := [("sensorId", "Um sensor válido deve ser selecionado.")] } := by
    decide!
  refine ⟨by rw [hv], ?_, by decide⟩
  simp only [createLeitura, hv, Bool.not_false, if_true, Traced.fail, LeituraService.invalidMessage]
  rfl

/-- C17, amended: on a payload its validator rejects, `createSensor`,
`updateSensor`, `createLeitura` and `updateLeitura` each fail with a plain
error whose message is 'Dados inválidos: ' followed by the messages of the
validator's `errors`, in the order of the fields, joined with ', '; the message
of every violated field occurs in it (the field names are not carried). -/
theorem rejected_error_carries_messages (E : Engine) (fetch : Fetch) :
    (∀ d r, validateSensorData d = .ok r → r.isValid = false →
      (SensorService.createSensor E fetch d).outcome =
        .error (.error ("Dados inválidos: " ++ joinComma (r.errors.map Prod.snd))) ∧
      (∀ id, (SensorService.updateSensor E fetch id d).outcome =
        .error (.error ("Dados inválidos: " ++ joinComma (r.errors.map Prod.snd)))) ∧
      (∀ key m, r.error key = some m →
        includes ("Dados inválidos: " ++ joinComma (r.errors.map Prod.snd)) m = true)) ∧
    (∀ d, (validateLeituraData d).isValid = false →
      (createLeitura E fetch d).outcome =
        .error (.error ("Dados inválidos: " ++
          joinComma ((validateLeituraData d).errors.map Prod.snd))) ∧
      (∀ id, (updateLeitura E fetch id d).outcome =
        .error (.error ("Dados inválidos: " ++
          joinComma ((validateLeituraData d).errors.map Prod.snd)))) ∧
      (∀ key m, (validateLeituraData d).error key = some m →
        includes ("Dados inválidos: " ++
          joinComma ((validateLeituraData d).errors.map Prod.snd)) m = true)) := by
  constructor
  · intro d r hr hv
    refine ⟨?_, fun id => ?_, fun key m h => includes_invalid_message r key m h⟩
    · simp [SensorService.createSensor, hr, hv, Traced.fail, SensorService.invalidMessage]
    · simp [SensorService.updateSensor, hr, hv, Traced.fail, SensorService.invalidMessage]
  · intro d hv
    refine ⟨?_, fun id => ?_, fun key m h => includes_invalid_message _ key m h⟩
    · simp [createLeitura, hv, Traced.fail, LeituraService.invalidMessage]
    · simp [updateLeitura, hv, Traced.fail, LeituraService.invalidMessage]

/-- Witness of the amended C17: a sensor with both fields empty fails with the
two messages, in the order of the fields. -/
theorem rejected_error_carries_messages_witness :
    (SensorService.createSensor sampleEngine offline
      { nome := .str "", localizacao := .str "" }).outcome =
      .error (.error ("Dados inválidos: O nome do sensor é obrigatório., " ++
        "A localização é obrigatória.")) :=
  ((rejected_error_carries_messages sampleEngine offline).1
    { nome := .str "", localizacao := .str "" }
    { isValid := false,
      errors := [("nome", "O nome do sensor é obrigatório."),
        ("localizacao", "A localização é obrigatória.")] }
    (by decide) rfl).1

/-- A sensor payload the validator accepts has a DTO: both fields are
strings. -/
theorem sensorDto_of_valid (d : SensorData) (r : ValidationResult)
    (hr : validateSensorData d = .ok r) (hv : r.isValid = true) :
    ∃ dto, SensorService.sensorDto d = .ok dto := by
  obtain ⟨e1, e2, -, -, -, hval, h1, h2⟩ := validateSensorData_ok d r hr
  have hnil : e1 ++ e2 = [] := by
    rw [hval] at hv
    simpa using hv
  obtain ⟨he1, he2⟩ := List.append_eq_nil.mp hnil
  subst he1 he2
  obtain ⟨nome, hn, -, -⟩ := checkText_nil _ _ _ _ _ _ _ h1
  obtain ⟨localizacao, hl, -, -⟩ := checkText_nil _ _ _ _ _ _ _ h2
  exact ⟨[("nome", .str (String.mk (trim nome.toList))),
    ("localizacao", .str (String.mk (trim localizacao.toList)))],
    by simp only [SensorService.sensorDto, hn, hl, trimCall]⟩

/-- A reading payload the validator accepts has a DTO: `dataHora` is a valid
date, so `toISOString` does not raise. -/
theorem leituraDto_of_valid (E : Engine) (d : LeituraData)
    (hv : (validateLeituraData d).isValid = true) : ∃ dto, leituraDto E d = .ok dto := by
  have hnil : checkDataHora d.dataHora ++ checkTemperatura d.temperatura ++
      checkSensorId d.sensorId = [] := by
    simpa [validateLeituraData, List.length_eq_zero] using hv
  simp only [List.append_eq_nil] at hnil
  have hd := hnil.1.1
  rw [checkDataHora_eq] at hd
  by_cases hi : isValidInstant d.dataHora = true
  · cases hdh : d.dataHora with
    | date t =>
      cases t with
      | some t =>
        exact ⟨[("dataHora", .str (isoString t)),
          ("temperatura", .num (parseFloat E d.temperatura)),
          ("sensorId", .num (parseInt E d.sensorId))],
          by simp only [leituraDto, hdh, toISOString]⟩
      | none => simp [hdh, isValidInstant] at hi
    | undefined => simp [hdh, isValidInstant] at hi
    | null => simp [hdh, isValidInstant] at hi
    | bool b => simp [hdh, isValidInstant] at hi
    | num n => simp [hdh, isValidInstant] at hi
    | str s => simp [hdh, isValidInstant] at hi
  · rw [if_neg hi] at hd
    split_ifs at hd

/-- An operation continued after its round trip fails with the error of the
round trip. -/
theorem andThen_error {α β : Type} (t : Traced α) (f : α → Except JSError β) (e : JSError)
    (h : t.outcome = .error e) : (t.andThen f).outcome = .error e := by
  simp only [Traced.andThen, h]

/-- C23: no service operation absorbs a transport failure. For each operation
of `sensorService` and `leituraService`, if the `ApiService` call it makes (the
`get`, `post`, `put` or `delete` on its endpoint, with the DTO of an accepted
payload as body) fails with an error, the operation fails with that same error
value, so with the same message, and returns no success value; in particular
update and delete do not return `true`. -/
theorem transport_failure_propagates (E : Engine) (fetch : Fetch) (e : JSError) :
    ((get E fetch API_ENDPOINTS.SENSORES.GET_ALL []).outcome = .error e →
      (SensorService.getAllSensores E fetch).outcome = .error e) ∧
    (∀ id, (get E fetch (API_ENDPOINTS.SENSORES.GET_BY_ID E id) []).outcome = .error e →
      (SensorService.getSensorById E fetch id).outcome = .error e) ∧
    (∀ d r dto, validateSensorData d = .ok r → r.isValid = true →
      SensorService.sensorDto d = .ok dto →
      (post E fetch API_ENDPOINTS.SENSORES.CREATE dto).outcome = .error e →
      (SensorService.createSensor E fetch d).outcome = .error e) ∧
    (∀ id d r dto, validateSensorData d = .ok r → r.isValid = true →
      SensorService.sensorDto d = .ok dto →
      (put E fetch (API_ENDPOINTS.SENSORES.UPDATE E id) dto).outcome = .error e →
      (SensorService.updateSensor E fetch id d).outcome = .error e ∧
      (SensorService.updateSensor E fetch id d).outcome ≠ .ok true) ∧
    (∀ id, (delete E fetch (API_ENDPOINTS.SENSORES.DELETE E id)).outcome = .error e →
      (SensorService.deleteSensor E fetch id).outcome = .error e ∧
      (SensorService.deleteSensor E fetch id).outcome ≠ .ok true) ∧
    ((get E fetch API_ENDPOINTS.LEITURAS.GET_ALL []).outcome = .error e →
      (getAllLeituras E fetch).outcome = .error e) ∧
    (∀ id, (get E fetch (API_ENDPOINTS.LEITURAS.GET_BY_ID E id) []).outcome = .error e →
      (getLeituraById E fetch id).outcome = .error e) ∧
    ((get E fetch API_ENDPOINTS.LEITURAS.TEMPERATURAS_ALTAS []).outcome = .error e →
      (getTemperaturasAltas E fetch).outcome = .error e) ∧
    (∀ start finish : Int,
      (get E fetch API_ENDPOINTS.LEITURAS.POR_PERIODO
        [("inicio", .str (isoString start)), ("fim", .str (isoString finish))]).outcome =
        .error e →
      (getLeiturasPorPeriodo E fetch (.date (some start)) (.date (some finish))).outcome =
        .error e) ∧
    (∀ d dto, (validateLeituraData d).isValid = true → leituraDto E d = .ok dto →
      (post E fetch API_ENDPOINTS.LEITURAS.CREATE dto).outcome = .error e →
      (createLeitura E fetch d).outcome = .error e) ∧
    (∀ id d dto, (validateLeituraData d).isValid = true → leituraDto E d = .ok dto →
      (put E fetch (API_ENDPOINTS.LEITURAS.UPDATE E id) dto).outcome = .error e →
      (updateLeitura E fetch id d).outcome = .error e ∧
      (updateLeitura E fetch id d).outcome ≠ .ok true) ∧
    (∀ id, (delete E fetch (API_ENDPOINTS.LEITURAS.DELETE E id)).outcome = .error e →
      (deleteLeitura E fetch id).outcome = .error e ∧
      (deleteLeitura E fetch id).outcome ≠ .ok true) := by
  have hne : ∀ (o : Except JSError Bool), o = .error e → o ≠ .ok true := by
    intro o ho hc
    rw [ho] at hc
    cases hc
  refine ⟨fun h => h, fun id h => h, ?_, ?_, ?_, ?_, ?_, ?_, ?_, ?_, ?_, ?_⟩
  · intro d r dto hr hv hdto h
    simp only [SensorService.createSensor, hr, hv, hdto, Bool.not_true, Bool.false_eq_true,
      if_false, h]
  · intro id d r dto hr hv hdto h
    have h2 : (SensorService.updateSensor E fetch id d).outcome = .error e := by
      simp only [SensorService.updateSensor, hr, hv, hdto, Bool.not_true, Bool.false_eq_true,
        if_false]
      exact andThen_error _ _ e h
    exact ⟨h2, hne _ h2⟩
  · intro id h
    have h2 : (SensorService.deleteSensor E fetch id).outcome = .error e :=
      andThen_error _ _ e h
    exact ⟨h2, hne _ h2⟩
  · exact fun h => andThen_error _ _ e h
  · exact fun id h => andThen_error _ _ e h
  · exact fun h => andThen_error _ _ e h
  · intro start finish h
    simp only [getLeiturasPorPeriodo, toISOString]
    exact andThen_error _ _ e h
  · intro d dto hv hdto h
    simp only [createLeitura, hv, hdto, Bool.not_true, Bool.false_eq_true, if_false]
    exact andThen_error _ _ e h
  · intro id d dto hv hdto h
    have h2 : (updateLeitura E fetch id d).outcome = .error e := by
      simp only [updateLeitura, hv, hdto, Bool.not_true, Bool.false_eq_true, if_false]
      exact andThen_error _ _ e h
    exact ⟨h2, hne _ h2⟩
  · intro id h
    have h2 : (deleteLeitura E fetch id).outcome = .error e := andThen_error _ _ e h
    exact ⟨h2, hne _ h2⟩

/-- Witness of C23: with the network down, `deleteLeitura` of reading 7 fails
with the error `fetch` rejected with, and `getAllLeituras` likewise. -/
theorem transport_failure_propagates_witness :
    ((deleteLeitura sampleEngine offline (.num (.fin 7))).outcome =
        .error (.typeError "Network request failed") ∧
      (deleteLeitura sampleEngine offline (.num (.fin 7))).outcome ≠ .ok true) ∧
    (getAllLeituras sampleEngine offline).outcome =
      .error (.typeError "Network request failed") :=
  ⟨(transport_failure_propagates sampleEngine offline
      (.typeError "Network request failed")).2.2.2.2.2.2.2.2.2.2.2 (.num (.fin 7)) rfl,
    (transport_failure_propagates sampleEngine offline
      (.typeError "Network request failed")).2.2.2.2.2.1 rfl⟩

/-- An operation continued after its round trip issued the requests of the
round trip. -/
theorem andThen_requests {α β : Type} (t : Traced α) (f : α → Except JSError β) :
    (t.andThen f).requests = t.requests := rfl

/-- C24: there is no retry. Each of `get`, `post`, `put` and `delete` of
`ApiService` issues exactly one request per call. Every read and delete
operation of the two services issues exactly one request (the period query
given two valid dates); `create` and `update` issue exactly one for a payload
the validator accepts and none for a payload it rejects; and no operation, on
any input, issues more than one. All of this holds for every behaviour of the
network, so also when the one request fails. -/
theorem no_retry (E : Engine) (fetch : Fetch) :
    (∀ endpoint params, (get E fetch endpoint params).requests.length = 1) ∧
    (∀ endpoint data, (post E fetch endpoint data).requests.length = 1) ∧
    (∀ endpoint data, (put E fetch endpoint data).requests.length = 1) ∧
    (∀ endpoint, (delete E fetch endpoint).requests.length = 1) ∧
    ((SensorService.getAllSensores E fetch).requests.length = 1 ∧
      (∀ id, (SensorService.getSensorById E fetch id).requests.length = 1) ∧
      (∀ id, (SensorService.deleteSensor E fetch id).requests.length = 1) ∧
      (getAllLeituras E fetch).requests.length = 1 ∧
      (∀ id, (getLeituraById E fetch id).requests.length = 1) ∧
      (getTemperaturasAltas E fetch).requests.length = 1 ∧
      (∀ start finish : Int,
        (getLeiturasPorPeriodo E fetch (.date (some start))
          (.date (some finish))).requests.length = 1) ∧
      (∀ id, (deleteLeitura E fetch id).requests.length = 1)) ∧
    (∀ d r, validateSensorData d = .ok r → r.isValid = true →
      (SensorService.createSensor E fetch d).requests.length = 1 ∧
      ∀ id, (SensorService.updateSensor E fetch id d).requests.length = 1) ∧
    (∀ d r, validateSensorData d = .ok r → r.isValid = false →
      (SensorService.createSensor E fetch d).requests.length = 0 ∧
      ∀ id, (SensorService.updateSensor E fetch id d).requests.length = 0) ∧
    (∀ d, (validateLeituraData d).isValid = true →
      (createLeitura E fetch d).requests.length = 1 ∧
      ∀ id, (updateLeitura E fetch id d).requests.length = 1) ∧
    (∀ d, (validateLeituraData d).isValid = false →
      (createLeitura E fetch d).requests.length = 0 ∧
      ∀ id, (updateLeitura E fetch id d).requests.length = 0) ∧
    (∀ sensorData leituraData id start finish,
      (SensorService.createSensor E fetch sensorData).requests.length ≤ 1 ∧
      (SensorService.updateSensor E fetch id sensorData).requests.length ≤ 1 ∧
      (createLeitura E fetch leituraData).requests.length ≤ 1 ∧
      (updateLeitura E fetch id leituraData).requests.length ≤ 1 ∧
      (getLeiturasPorPeriodo E fetch start finish).requests.length ≤ 1) := by
  refine ⟨fun _ _ => rfl, fun _ _ => rfl, fun _ _ => rfl, fun _ => rfl,
    ⟨rfl, fun _ => rfl, fun _ => rfl, rfl, fun _ => rfl, rfl, fun _ _ => rfl, fun _ => rfl⟩,
    ?_, ?_, ?_, ?_, ?_⟩
  · intro d r hr hv
    obtain ⟨dto, hdto⟩ := sensorDto_of_valid d r hr hv
    refine ⟨?_, fun id => ?_⟩
    · simp only [SensorService.createSensor, hr, hv, hdto, Bool.not_true, Bool.false_eq_true,
        if_false]
      rfl
    · simp only [SensorService.updateSensor, hr, hv, hdto, Bool.not_true, Bool.false_eq_true,
        if_false]
      rfl
  · intro d r hr hv
    simp [SensorService.createSensor, SensorService.updateSensor, hr, hv, Traced.fail]
  · intro d hv
    obtain ⟨dto, hdto⟩ := leituraDto_of_valid E d hv
    refine ⟨?_, fun id => ?_⟩
    · simp only [createLeitura, hv, hdto, Bool.not_true, Bool.false_eq_true, if_false]
      rfl
    · simp only [updateLeitura, hv, hdto, Bool.not_true, Bool.false_eq_true, if_false]
      rfl
  · intro d hv
    simp [createLeitura, updateLeitura, hv, Traced.fail]
  · intro sensorData leituraData id start finish
    refine ⟨?_, ?_, ?_, ?_, ?_⟩
    · simp only [SensorService.createSensor]
      split
      · simp [Traced.fail]
      · split_ifs
        · simp [Traced.fail]
        · split
          · simp [Traced.fail]
          · simp [post, roundTrip]
    · simp only [SensorService.updateSensor]
      split
      · simp [Traced.fail]
      · split_ifs
        · simp [Traced.fail]
        · split
          · simp [Traced.fail]
          · simp [put, roundTrip, Traced.andThen]
    · simp only [createLeitura]
      split_ifs
      · simp [Traced.fail]
      · split
        · simp [Traced.fail]
        · simp [post, roundTrip, Traced.andThen]
    · simp only [updateLeitura]
      split_ifs
      · simp [Traced.fail]
      · split
        · simp [Traced.fail]
        · simp [put, roundTrip, Traced.andThen]
    · simp only [getLeiturasPorPeriodo]
      split
      · simp [Traced.fail]
      · split
        · simp [Traced.fail]
        · simp [ApiService.get, roundTrip, Traced.andThen]

/-- Witness of C24: with the network down, creating an accepted reading
issues one request, and creating a rejected one (150 degrees) issues none. -/
theorem no_retry_witness :
    (createLeitura sampleEngine offline
      { dataHora := .date (some 0), temperatura := .num (.fin 21),
        sensorId := .num (.fin 1) }).requests.length = 1 ∧
    (createLeitura sampleEngine offline
      { dataHora := .date (some 0), temperatura := .num (.fin 150),
        sensorId := .num (.fin 1) }).requests.length = 0 :=
  ⟨((no_retry sampleEngine offline).2.2.2.2.2.2.2.1 _ (by decide!)).1,
    ((no_retry sampleEngine offline).2.2.2.2.2.2.2.2.1 _ (by decide!)).1⟩

/-- A property read after `setField`: the key that was set has the new value,
every other key the value it had. -/
theorem fieldOf_setField (key other : String) (value : Field) (item : List (String × Field)) :
    fieldOf other (setField key value item) =
      if other = key then some value else fieldOf other item := by
  induction item with
  | nil =>
    by_cases h : other = key
    · simp [setField, fieldOf, h]
    · have h2 : ¬ key = other := fun hc => h hc.symm
      simp [setField, fieldOf, h, h2]
  | cons kv rest ih =>
    simp only [setField]
    by_cases hk : kv.1 = key
    · by_cases h : other = key
      · simp [fieldOf, hk, h]
      · have h2 : ¬ key = other := fun hc => h hc.symm
        simp [fieldOf, hk, h, h2]
    · have hk2 : (kv.1 == key) = false := by simpa using hk
      rw [hk2]
      by_cases h1 : kv.1 = other
      · have h : ¬ other = key := fun hc => hk (h1.trans hc)
        simp [fieldOf, h1, h]
      · have hn : ∀ l, List.find? (fun kv : String × Field => kv.1 == other) (kv :: l) =
            List.find? (fun kv => kv.1 == other) l := fun l => by simp [List.find?_cons, h1]
        simp only [fieldOf, Bool.false_eq_true, if_false] at ih ⊢
        rw [hn, hn]
        exact ih

/-- The properties a spread copies from an object are its properties. -/
theorem fieldOf_spread_obj (key : String) (props : List (String × JSON)) :
    fieldOf key (spread (.obj props)) = (propertyOf key props).map Field.json := by
  induction props with
  | nil => rfl
  | cons kv rest ih =>
    simp only [fieldOf, spread, propertyOf, List.map_cons] at ih ⊢
    by_cases h : kv.1 = key
    · simp [h]
    · have hn : ∀ l, List.find? (fun kv : String × Field => kv.1 == key)
          ((kv.1, Field.json kv.2) :: l) = List.find? (fun kv => kv.1 == key) l :=
        fun l => by simp [List.find?_cons, h]
      have hm : ∀ l, List.find? (fun kv : String × JSON => kv.1 == key) (kv :: l) =
          List.find? (fun kv => kv.1 == key) l := fun l => by simp [List.find?_cons, h]
      rw [hn, hm]
      exact ih

/-- The item built for a response object keeps every field but `dataHora`. -/
theorem withDataHora_keeps (E : Engine) (leitura : JSON) (item : List (String × Field))
    (h : withDataHora E leitura = .ok item) : keepsAllButDataHora E leitura item := by
  intro props hp
  subst hp
  simp only [withDataHora, JSON.getField, Except.ok.injEq] at h
  subst h
  refine ⟨fun key hkey => ?_, ?_⟩
  · rw [fieldOf_setField, if_neg hkey, fieldOf_spread_obj]
  · rw [fieldOf_setField, if_pos rfl]
    rfl

/-- Building the item succeeds on every response item but `null`. -/
theorem withDataHora_total (E : Engine) (leitura : JSON) (h : leitura ≠ .null) :
    ∃ item, withDataHora E leitura = .ok item := by
  cases leitura with
  | null => exact absurd rfl h
  | bool b => exact ⟨_, rfl⟩
  | num q => exact ⟨_, rfl⟩
  | str s => exact ⟨_, rfl⟩
  | arr items => exact ⟨_, rfl⟩
  | obj props => exact ⟨_, rfl⟩

/-- A `map` that succeeds returns one item per item of the list, in the order
of the list, each related to its source by whatever the callback ensures. -/
theorem mapM_pointwise {α β : Type} (f : α → Except JSError β) (R : α → β → Prop)
    (hR : ∀ a b, f a = .ok b → R a b) :
    ∀ (as : List α) (bs : List β), as.mapM f = .ok bs → List.Forall₂ R as bs := by
  intro as
  induction as with
  | nil =>
    intro bs h
    simp only [List.mapM_nil, pure, Except.pure, Except.ok.injEq] at h
    subst h
    exact List.Forall₂.nil
  | cons a rest ih =>
    intro bs h
    rw [List.mapM_cons] at h
    cases hfa : f a with
    | error e =>
      rw [hfa] at h
      cases h
    | ok b =>
      cases hrest : rest.mapM f with
      | error e =>
        rw [hfa, hrest] at h
        cases h
      | ok bs2 =>
        rw [hfa, hrest] at h
        cases h
        exact List.Forall₂.cons (hR a b hfa) (ih bs2 hrest)

/-- A `map` whose callback succeeds on every item succeeds. -/
theorem mapM_total {α β : Type} (f : α → Except JSError β) :
    ∀ as : List α, (∀ a ∈ as, ∃ b, f a = .ok b) → ∃ bs, as.mapM f = .ok bs := by
  intro as
  induction as with
  | nil => exact fun _ => ⟨[], rfl⟩
  | cons a rest ih =>
    intro h
    obtain ⟨b, hb⟩ := h a (List.mem_cons_self _ _)
    obtain ⟨bs, hbs⟩ := ih (fun x hx => h x (List.mem_cons_of_mem _ hx))
    refine ⟨b :: bs, ?_⟩
    rw [List.mapM_cons, hb, hbs]
    rfl

/-- The list operations on a response that is a list: they succeed when no
item is `null`, and what they return keeps length, order and fields. -/
theorem mapLeituras_frame (E : Engine) (t : Traced JSON) (items : List JSON)
    (h : t.outcome = .ok (.arr items)) :
    ((∀ v ∈ items, v ≠ .null) → ∃ result, (t.andThen (mapLeituras E)).outcome = .ok result) ∧
    (∀ result, (t.andThen (mapLeituras E)).outcome = .ok result →
      result.length = items.length ∧ List.Forall₂ (keepsAllButDataHora E) items result) := by
  simp only [Traced.andThen, h, mapLeituras]
  refine ⟨fun hn => mapM_total _ items (fun v hv => withDataHora_total E v (hn v hv)), ?_⟩
  intro result hres
  have hf := mapM_pointwise (withDataHora E) (keepsAllButDataHora E) (withDataHora_keeps E)
    items result hres
  exact ⟨hf.length_eq.symm, hf⟩

/-- C25: `getTemperaturasAltas` applies no threshold of its own, and neither
`getAllLeituras` nor `getLeiturasPorPeriodo` drops, adds or reorders an item.
When the transport returns a list, what the operation returns has the length
of that list and its items correspond to the items of the list in order; the
item returned for a response object has, under every key but `dataHora`, the
value the response object has there (so `temperatura`, `sensorId`, `id` and
`nomeSensor` are unchanged, and absent when absent), and under `dataHora` the
`Date` built from the response's `dataHora`. The operation succeeds on every
list without a `null` item. -/
theorem reads_keep_every_item (E : Engine) (fetch : Fetch) (items : List JSON) :
    ((get E fetch API_ENDPOINTS.LEITURAS.TEMPERATURAS_ALTAS []).outcome = .ok (.arr items) →
      ((∀ v ∈ items, v ≠ .null) →
        ∃ result, (getTemperaturasAltas E fetch).outcome = .ok result) ∧
      (∀ result, (getTemperaturasAltas E fetch).outcome = .ok result →
        result.length = items.length ∧
        List.Forall₂ (keepsAllButDataHora E) items result)) ∧
    ((get E fetch API_ENDPOINTS.LEITURAS.GET_ALL []).outcome = .ok (.arr items) →
      ((∀ v ∈ items, v ≠ .null) → ∃ result, (getAllLeituras E fetch).outcome = .ok result) ∧
      (∀ result, (getAllLeituras E fetch).outcome = .ok result →
        result.length = items.length ∧
        List.Forall₂ (keepsAllButDataHora E) items result)) ∧
    (∀ start finish : Int,
      (get E fetch API_ENDPOINTS.LEITURAS.POR_PERIODO
        [("inicio", .str (isoString start)), ("fim", .str (isoString finish))]).outcome =
        .ok (.arr items) →
      ((∀ v ∈ items, v ≠ .null) →
        ∃ result, (getLeiturasPorPeriodo E fetch (.date (some start))
          (.date (some finish))).outcome = .ok result) ∧
      (∀ result, (getLeiturasPorPeriodo E fetch (.date (some start))
          (.date (some finish))).outcome = .ok result →
        result.length = items.length ∧
        List.Forall₂ (keepsAllButDataHora E) items result)) :=
  ⟨fun h => mapLeituras_frame E _ items h, fun h => mapLeituras_frame E _ items h,
    fun _ _ h => mapLeituras_frame E _ items h⟩

/-- Witness of C25: a server answers `temperaturas-altas` with three readings,
one of them at -5 degrees; the operation returns three items. -/
theorem reads_keep_every_item_witness :
    ∃ result,
      (getTemperaturasAltas sampleEngine
        (answering sampleReadingsText (.arr sampleReadings))).outcome = .ok result ∧
      result.length = 3 ∧ List.Forall₂ (keepsAllButDataHora sampleEngine) sampleReadings result :=
  have h := (reads_keep_every_item sampleEngine
    (answering sampleReadingsText (.arr sampleReadings)) sampleReadings).1 rfl
  (h.1 (by simp [sampleReadings])).elim (fun result hr => ⟨result, hr, h.2 result hr⟩)

/-- C22, as the claim states it, fails: a server answers with three readings,
the second with the `dataHora` text "ontem" and the third with no `dataHora`;
`getAllLeituras` does not fail, it returns the three items, the second and the
third with an invalid `Date`. -/
theorem getAllLeituras_returns_invalid_dataHora :
    (getAllLeituras sampleEngine (answering sampleReadingsText (.arr sampleReadings))).outcome =
      .ok [[("id", .json (.num 1)), ("dataHora", .date (some 1714564800000)),
          ("temperatura", .json (.num 41)), ("sensorId", .json (.num 3))],
        [("id", .json (.num 2)), ("dataHora", .date none),
          ("temperatura", .json (.num (-5))), ("sensorId", .json (.num 3))],
        [("id", .json (.num 3)), ("temperatura", .json (.num 38)),
          ("sensorId", .json (.num 4)), ("dataHora", .date none)]] := by
  rfl

/-- C22, amended: the read operations of the reading service build each
item's `dataHora` with `new Date(...)` and check nothing afterwards, so they
never fail on account of a `dataHora`. When the transport returns an object
(`getLeituraById`) or a list of objects (`getAllLeituras`,
`getTemperaturasAltas`, `getLeiturasPorPeriodo`) the operation succeeds, and
the `dataHora` of each returned item is the `Date` of the response's field:
the instant `Date.parse` reads from a text, and the invalid date when
`Date.parse` reads none or the field is missing. -/
theorem reads_convert_dataHora_unchecked (E : Engine) (fetch : Fetch) :
    (∀ id props,
      (get E fetch (API_ENDPOINTS.LEITURAS.GET_BY_ID E id) []).outcome = .ok (.obj props) →
      ∃ item, (getLeituraById E fetch id).outcome = .ok item ∧
        fieldOf "dataHora" item = some (.date (newDate E (propertyOf "dataHora" props)))) ∧
    (∀ items, (∀ v ∈ items, ∃ props, v = .obj props) →
      ((get E fetch API_ENDPOINTS.LEITURAS.GET_ALL []).outcome = .ok (.arr items) →
        ∃ result, (getAllLeituras E fetch).outcome = .ok result ∧
          List.Forall₂ (fun v item => ∀ props, v = .obj props →
            fieldOf "dataHora" item = some (.date (newDate E (propertyOf "dataHora" props))))
            items result) ∧
      ((get E fetch API_ENDPOINTS.LEITURAS.TEMPERATURAS_ALTAS []).outcome = .ok (.arr items) →
        ∃ result, (getTemperaturasAltas E fetch).outcome = .ok result ∧
          List.Forall₂ (fun v item => ∀ props, v = .obj props →
            fieldOf "dataHora" item = some (.date (newDate E (propertyOf "dataHora" props))))
            items result) ∧
      (∀ start finish : Int,
        (get E fetch API_ENDPOINTS.LEITURAS.POR_PERIODO
          [("inicio", .str (isoString start)), ("fim", .str (isoString finish))]).outcome =
          .ok (.arr items) →
        ∃ result, (getLeiturasPorPeriodo E fetch (.date (some start))
            (.date (some finish))).outcome = .ok result ∧
          List.Forall₂ (fun v item => ∀ props, v = .obj props →
            fieldOf "dataHora" item = some (.date (newDate E (propertyOf "dataHora" props))))
            items result)) ∧
    newDate E none = none ∧
    (∀ s, newDate E (some (.str s)) = E.dateParse s) := by
  have hlist : ∀ (t : Traced JSON) (items : List JSON),
      (∀ v ∈ items, ∃ props, v = .obj props) → t.outcome = .ok (.arr items) →
      ∃ result, (t.andThen (mapLeituras E)).outcome = .ok result ∧
        List.Forall₂ (fun v item => ∀ props, v = .obj props →
          fieldOf "dataHora" item = some (.date (newDate E (propertyOf "dataHora" props))))
          items result := by
    intro t items hobj h
    have hf := mapLeituras_frame E t items h
    obtain ⟨result, hr⟩ := hf.1 (fun v hv => by
      obtain ⟨props, rfl⟩ := hobj v hv
      simp)
    exact ⟨result, hr, ((hf.2 result hr).2).imp (fun _ _ hk props hp => (hk props hp).2)⟩
  refine ⟨?_, fun items hobj => ⟨hlist _ items hobj, hlist _ items hobj,
    fun _ _ => hlist _ items hobj⟩, rfl, fun _ => rfl⟩
  intro id props h
  have hw : withDataHora E (.obj props) = .ok (setField "dataHora"
      (.date (newDate E (propertyOf "dataHora" props))) (spread (.obj props))) := rfl
  refine ⟨setField "dataHora" (.date (newDate E (propertyOf "dataHora" props)))
    (spread (.obj props)), by simp only [getLeituraById, Traced.andThen, h, hw], ?_⟩
  exact ((withDataHora_keeps E _ _ hw) props rfl).2

/-- Witness of the amended C22 on the three sample readings. -/
theorem reads_convert_dataHora_unchecked_witness :
    ∃ result,
      (getAllLeituras sampleEngine (answering sampleReadingsText (.arr sampleReadings))).outcome =
        .ok result ∧
      List.Forall₂ (fun v item => ∀ props, v = .obj props →
        fieldOf "dataHora" item =
          some (.date (newDate sampleEngine (propertyOf "dataHora" props))))
        sampleReadings result :=
  ((reads_convert_dataHora_unchecked sampleEngine
    (answering sampleReadingsText (.arr sampleReadings))).2.1 sampleReadings
    (by simp [sampleReadings])).1 rfl

/-- C21: the timestamp round trip. For every valid instant (a time value
within 8.64e15 ms of the epoch), `toISOString` succeeds, `createLeitura` and
`updateLeitura` build a DTO and put that text in it as `dataHora`, and the
text reads back, in the format `toISOString` writes, as the same time value.
So on every engine whose `Date.parse` reads that format, `new Date(...)` of the
text, which is how the read operations decode the `dataHora` of a response, is
the same instant to the millisecond. The wire form of the epoch, of the
millisecond before it, of a year before year 0 and of the last valid instant
are as `toISOString` prints them. -/
theorem timestamp_round_trip (E : Engine) (hE : readsIsoFormat E) (t : Int)
    (ht : isTimeValue t) :
    toISOString (.date (some t)) = .ok (isoString t) ∧
    parseIsoString (isoString t) = some t ∧
    newDate E (some (.str (isoString t))) = some t ∧
    (∀ d : LeituraData, d.dataHora = .date (some t) →
      ∃ dto, leituraDto E d = .ok dto ∧
        dto.lookup "dataHora" = some (.str (isoString t))) ∧
    (∀ props, propertyOf "dataHora" props = some (.str (isoString t)) →
      ∃ item, withDataHora E (.obj props) = .ok item ∧
        fieldOf "dataHora" item = some (.date (some t))) ∧
    (isoString 0 = "1970-01-01T00:00:00.000Z" ∧
      isoString (-1) = "1969-12-31T23:59:59.999Z" ∧
      isoString 1714564800123 = "2024-05-01T12:00:00.123Z" ∧
      isoString (-62198755200000) = "-000001-01-01T00:00:00.000Z" ∧
      isoString 8640000000000000 = "+275760-09-13T00:00:00.000Z") := by
  have hread := parseIsoString_isoString t ht.1 ht.2
  have hparse : newDate E (some (.str (isoString t))) = some t := hE _ _ hread
  refine ⟨rfl, hread, hparse, ?_, ?_, by decide!⟩
  · intro d hd
    refine ⟨[("dataHora", .str (isoString t)),
      ("temperatura", .num (parseFloat E d.temperatura)),
      ("sensorId", .num (parseInt E d.sensorId))], ?_, rfl⟩
    simp only [leituraDto, hd, toISOString]
  · intro props hp
    have hitem : withDataHora E (.obj props) = .ok (setField "dataHora"
        (.date (newDate E (propertyOf "dataHora" props))) (spread (.obj props))) := rfl
    refine ⟨_, hitem, ?_⟩
    have hk := (withDataHora_keeps E _ _ hitem props rfl).2
    rw [hk, hp, hparse]

/-- Witness of C21: the instant 2024-05-01 12:00:00.123 UTC decodes to itself
on the sample engine, and so does the last valid instant. -/
theorem timestamp_round_trip_witness :
    newDate sampleEngine (some (.str (isoString 1714564800123))) = some 1714564800123 ∧
    newDate sampleEngine (some (.str (isoString 8640000000000000))) =
      some 8640000000000000 :=
  ⟨(timestamp_round_trip sampleEngine (fun _ _ h => h) 1714564800123
      ⟨by decide, by decide⟩).2.2.1,
    (timestamp_round_trip sampleEngine (fun _ _ h => h) 8640000000000000
      ⟨by decide, by decide⟩).2.2.1⟩

end Services

end ThermoGuard
